import Mathlib

/-!
Verification of the snapshot/diff (change-detection) engine of the
`ppc_flight_recorder` repository (`sync.py`, `storage.py`).

The embedding models Python values with an inductive `Value` type (floats are
modelled as exact rationals, which is adequate for the comparison semantics at
issue; IEEE rounding plays no role in any statement below), Python dicts as
association lists, and the Snowflake stores as lists of stored rows.  Fallible
Python code (the `int()` / `float()` coercions, Snowflake `MERGE` with
duplicate source keys) is modelled with `Option`.
-/

namespace PPCFlightRecorder

/-- A Python scalar value as it appears in snapshot rows: `None`, `int`,
`float` (modelled as an exact rational), `str`, or `bool`. -/
inductive Value where
  | none
  | int (n : Int)
  | float (q : ℚ)
  | str (s : String)
  | bool (b : Bool)
deriving DecidableEq, Repr

/-- Python truthiness (`bool(v)`): `None`, `0`, `0.0`, `""`, `False` are falsy. -/
def pyTruthy : Value → Bool
  | .none => false
  | .int n => n ≠ 0
  | .float q => q ≠ 0
  | .str s => s ≠ ""
  | .bool b => b

/-- Python `a or b`: returns `a` if truthy, else `b`. -/
def pyOr (a b : Value) : Value := if pyTruthy a then a else b

/-- Numeric view used by Python `==`: ints, floats and bools compare by
numeric value (`True == 1`, `50 == 50.0`). -/
def toRat? : Value → Option ℚ
  | .int n => some (n : ℚ)
  | .float q => some q
  | .bool b => some (if b then 1 else 0)
  | _ => Option.none

/-- Python `==` on scalar values: numeric types by value, strings by content,
`None` only equals `None`; mixed string/number is unequal. -/
def pyEq (a b : Value) : Bool :=
  match toRat? a, toRat? b with
  | some x, some y => decide (x = y)
  | _, _ =>
    match a, b with
    | .str s, .str t => decide (s = t)
    | .none, .none => true
    | _, _ => false

/-- Truncation toward zero, as Python `int()` applied to a float. -/
def pyTrunc (q : ℚ) : Int := if 0 ≤ q then ⌊q⌋ else ⌈q⌉

/-- Numeric value of a run of decimal digit characters. -/
def digitsVal (l : List Char) : Nat :=
  l.foldl (fun acc c => acc * 10 + (c.toNat - 48)) 0

/-- A nonempty all-digit character run, parsed to a natural number. -/
def strDigits? (l : List Char) : Option Nat :=
  if l ≠ [] ∧ l.all Char.isDigit then some (digitsVal l) else Option.none

/-- Python `int(str)`: optional sign followed by digits (surrounding
whitespace and digit-group underscores are not modelled; no claim exercises
them). -/
def pyIntOfStr? (s : String) : Option Int :=
  match s.data with
  | '-' :: rest => (strDigits? rest).map (fun n => -(n : Int))
  | '+' :: rest => (strDigits? rest).map (fun n => (n : Int))
  | l => (strDigits? l).map (fun n => (n : Int))

/-- Unsigned decimal literal: digits with at most a single point, at least
one part nonempty. -/
def parseUnsignedDec? (l : List Char) : Option ℚ :=
  let w := l.takeWhile (fun c => c ≠ '.')
  match l.dropWhile (fun c => c ≠ '.') with
  | [] => (strDigits? w).map (fun n => (n : ℚ))
  | '.' :: f =>
    if f.contains '.' then Option.none
    else if w = [] ∧ f = [] then Option.none
    else
      let wq : Option ℚ := if w = [] then some 0 else (strDigits? w).map (fun n => (n : ℚ))
      let fq : Option ℚ :=
        if f = [] then some 0
        else if f.all Char.isDigit then
          some ((digitsVal f : ℚ) / ((10 : ℚ) ^ f.length))
        else Option.none
      match wq, fq with
      | some a, some b => some (a + b)
      | _, _ => Option.none
  | _ => Option.none

/-- Python `float(str)` on plain decimal literals (optional sign, optional
single point).  Exponents, `inf`/`nan` and surrounding whitespace are not
modelled; no claim below exercises them. -/
def parseDecimal? (s : String) : Option ℚ :=
  match s.data with
  | '-' :: rest => (parseUnsignedDec? rest).map (fun q => -q)
  | '+' :: rest => parseUnsignedDec? rest
  | _ => parseUnsignedDec? s.data

/-- Python `int(v)`: identity on ints, truncation on floats, `0/1` on bools,
base-10 parse on strings, `TypeError` (None result) on `None`. -/
def pyInt? : Value → Option Int
  | .int n => some n
  | .float q => some (pyTrunc q)
  | .bool b => some (if b then 1 else 0)
  | .str s => pyIntOfStr? s
  | .none => Option.none

/-- Python `float(v)`. -/
def pyFloat? : Value → Option ℚ
  | .int n => some (n : ℚ)
  | .float q => some q
  | .bool b => some (if b then 1 else 0)
  | .str s => parseDecimal? s
  | .none => Option.none

/-- Decimal representation of a float value.  Integral rationals render as
Python does (`50.0`); the non-integral fallback is an exact `num/den` form,
which is deterministic (exact decimal rendering is not needed by any claim). -/
def floatRepr (q : ℚ) : String :=
  if q.den = 1 then toString q.num ++ ".0" else toString q.num ++ "/" ++ toString q.den

/-- Python `str(v)`. -/
def pyStr : Value → String
  | .none => "None"
  | .int n => toString n
  | .float q => floatRepr q
  | .str s => s
  | .bool b => if b then "True" else "False"

/-- Python slice `s[:n]` (by characters). -/
def pySlice (s : String) (n : Nat) : String := ⟨s.data.take n⟩

/-- A Python dict row: an association list from field name to value (keys are
unique in every row the code builds). -/
abbrev Row := List (String × Value)

/-- `row.get(k)`: the stored value, or `None` when the key is absent (Python's
`dict.get` default).  `row[k]` raises `KeyError` on an absent key where this
returns `Value.none`; every claim below constrains rows that carry their keys,
so the distinction is never exercised. -/
def dictGet (r : Row) (k : String) : Value := (List.lookup k r).getD Value.none

/-- `row.get(k, d)` with an explicit default. -/
def dictGetD (r : Row) (k : String) (d : Value) : Value := (List.lookup k r).getD d

theorem pyEq_refl (v : Value) : pyEq v v = true := by
  cases v <;> simp [pyEq, toRat?]

theorem pyEq_comm (a b : Value) : pyEq a b = pyEq b a := by
  cases a <;> cases b <;> simp [pyEq, toRat?, eq_comm]

theorem pyEq_trans {a b c : Value} (h1 : pyEq a b = true) (h2 : pyEq b c = true) :
    pyEq a c = true := by
  cases a <;> cases b <;> cases c <;> simp_all [pyEq, toRat?]

theorem pyEq_none_right {a b : Value} (h : pyEq a b = true) (hb : b = Value.none) :
    a = Value.none := by
  subst hb; cases a <;> simp_all [pyEq, toRat?]

/-- Python `==` on tuples of values (componentwise `==`, same length). -/
def valListEq : List Value → List Value → Bool
  | [], [] => true
  | a :: as, b :: bs => pyEq a b && valListEq as bs
  | _, _ => false

theorem valListEq_refl (l : List Value) : valListEq l l = true := by
  induction l with
  | nil => rfl
  | cons a t ih => simp [valListEq, pyEq_refl, ih]

theorem valListEq_comm (l m : List Value) : valListEq l m = valListEq m l := by
  induction l generalizing m with
  | nil => cases m <;> simp [valListEq]
  | cons a t ih => cases m <;> simp [valListEq, pyEq_comm, ih]

theorem valListEq_trans {l m n : List Value} (h1 : valListEq l m = true)
    (h2 : valListEq m n = true) : valListEq l n = true := by
  induction l generalizing m n with
  | nil => cases m <;> simp_all [valListEq]
  | cons a t ih =>
    cases m with
    | nil => simp_all [valListEq]
    | cons b u =>
      cases n with
      | nil => simp_all [valListEq]
      | cons c v =>
        simp only [valListEq, Bool.and_eq_true] at h1 h2 ⊢
        exact ⟨pyEq_trans h1.1 h2.1, ih h1.2 h2.2⟩

/-! Generic machinery for reasoning about keyed iteration: `find?` with a
unique satisfier, and counting emitted records over `flatMap` by key. -/

theorem find?_eq_of_mem_of_unique {α : Type} {l : List α} {p : α → Bool} {x : α}
    (hx : x ∈ l) (hpx : p x = true) (huniq : ∀ y ∈ l, p y = true → y = x) :
    l.find? p = some x := by
  induction l with
  | nil => cases hx
  | cons a t ih =>
    by_cases hpa : p a = true
    · have hax : a = x := huniq a (List.mem_cons_self a t) hpa
      subst hax
      exact List.find?_cons_of_pos t hpa
    · rw [List.find?_cons_of_neg t (by simpa using hpa)]
      rcases List.mem_cons.mp hx with h | h
      · exact absurd (h ▸ hpx) hpa
      · exact ih h (fun y hy => huniq y (List.mem_cons_of_mem a hy))

/-- Lookup in a Python dict comprehension `{key(r): r for r in l}`: the last
row whose key compares `==`-equal wins. -/
def lastMatchBy {α : Type} (l : List α) (p : α → Bool) : Option α :=
  l.reverse.find? p

theorem lastMatchBy_eq_of_unique {α : Type} {l : List α} {p : α → Bool} {x : α}
    (hx : x ∈ l) (hpx : p x = true) (huniq : ∀ y ∈ l, p y = true → y = x) :
    lastMatchBy l p = some x :=
  find?_eq_of_mem_of_unique (List.mem_reverse.mpr hx) hpx
    (fun y hy => huniq y (List.mem_reverse.mp hy))

theorem lastMatchBy_isSome_iff {α : Type} (l : List α) (p : α → Bool) :
    (lastMatchBy l p).isSome ↔ ∃ x ∈ l, p x = true := by
  simp [lastMatchBy, List.find?_isSome]

theorem lastMatchBy_prop {α : Type} {l : List α} {p : α → Bool} {x : α}
    (h : lastMatchBy l p = some x) : x ∈ l ∧ p x = true :=
  ⟨List.mem_reverse.mp (List.mem_of_find?_eq_some h), List.find?_some h⟩

/-- Records emitted by rows whose key is not `==`-equivalent to `k` never
match `k`: the total count over a keyed `flatMap` reduces to the count over
the unique row carrying `k`. -/
theorem countP_flatMap_eq_of_unique {α R K : Type} {eqv : K → K → Bool}
    (hsym : ∀ a b, eqv a b = eqv b a) (htr : ∀ {a b c}, eqv a b = true → eqv b c = true → eqv a c = true)
    {l : List α} {g : α → List R} {keyOf : α → K} {rkey : R → K}
    (hg : ∀ a ∈ l, ∀ d ∈ g a, rkey d = keyOf a)
    (hpw : l.Pairwise (fun x y => eqv (keyOf x) (keyOf y) = false))
    {k : K} {a0 : α} (ha0 : a0 ∈ l) (hk : eqv (keyOf a0) k = true) (p : R → Bool) :
    ((l.flatMap g).countP (fun d => eqv (rkey d) k && p d)) =
      ((g a0).countP (fun d => eqv (rkey d) k && p d)) := by
  induction l with
  | nil => cases ha0
  | cons a t ih =>
    have hsplit : (a :: t).flatMap g = g a ++ t.flatMap g := by simp
    rw [hsplit, List.countP_append]
    rcases List.mem_cons.mp ha0 with rfl | hmem
    · have hzero : (t.flatMap g).countP (fun d => eqv (rkey d) k && p d) = 0 := by
        rw [List.countP_eq_zero]
        intro d hd
        rcases List.mem_flatMap.mp hd with ⟨b, hb, hdb⟩
        have hkey : rkey d = keyOf b := hg b (List.mem_cons_of_mem _ hb) d hdb
        have hne : eqv (keyOf a0) (keyOf b) = false := (List.pairwise_cons.mp hpw).1 b hb
        have : eqv (keyOf b) k = false := by
          by_contra hcon
          have hbk : eqv (keyOf b) k = true := by
            cases hbool : eqv (keyOf b) k
            · exact absurd hbool hcon
            · rfl
          have : eqv (keyOf a0) (keyOf b) = true := by
            have hkb : eqv k (keyOf b) = true := by rw [hsym]; exact hbk
            exact htr hk hkb
          simp [this] at hne
        simp [hkey, this]
      omega
    · have hzero : (g a).countP (fun d => eqv (rkey d) k && p d) = 0 := by
        rw [List.countP_eq_zero]
        intro d hd
        have hkey : rkey d = keyOf a := hg a (List.mem_cons_self a t) d hd
        have hne : eqv (keyOf a) (keyOf a0) = false := (List.pairwise_cons.mp hpw).1 a0 hmem
        have : eqv (keyOf a) k = false := by
          by_contra hcon
          have hak : eqv (keyOf a) k = true := by
            cases hbool : eqv (keyOf a) k
            · exact absurd hbool hcon
            · rfl
          have : eqv (keyOf a) (keyOf a0) = true := by
            have hka : eqv k (keyOf a0) = true := by rw [hsym]; exact hk
            exact htr hak hka
          simp [this] at hne
        simp [hkey, this]
      rw [hzero]
      have := ih (fun b hb d hd => hg b (List.mem_cons_of_mem a hb) d hd)
        (List.pairwise_cons.mp hpw).2 hmem
      omega

/-- When no row of `l` carries a key `==`-equivalent to `k`, no emitted
record matches `k`. -/
theorem countP_flatMap_eq_zero {α R K : Type} {eqv : K → K → Bool}
    {l : List α} {g : α → List R} {keyOf : α → K} {rkey : R → K}
    (hg : ∀ a ∈ l, ∀ d ∈ g a, rkey d = keyOf a)
    {k : K} (hnone : ∀ a ∈ l, eqv (keyOf a) k = false) (p : R → Bool) :
    ((l.flatMap g).countP (fun d => eqv (rkey d) k && p d)) = 0 := by
  rw [List.countP_eq_zero]
  intro d hd
  rcases List.mem_flatMap.mp hd with ⟨b, hb, hdb⟩
  have hkey : rkey d = keyOf b := hg b hb d hdb
  simp [hkey, hnone b hb]

/-- With pairwise `==`-distinct keys, a key match determines the row. -/
theorem pairwise_key_unique {α K : Type} {eqv : K → K → Bool}
    (hsym : ∀ a b, eqv a b = eqv b a)
    (htr : ∀ {a b c}, eqv a b = true → eqv b c = true → eqv a c = true)
    {l : List α} {keyOf : α → K}
    (hpw : l.Pairwise (fun x y => eqv (keyOf x) (keyOf y) = false))
    {k : K} {x : α} (hx : x ∈ l) (hkx : eqv (keyOf x) k = true) :
    ∀ y ∈ l, eqv (keyOf y) k = true → y = x := by
  intro y hy hky
  by_contra hne
  have hsymm : Symmetric (fun a b : α => eqv (keyOf a) (keyOf b) = false) := by
    intro a b hab
    rw [hsym]
    exact hab
  have hR : eqv (keyOf y) (keyOf x) = false := hpw.forall hsymm hy hx hne
  have hT : eqv (keyOf y) (keyOf x) = true := htr hky (by rw [hsym]; exact hkx)
  simp [hT] at hR

theorem pyEq_none_left {b : Value} (h : pyEq Value.none b = true) : b = Value.none := by
  cases b <;> simp_all [pyEq, toRat?]

theorem countP_flatMap_key_eq {α R K : Type} {eqv : K → K → Bool}
    (hsym : ∀ a b, eqv a b = eqv b a)
    (htr : ∀ {a b c}, eqv a b = true → eqv b c = true → eqv a c = true)
    {l : List α} {g : α → List R} {keyOf : α → K} {rkey : R → K}
    (hg : ∀ a ∈ l, ∀ d ∈ g a, rkey d = keyOf a)
    (hpw : l.Pairwise (fun x y => eqv (keyOf x) (keyOf y) = false))
    {k : K} {a0 : α} (ha0 : a0 ∈ l) (hk : eqv (keyOf a0) k = true) :
    ((l.flatMap g).countP (fun d => eqv (rkey d) k))
      = ((g a0).countP (fun d => eqv (rkey d) k)) := by
  have h := countP_flatMap_eq_of_unique hsym htr hg hpw ha0 hk (fun _ => true)
  simpa using h

theorem countP_flatMap_key_zero {α R K : Type} {eqv : K → K → Bool}
    {l : List α} {g : α → List R} {keyOf : α → K} {rkey : R → K}
    (hg : ∀ a ∈ l, ∀ d ∈ g a, rkey d = keyOf a)
    {k : K} (hnone : ∀ a ∈ l, eqv (keyOf a) k = false) :
    ((l.flatMap g).countP (fun d => eqv (rkey d) k)) = 0 := by
  have h := countP_flatMap_eq_zero hg hnone (fun _ => true)
  simpa using h

/-! ## Diff engine (`sync.py`) -/

/-- `CONTROL_STATE_METRIC_FIELDS` (sync.py). -/
def controlStateMetricFields : List String :=
  ["campaign_name", "status", "advertising_channel_type", "advertising_channel_sub_type",
   "daily_budget_micros", "daily_budget_amount", "budget_delivery_method", "bidding_strategy_type",
   "target_cpa_micros", "target_cpa_amount", "target_roas",
   "target_impression_share_location", "target_impression_share_location_fraction_micros",
   "geo_target_ids", "geo_negative_ids", "geo_radius_json", "location_presence_interest_json",
   "account_timezone", "device_modifiers_json",
   "network_settings_target_google_search", "network_settings_target_search_network",
   "network_settings_target_content_network", "network_settings_target_partner_search_network",
   "ad_schedule_json", "audience_target_count",
   "campaign_type", "networks", "campaign_start_date", "campaign_end_date",
   "location", "active_bid_adj", "devices"]

/-- `OUTCOME_METRIC_FIELDS` (sync.py). -/
def outcomeMetricFields : List String :=
  ["impressions", "clicks", "cost_micros", "cost_amount", "conversions", "conversions_value",
   "ctr", "cpc", "cpa", "roas", "cvr", "search_impression_share_pct",
   "search_rank_lost_impression_share_pct"]

/-- `str(v) if v is not None else None` — the stringification applied to
emitted old/new values in the field-diff functions. -/
def strOrNone (v : Value) : Value :=
  if v = Value.none then Value.none else Value.str (pyStr v)

/-- Output row of `compute_control_state_diffs`. -/
structure ControlDiff where
  campaign_id : Value
  changed_metric_name : String
  old_value : Value
  new_value : Value
deriving DecidableEq, Repr

/-- `prior_by_cid.get(cid)` where `prior_by_cid = {r["campaign_id"]: r for r in prior}`:
the last row whose campaign id compares `==`-equal to `cid`. -/
def priorByCid (prior : List Row) (cid : Value) : Option Row :=
  lastMatchBy prior (fun r => pyEq (dictGet r "campaign_id") cid)

/-- One iteration of the `for cur in current` loop of
`compute_control_state_diffs`. -/
def controlRowDiffs (prior : List Row) (cur : Row) : List ControlDiff :=
  match priorByCid prior (dictGet cur "campaign_id") with
  | Option.none => []
  | some prev =>
    if prev.isEmpty then []
    else
      controlStateMetricFields.filterMap (fun field =>
        if dictGet prev field = Value.none ∧ dictGet cur field = Value.none then Option.none
        else if pyEq (dictGet prev field) (dictGet cur field) then Option.none
        else some ⟨dictGet cur "campaign_id", field, strOrNone (dictGet prev field),
          strOrNone (dictGet cur field)⟩)

/-- `compute_control_state_diffs(current, prior)` (sync.py lines 140-163). -/
def computeControlStateDiffs (current prior : List Row) : List ControlDiff :=
  current.flatMap (controlRowDiffs prior)

/-- `_ad_group_snapshot_key` (sync.py). -/
def agKey (r : Row) : List Value := [dictGet r "campaign_id", dictGet r "ad_group_id"]

/-- Output row of `compute_ad_group_changes`. -/
structure AdGroupChange where
  campaign_id : Value
  ad_group_id : Value
  change_type : String
  ad_group_name : Value
  status : Value
  old_value : Value
  new_value : Value
deriving DecidableEq, Repr

/-- `(prev.get("status") or "") != (r.get("status") or "")`. -/
def agStatusChanged (prev r : Row) : Bool :=
  ! pyEq (pyOr (dictGet prev "status") (Value.str ""))
         (pyOr (dictGet r "status") (Value.str ""))

/-- `(prev.get("ad_group_name") or "") != (r.get("ad_group_name") or "")`. -/
def agNameChanged (prev r : Row) : Bool :=
  ! pyEq (pyOr (dictGet prev "ad_group_name") (Value.str ""))
         (pyOr (dictGet r "ad_group_name") (Value.str ""))

/-- The ADDED branch of `compute_ad_group_changes` for one current row. -/
def agAddedRecs (prior : List Row) (r : Row) : List AdGroupChange :=
  if prior.any (fun p => valListEq (agKey p) (agKey r)) then []
  else [{ campaign_id := dictGet r "campaign_id", ad_group_id := dictGet r "ad_group_id",
          change_type := "ADDED", ad_group_name := dictGet r "ad_group_name",
          status := dictGet r "status", old_value := Value.none,
          new_value := dictGet r "ad_group_name" }]

/-- The REMOVED branch of `compute_ad_group_changes` for one prior row. -/
def agRemovedRecs (current : List Row) (r : Row) : List AdGroupChange :=
  if current.any (fun c => valListEq (agKey c) (agKey r)) then []
  else [{ campaign_id := dictGet r "campaign_id", ad_group_id := dictGet r "ad_group_id",
          change_type := "REMOVED", ad_group_name := dictGet r "ad_group_name",
          status := dictGet r "status", old_value := dictGet r "ad_group_name",
          new_value := Value.none }]

/-- The classification of a matched (prev, current) ad-group pair. -/
def agClassifyRecs (prev r : Row) : List AdGroupChange :=
  if agStatusChanged prev r && agNameChanged prev r then
    [{ campaign_id := dictGet r "campaign_id", ad_group_id := dictGet r "ad_group_id",
       change_type := "UPDATED", ad_group_name := dictGet r "ad_group_name",
       status := dictGet r "status",
       old_value := Value.str ("status=" ++ pyStr (dictGet prev "status") ++ "; name=" ++
         pyStr (pyOr (dictGet prev "ad_group_name") (Value.str ""))),
       new_value := Value.str ("status=" ++ pyStr (dictGet r "status") ++ "; name=" ++
         pyStr (pyOr (dictGet r "ad_group_name") (Value.str ""))) }]
  else if agStatusChanged prev r then
    [{ campaign_id := dictGet r "campaign_id", ad_group_id := dictGet r "ad_group_id",
       change_type := "STATUS_CHANGED", ad_group_name := dictGet r "ad_group_name",
       status := dictGet r "status", old_value := dictGet prev "status",
       new_value := dictGet r "status" }]
  else if agNameChanged prev r then
    [{ campaign_id := dictGet r "campaign_id", ad_group_id := dictGet r "ad_group_id",
       change_type := "RENAMED", ad_group_name := dictGet r "ad_group_name",
       status := dictGet r "status", old_value := dictGet prev "ad_group_name",
       new_value := dictGet r "ad_group_name" }]
  else []

/-- The present-in-both branch of `compute_ad_group_changes` for one current
row. -/
def agModifiedRecs (prior : List Row) (r : Row) : List AdGroupChange :=
  match lastMatchBy prior (fun p => valListEq (agKey p) (agKey r)) with
  | Option.none => []
  | some prev => if prev.isEmpty then [] else agClassifyRecs prev r

/-- `compute_ad_group_changes(prior, current)` (sync.py lines 322-388): the
ADDED loop over current, the REMOVED loop over prior, then the classification
loop over current, appended in source order. -/
def computeAdGroupChanges (prior current : List Row) : List AdGroupChange :=
  current.flatMap (agAddedRecs prior) ++ prior.flatMap (agRemovedRecs current)
    ++ current.flatMap (agModifiedRecs prior)

/-- The identity key carried by an emitted ad-group change record. -/
def agChangeKey (rec : AdGroupChange) : List Value := [rec.campaign_id, rec.ad_group_id]

/-- `_keyword_snapshot_key` (sync.py). -/
def kwKey (r : Row) : List Value :=
  [dictGet r "campaign_id", dictGet r "ad_group_id",
   Value.str (pyStr (dictGetD r "keyword_criterion_id" (Value.str "")))]

/-- Output row of `compute_keyword_changes`. -/
structure KeywordChange where
  campaign_id : Value
  ad_group_id : Value
  keyword_criterion_id : String
  change_type : String
  keyword_text : Value
  match_type : Value
  old_value : Value
  new_value : Value
deriving DecidableEq, Repr

/-- `(prev.get("match_type") or "") != (r.get("match_type") or "")`. -/
def kwMtChanged (prev r : Row) : Bool :=
  ! pyEq (pyOr (dictGet prev "match_type") (Value.str ""))
         (pyOr (dictGet r "match_type") (Value.str ""))

/-- The ADDED branch of `compute_keyword_changes` for one current row. -/
def kwAddedRecs (prior : List Row) (r : Row) : List KeywordChange :=
  if prior.any (fun p => valListEq (kwKey p) (kwKey r)) then []
  else [{ campaign_id := dictGet r "campaign_id", ad_group_id := dictGet r "ad_group_id",
          keyword_criterion_id := pyStr (dictGetD r "keyword_criterion_id" (Value.str "")),
          change_type := "ADDED", keyword_text := dictGet r "keyword_text",
          match_type := dictGet r "match_type", old_value := Value.none,
          new_value := dictGet r "match_type" }]

/-- The REMOVED branch of `compute_keyword_changes` for one prior row. -/
def kwRemovedRecs (current : List Row) (r : Row) : List KeywordChange :=
  if current.any (fun c => valListEq (kwKey c) (kwKey r)) then []
  else [{ campaign_id := dictGet r "campaign_id", ad_group_id := dictGet r "ad_group_id",
          keyword_criterion_id := pyStr (dictGetD r "keyword_criterion_id" (Value.str "")),
          change_type := "REMOVED", keyword_text := dictGet r "keyword_text",
          match_type := dictGet r "match_type", old_value := dictGet r "match_type",
          new_value := Value.none }]

/-- The classification of a matched (prev, current) keyword pair: only
`match_type` is compared. -/
def kwClassifyRecs (prev r : Row) : List KeywordChange :=
  if kwMtChanged prev r then
    [{ campaign_id := dictGet r "campaign_id", ad_group_id := dictGet r "ad_group_id",
       keyword_criterion_id := pyStr (dictGetD r "keyword_criterion_id" (Value.str "")),
       change_type := "MATCH_TYPE_CHANGED", keyword_text := dictGet r "keyword_text",
       match_type := dictGet r "match_type", old_value := dictGet prev "match_type",
       new_value := dictGet r "match_type" }]
  else []

/-- The present-in-both branch of `compute_keyword_changes` for one current
row. -/
def kwModifiedRecs (prior : List Row) (r : Row) : List KeywordChange :=
  match lastMatchBy prior (fun p => valListEq (kwKey p) (kwKey r)) with
  | Option.none => []
  | some prev => if prev.isEmpty then [] else kwClassifyRecs prev r

/-- `compute_keyword_changes(prior, current)` (sync.py lines 395-440).  Note:
only `match_type` is compared for keys present in both snapshots. -/
def computeKeywordChanges (prior current : List Row) : List KeywordChange :=
  current.flatMap (kwAddedRecs prior) ++ prior.flatMap (kwRemovedRecs current)
    ++ current.flatMap (kwModifiedRecs prior)

/-- The identity key carried by an emitted keyword change record. -/
def kwChangeKey (rec : KeywordChange) : List Value :=
  [rec.campaign_id, rec.ad_group_id, Value.str rec.keyword_criterion_id]

/-- `_neg_key_key` (sync.py). -/
def negKwKey (r : Row) : List Value :=
  [dictGet r "campaign_id", pyOr (dictGet r "ad_group_id") (Value.str ""),
   Value.str (pyStr (dictGetD r "criterion_id" (Value.str "")))]

/-- Output row of `compute_negative_keyword_diffs`. -/
structure NegKeywordChange where
  campaign_id : Value
  ad_group_id : Value
  criterion_id : String
  change_type : String
  keyword_text : Value
  match_type : Value
  old_value : Value
  new_value : Value
deriving DecidableEq, Repr

/-- `(prev.get("match_type") or "") != (r.get("match_type") or "")`. -/
def negKwMtChanged (prev r : Row) : Bool :=
  ! pyEq (pyOr (dictGet prev "match_type") (Value.str ""))
         (pyOr (dictGet r "match_type") (Value.str ""))

/-- `(prev.get("keyword_text") or "") != (r.get("keyword_text") or "")`. -/
def negKwKtChanged (prev r : Row) : Bool :=
  ! pyEq (pyOr (dictGet prev "keyword_text") (Value.str ""))
         (pyOr (dictGet r "keyword_text") (Value.str ""))

/-- The ADDED branch of `compute_negative_keyword_diffs` for one current row. -/
def negKwAddedRecs (prior : List Row) (r : Row) : List NegKeywordChange :=
  if prior.any (fun p => valListEq (negKwKey p) (negKwKey r)) then []
  else [{ campaign_id := dictGet r "campaign_id",
          ad_group_id := pyOr (dictGet r "ad_group_id") (Value.str ""),
          criterion_id := pyStr (dictGetD r "criterion_id" (Value.str "")),
          change_type := "ADDED", keyword_text := dictGet r "keyword_text",
          match_type := dictGet r "match_type", old_value := Value.none,
          new_value := dictGet r "match_type" }]

/-- The REMOVED branch of `compute_negative_keyword_diffs` for one prior row. -/
def negKwRemovedRecs (current : List Row) (r : Row) : List NegKeywordChange :=
  if current.any (fun c => valListEq (negKwKey c) (negKwKey r)) then []
  else [{ campaign_id := dictGet r "campaign_id",
          ad_group_id := pyOr (dictGet r "ad_group_id") (Value.str ""),
          criterion_id := pyStr (dictGetD r "criterion_id" (Value.str "")),
          change_type := "REMOVED", keyword_text := dictGet r "keyword_text",
          match_type := dictGet r "match_type", old_value := dictGet r "match_type",
          new_value := Value.none }]

/-- The classification of a matched (prev, current) negative-keyword pair:
both `match_type` and `keyword_text` are compared. -/
def negKwClassifyRecs (prev r : Row) : List NegKeywordChange :=
  if negKwMtChanged prev r || negKwKtChanged prev r then
    [{ campaign_id := dictGet r "campaign_id",
       ad_group_id := pyOr (dictGet r "ad_group_id") (Value.str ""),
       criterion_id := pyStr (dictGetD r "criterion_id" (Value.str "")),
       change_type := if negKwMtChanged prev r && negKwKtChanged prev r then "UPDATED"
         else if negKwMtChanged prev r then "MATCH_TYPE_CHANGED" else "KEYWORD_TEXT_CHANGED",
       keyword_text := dictGet r "keyword_text", match_type := dictGet r "match_type",
       old_value := if negKwMtChanged prev r && negKwKtChanged prev r then
           Value.str ("match_type=" ++ pyStr (dictGet prev "match_type") ++ "; keyword_text=" ++
             pyStr (pyOr (dictGet prev "keyword_text") (Value.str "")))
         else if negKwMtChanged prev r then dictGet prev "match_type"
         else dictGet prev "keyword_text",
       new_value := if negKwMtChanged prev r && negKwKtChanged prev r then
           Value.str ("match_type=" ++ pyStr (dictGet r "match_type") ++ "; keyword_text=" ++
             pyStr (pyOr (dictGet r "keyword_text") (Value.str "")))
         else if negKwMtChanged prev r then dictGet r "match_type"
         else dictGet r "keyword_text" }]
  else []

/-- The present-in-both branch of `compute_negative_keyword_diffs` for one
current row. -/
def negKwModifiedRecs (prior : List Row) (r : Row) : List NegKeywordChange :=
  match lastMatchBy prior (fun p => valListEq (negKwKey p) (negKwKey r)) with
  | Option.none => []
  | some prev => if prev.isEmpty then [] else negKwClassifyRecs prev r

/-- `compute_negative_keyword_diffs(prior, current)` (sync.py lines 447-502). -/
def computeNegativeKeywordDiffs (prior current : List Row) : List NegKeywordChange :=
  current.flatMap (negKwAddedRecs prior) ++ prior.flatMap (negKwRemovedRecs current)
    ++ current.flatMap (negKwModifiedRecs prior)

/-- The identity key carried by an emitted negative-keyword change record. -/
def negKwChangeKey (rec : NegKeywordChange) : List Value :=
  [rec.campaign_id, rec.ad_group_id, Value.str rec.criterion_id]

/-- `_audience_key` (sync.py). -/
def audKey (r : Row) : List Value :=
  [dictGet r "campaign_id", pyOr (dictGet r "ad_group_id") (Value.str ""),
   Value.str (pyStr (dictGetD r "criterion_id" (Value.str "")))]

/-- Output row of `compute_audience_targeting_changes`. -/
structure AudienceChange where
  campaign_id : Value
  ad_group_id : Value
  criterion_id : String
  change_type : String
  audience_type : Value
  audience_id : Value
  audience_name : Value
  targeting_mode : Value
  old_value : Value
  new_value : Value
deriving DecidableEq, Repr

/-- `(prev.get("targeting_mode") or "") != (r.get("targeting_mode") or "")`. -/
def audModeChanged (prev r : Row) : Bool :=
  ! pyEq (pyOr (dictGet prev "targeting_mode") (Value.str ""))
         (pyOr (dictGet r "targeting_mode") (Value.str ""))

/-- `prev.get("bid_modifier") != r.get("bid_modifier")` (raw values). -/
def audBidChanged (prev r : Row) : Bool :=
  ! pyEq (dictGet prev "bid_modifier") (dictGet r "bid_modifier")

/-- The ADDED branch of `compute_audience_targeting_changes` for one current
row. -/
def audAddedRecs (prior : List Row) (r : Row) : List AudienceChange :=
  if prior.any (fun p => valListEq (audKey p) (audKey r)) then []
  else [{ campaign_id := dictGet r "campaign_id",
          ad_group_id := pyOr (dictGet r "ad_group_id") (Value.str ""),
          criterion_id := pyStr (dictGetD r "criterion_id" (Value.str "")),
          change_type := "ADDED", audience_type := dictGet r "audience_type",
          audience_id := dictGet r "audience_id", audience_name := dictGet r "audience_name",
          targeting_mode := dictGet r "targeting_mode", old_value := Value.none,
          new_value := pyOr (dictGet r "audience_id") (dictGet r "audience_type") }]

/-- The REMOVED branch of `compute_audience_targeting_changes` for one prior
row. -/
def audRemovedRecs (current : List Row) (r : Row) : List AudienceChange :=
  if current.any (fun c => valListEq (audKey c) (audKey r)) then []
  else [{ campaign_id := dictGet r "campaign_id",
          ad_group_id := pyOr (dictGet r "ad_group_id") (Value.str ""),
          criterion_id := pyStr (dictGetD r "criterion_id" (Value.str "")),
          change_type := "REMOVED", audience_type := dictGet r "audience_type",
          audience_id := dictGet r "audience_id", audience_name := dictGet r "audience_name",
          targeting_mode := dictGet r "targeting_mode",
          old_value := pyOr (dictGet r "audience_id") (dictGet r "audience_type"),
          new_value := Value.none }]

/-- The classification of a matched (prev, current) audience pair. -/
def audClassifyRecs (prev r : Row) : List AudienceChange :=
  if audModeChanged prev r && audBidChanged prev r then
    [{ campaign_id := dictGet r "campaign_id",
       ad_group_id := pyOr (dictGet r "ad_group_id") (Value.str ""),
       criterion_id := pyStr (dictGetD r "criterion_id" (Value.str "")),
       change_type := "UPDATED", audience_type := dictGet r "audience_type",
       audience_id := dictGet r "audience_id", audience_name := dictGet r "audience_name",
       targeting_mode := dictGet r "targeting_mode",
       old_value := Value.str ("mode=" ++ pyStr (dictGet prev "targeting_mode") ++
         "; bid_modifier=" ++ pyStr (dictGet prev "bid_modifier")),
       new_value := Value.str ("mode=" ++ pyStr (dictGet r "targeting_mode") ++
         "; bid_modifier=" ++ pyStr (dictGet r "bid_modifier")) }]
  else if audModeChanged prev r then
    [{ campaign_id := dictGet r "campaign_id",
       ad_group_id := pyOr (dictGet r "ad_group_id") (Value.str ""),
       criterion_id := pyStr (dictGetD r "criterion_id" (Value.str "")),
       change_type := "MODE_CHANGED", audience_type := dictGet r "audience_type",
       audience_id := dictGet r "audience_id", audience_name := dictGet r "audience_name",
       targeting_mode := dictGet r "targeting_mode",
       old_value := dictGet prev "targeting_mode",
       new_value := dictGet r "targeting_mode" }]
  else if audBidChanged prev r then
    [{ campaign_id := dictGet r "campaign_id",
       ad_group_id := pyOr (dictGet r "ad_group_id") (Value.str ""),
       criterion_id := pyStr (dictGetD r "criterion_id" (Value.str "")),
       change_type := "BID_MODIFIER_CHANGED", audience_type := dictGet r "audience_type",
       audience_id := dictGet r "audience_id", audience_name := dictGet r "audience_name",
       targeting_mode := dictGet r "targeting_mode",
       old_value := strOrNone (dictGet prev "bid_modifier"),
       new_value := strOrNone (dictGet r "bid_modifier") }]
  else []

/-- The present-in-both branch of `compute_audience_targeting_changes` for
one current row. -/
def audModifiedRecs (prior : List Row) (r : Row) : List AudienceChange :=
  match lastMatchBy prior (fun p => valListEq (audKey p) (audKey r)) with
  | Option.none => []
  | some prev => if prev.isEmpty then [] else audClassifyRecs prev r

/-- `compute_audience_targeting_changes(prior, current)` (sync.py lines
509-590). -/
def computeAudienceTargetingChanges (prior current : List Row) : List AudienceChange :=
  current.flatMap (audAddedRecs prior) ++ prior.flatMap (audRemovedRecs current)
    ++ current.flatMap (audModifiedRecs prior)

/-- The identity key carried by an emitted audience change record. -/
def audChangeKey (rec : AudienceChange) : List Value :=
  [rec.campaign_id, rec.ad_group_id, Value.str rec.criterion_id]

/-- Fields compared by `compute_ad_creative_diffs`. -/
def adCreativeDiffFields : List String :=
  ["headlines_json", "descriptions_json", "final_urls", "path1", "path2",
   "policy_summary_json", "status"]

/-- Output row of `compute_ad_creative_diffs`. -/
structure AdCreativeDiff where
  ad_group_id : Value
  ad_id : String
  changed_metric_name : String
  old_value : Value
  new_value : Value
deriving DecidableEq, Repr

/-- `(r.get("ad_group_id"), str(r.get("ad_id", "")))` — the ad-creative key. -/
def adCreativeKey (r : Row) : List Value :=
  [dictGet r "ad_group_id", Value.str (pyStr (dictGetD r "ad_id" (Value.str "")))]

/-- `str(v)[:65535] if v is not None else None`. -/
def truncStrOrNone (v : Value) : Value :=
  if v = Value.none then Value.none else Value.str (pySlice (pyStr v) 65535)

/-- `compute_ad_creative_diffs(prior, current)` (sync.py lines 593-614). -/
def computeAdCreativeDiffs (prior current : List Row) : List AdCreativeDiff :=
  current.flatMap (fun cur =>
    match lastMatchBy prior (fun p => valListEq (adCreativeKey p) (adCreativeKey cur)) with
    | Option.none => []
    | some prev =>
      if prev.isEmpty then []
      else
        adCreativeDiffFields.filterMap (fun field =>
          let ov := dictGet prev field
          let nv := dictGet cur field
          if ov = Value.none ∧ nv = Value.none then Option.none
          else if pyEq ov nv then Option.none
          else some ⟨dictGet cur "ad_group_id",
                     pyStr (dictGetD cur "ad_id" (Value.str "")), field,
                     truncStrOrNone ov, truncStrOrNone nv⟩))

/-- `cost_micros` computation shared by the outcome-row normalizers:
`row.get("cost_micros") or (int(float(cost or 0) * 1_000_000) if cost is not None else 0)`. -/
def costMicrosFor (row : Row) (cost : Value) : Option Value :=
  let cm := dictGet row "cost_micros"
  if pyTruthy cm then some cm
  else if cost ≠ Value.none then
    (pyFloat? (pyOr cost (Value.int 0))).map (fun q => Value.int (pyTrunc (q * 1000000)))
  else some (Value.int 0)

/-- `cost_amount = float(cost) if cost_amount is None and cost is not None`. -/
def costAmountFor (row : Row) (cost : Value) : Option Value :=
  let ca := dictGet row "cost_amount"
  if ca = Value.none ∧ cost ≠ Value.none then (pyFloat? cost).map Value.float
  else some ca

/-- The shared metric tail of the normalized outcome rows (all fields after
the identity columns are built identically in the three normalizers). -/
def outcomeMetricTail (row : Row) : Option Row := do
  let cost := dictGet row "cost"
  let costAmount ← costAmountFor row cost
  let impressions ← (pyInt? (pyOr (dictGet row "impressions") (Value.int 0))).map Value.int
  let clicks ← (pyInt? (pyOr (dictGet row "clicks") (Value.int 0))).map Value.int
  let costMicros ← costMicrosFor row cost
  let costAmountF ← (pyFloat? (pyOr costAmount (Value.int 0))).map Value.float
  let conversions ← (pyFloat? (pyOr (dictGet row "conversions") (Value.int 0))).map Value.float
  let conversionsValue ← (pyFloat? (pyOr (pyOr (dictGet row "conversionValue")
      (dictGet row "conversions_value")) (Value.int 0))).map Value.float
  pure [("impressions", impressions), ("clicks", clicks), ("cost_micros", costMicros),
        ("cost_amount", costAmountF), ("conversions", conversions),
        ("conversions_value", conversionsValue),
        ("ctr", dictGet row "ctr"), ("cpc", dictGet row "cpc"), ("cpa", dictGet row "cpa"),
        ("roas", dictGet row "roas"), ("cvr", dictGet row "cvr"),
        ("search_impression_share_pct", pyOr (dictGet row "impressionSharePct")
          (dictGet row "search_impression_share_pct")),
        ("search_rank_lost_impression_share_pct",
          dictGet row "search_rank_lost_impression_share_pct")]

/-- `_outcome_row_for_diff(row)` (sync.py lines 166-184): campaign outcome
normalization; `int()` / `float()` failures surface as `Option.none`. -/
def outcomeRowForDiff (row : Row) : Option Row := do
  let cid := pyOr (dictGet row "campaignId") (dictGet row "campaign_id")
  let tail ← outcomeMetricTail row
  pure (("campaign_id", cid) :: tail)

/-- `_ad_group_outcome_row_for_diff(row)` (sync.py lines 207-227). -/
def adGroupOutcomeRowForDiff (row : Row) : Option Row := do
  let agid := pyOr (dictGet row "ad_group_id") (dictGet row "adGroupId")
  let cid := pyOr (dictGet row "campaign_id") (dictGet row "campaignId")
  let tail ← outcomeMetricTail row
  pure (("ad_group_id", agid) :: ("campaign_id", cid) :: tail)

/-- `_keyword_outcome_row_for_diff(row)` (sync.py lines 253-271). -/
def keywordOutcomeRowForDiff (row : Row) : Option Row := do
  let kid := Value.str (pyStr (pyOr (pyOr (dictGet row "keyword_criterion_id")
      (dictGet row "keywordCriterionId")) (Value.str "")))
  let tail ← outcomeMetricTail row
  pure (("keyword_criterion_id", kid) :: tail)

/-- Output row of `compute_outcome_diffs`. -/
structure OutcomeDiff where
  campaign_id : Value
  changed_metric_name : String
  old_value : Value
  new_value : Value
deriving DecidableEq, Repr

/-- The inner comparison loop shared by the outcome diff functions: emit a
record per declared field whose values are not both `None` and differ. -/
def outcomeFieldRecords {R : Type} (prev cur : Row) (mk : String → Value → Value → R) : List R :=
  outcomeMetricFields.filterMap (fun field =>
    let ov := dictGet prev field
    let nv := dictGet cur field
    if ov = Value.none ∧ nv = Value.none then Option.none
    else if pyEq ov nv then Option.none
    else some (mk field (strOrNone ov) (strOrNone nv)))

/-- `compute_outcome_diffs(current, prior)` (sync.py lines 187-204).  Both
sides are normalized with `_outcome_row_for_diff` first. -/
def computeOutcomeDiffs (current prior : List Row) : Option (List OutcomeDiff) := do
  let curNorm ← current.mapM outcomeRowForDiff
  let priorNorm ← prior.mapM outcomeRowForDiff
  pure (curNorm.flatMap (fun cur =>
    let cid := dictGet cur "campaign_id"
    match priorByCid priorNorm cid with
    | Option.none => []
    | some prev =>
      if prev.isEmpty then []
      else outcomeFieldRecords prev cur (fun f ov nv => OutcomeDiff.mk cid f ov nv)))

/-- Output row of `compute_ad_group_outcome_diffs`. -/
structure AdGroupOutcomeDiff where
  ad_group_id : Value
  campaign_id : Value
  changed_metric_name : String
  old_value : Value
  new_value : Value
deriving DecidableEq, Repr

/-- `compute_ad_group_outcome_diffs(current, prior)` (sync.py lines 230-250):
takes rows already normalized by the caller (`run_sync` normalizes both sides
with `_ad_group_outcome_row_for_diff` before calling). -/
def computeAdGroupOutcomeDiffs (current prior : List Row) : List AdGroupOutcomeDiff :=
  current.flatMap (fun cur =>
    let agid := dictGet cur "ad_group_id"
    match lastMatchBy prior (fun r => pyEq (dictGet r "ad_group_id") agid) with
    | Option.none => []
    | some prev =>
      if prev.isEmpty then []
      else outcomeFieldRecords prev cur
        (fun f ov nv => AdGroupOutcomeDiff.mk agid (dictGet cur "campaign_id") f ov nv))

/-- Output row of `compute_keyword_outcome_diffs`. -/
structure KeywordOutcomeDiff where
  keyword_criterion_id : Value
  changed_metric_name : String
  old_value : Value
  new_value : Value
deriving DecidableEq, Repr

/-- `compute_keyword_outcome_diffs(current, prior)` (sync.py lines 274-293):
takes rows already normalized by the caller. -/
def computeKeywordOutcomeDiffs (current prior : List Row) : List KeywordOutcomeDiff :=
  current.flatMap (fun cur =>
    let kid := dictGet cur "keyword_criterion_id"
    match lastMatchBy prior (fun r => pyEq (dictGet r "keyword_criterion_id") kid) with
    | Option.none => []
    | some prev =>
      if prev.isEmpty then []
      else outcomeFieldRecords prev cur (fun f ov nv => KeywordOutcomeDiff.mk kid f ov nv))

/-! ## Storage layer (`storage.py`)

Stores are modelled as lists of stored rows; every stored row carries the key
columns the SQL statements set (`snapshot_date` / `outcome_date` and
`customer_id` as strings).  `MERGE` is a keyed overwrite of the non-key
columns, which for these tables is every other inserted column, so a matched
target row is replaced by the source row; per the comments in `storage.py`,
Snowflake rejects a `MERGE` whose source has duplicate key rows, modelled as
`Option.none`.  SQL equality on the typed key columns is value equality. -/

/-- `_safe_str(v, max_len)`: `None` stays `None`, everything else is
stringified and truncated. -/
def safeStr (v : Value) (maxLen : Nat) : Value :=
  if v = Value.none then Value.none else Value.str (pySlice (pyStr v) maxLen)

/-- Stand-in for `date.isoformat()`: days are numbered by an integer and
rendered injectively. -/
def dateStr (d : Int) : String := toString d

/-- The (unique, when defined) source row carrying key `k`; mirrors the
last-wins reading of a batch applied in order. -/
def lastWithKey (keyOf : Row → List Value) (rows : List Row) (k : List Value) : Option Row :=
  rows.reverse.find? (fun r => decide (keyOf r = k))

/-- What `MERGE` leaves of one target row: the source row carrying the same
key when there is one, the target row unchanged otherwise. -/
def mergeSubst (keyOf : Row → List Value) (rows : List Row) (t : Row) : Row :=
  match lastWithKey keyOf rows (keyOf t) with
  | some r => r
  | Option.none => t

/-- One batched `MERGE` statement: matched target rows are overwritten by
their source row, unmatched source rows are appended; a source batch with
duplicate keys is an error. -/
def mergeBatch (keyOf : Row → List Value) (store rows : List Row) : Option (List Row) :=
  if (rows.map keyOf).Nodup then
    some (store.map (mergeSubst keyOf rows)
          ++ rows.filter (fun r => ! store.any (fun t => decide (keyOf t = keyOf r))))
  else Option.none

/-- `SELECT ... WHERE customer_id = %s AND <dateCol> = %s` over a store; the
column projection is omitted (stored rows carry exactly the inserted columns,
and all readers access fields by name). -/
def getRowsForDate (dateCol : String) (cust : String) (d : Int) (store : List Row) : List Row :=
  store.filter (fun t => decide (dictGet t "customer_id" = Value.str cust)
    && decide (dictGet t dateCol = Value.str (dateStr d)))

/-- The delete-then-insert discipline used by the diff/change stores:
`DELETE ... WHERE <dateCol> = %s AND customer_id = %s` followed by inserting
the freshly built records. -/
def replaceForDate (dateCol : String) (d : Int) (cust : String) (store recs : List Row) :
    List Row :=
  store.filter (fun t => ! (decide (dictGet t dateCol = Value.str (dateStr d))
    && decide (dictGet t "customer_id" = Value.str cust))) ++ recs

/-- Python `dict[k] = v`: replace in place, or append when absent. -/
def dictSet (r : Row) (k : String) (v : Value) : Row :=
  if (List.lookup k r).isSome then r.map (fun kv => if kv.1 = k then (k, v) else kv)
  else r ++ [(k, v)]

/-- `_control_state_row_for_storage(row)` (sync.py lines 114-137). -/
def controlStateRowForStorage (row : Row) : Row :=
  [("campaign_id", dictGet row "campaign_id"), ("campaign_name", dictGet row "campaign_name"),
   ("status", dictGet row "status"),
   ("advertising_channel_type", dictGet row "advertising_channel_type"),
   ("advertising_channel_sub_type", dictGet row "advertising_channel_sub_type"),
   ("daily_budget_micros", dictGet row "daily_budget_micros"),
   ("daily_budget_amount", dictGet row "daily_budget_amount"),
   ("budget_delivery_method", dictGet row "budget_delivery_method"),
   ("bidding_strategy_type", dictGet row "bidding_strategy_type"),
   ("target_cpa_micros", dictGet row "target_cpa_micros"),
   ("target_cpa_amount", dictGet row "target_cpa_amount"),
   ("target_roas", dictGet row "target_roas"),
   ("target_impression_share_location", dictGet row "target_impression_share_location"),
   ("target_impression_share_location_fraction_micros",
     dictGet row "target_impression_share_location_fraction_micros"),
   ("geo_target_ids", dictGet row "geo_target_ids"),
   ("geo_negative_ids", dictGet row "geo_negative_ids"),
   ("geo_radius_json", dictGet row "geo_radius_json"),
   ("location_presence_interest_json", dictGet row "location_presence_interest_json"),
   ("account_timezone", dictGet row "account_timezone"),
   ("device_modifiers_json", dictGet row "device_modifiers_json"),
   ("network_settings_target_google_search", dictGet row "network_settings_target_google_search"),
   ("network_settings_target_search_network", dictGet row "network_settings_target_search_network"),
   ("network_settings_target_content_network", dictGet row "network_settings_target_content_network"),
   ("network_settings_target_partner_search_network",
     dictGet row "network_settings_target_partner_search_network"),
   ("ad_schedule_json", dictGet row "ad_schedule_json"),
   ("audience_target_count", dictGet row "audience_target_count"),
   ("campaign_type", dictGet row "campaign_type"), ("networks", dictGet row "networks"),
   ("campaign_start_date", dictGet row "campaign_start_date"),
   ("campaign_end_date", dictGet row "campaign_end_date"),
   ("location", dictGet row "location"), ("active_bid_adj", dictGet row "active_bid_adj"),
   ("devices", dictGet row "devices")]

/-- Stored row of `ppc_campaign_control_state_daily` as built by
`upsert_control_state_daily` (storage.py lines 38-133). -/
def controlStoredRow (d : Int) (cust : String) (r : Row) : Row :=
  [("campaign_id", dictGet r "campaign_id"),
   ("snapshot_date", Value.str (dateStr d)),
   ("customer_id", Value.str cust),
   ("campaign_name", safeStr (dictGet r "campaign_name") 512),
   ("status", safeStr (dictGet r "status") 32),
   ("advertising_channel_type", safeStr (dictGet r "advertising_channel_type") 64),
   ("advertising_channel_sub_type", safeStr (dictGet r "advertising_channel_sub_type") 64),
   ("daily_budget_micros", dictGet r "daily_budget_micros"),
   ("daily_budget_amount", dictGet r "daily_budget_amount"),
   ("budget_delivery_method", safeStr (dictGet r "budget_delivery_method") 64),
   ("bidding_strategy_type", safeStr (dictGet r "bidding_strategy_type") 64),
   ("target_cpa_micros", dictGet r "target_cpa_micros"),
   ("target_cpa_amount", dictGet r "target_cpa_amount"),
   ("target_roas", dictGet r "target_roas"),
   ("target_impression_share_location", safeStr (dictGet r "target_impression_share_location") 32),
   ("target_impression_share_location_fraction_micros",
     dictGet r "target_impression_share_location_fraction_micros"),
   ("geo_target_ids", safeStr (dictGet r "geo_target_ids") 4096),
   ("geo_negative_ids", safeStr (dictGet r "geo_negative_ids") 4096),
   ("geo_target_names", safeStr (dictGet r "geo_target_names") 4096),
   ("geo_negative_names", safeStr (dictGet r "geo_negative_names") 4096),
   ("geo_radius_json", safeStr (dictGet r "geo_radius_json") 65535),
   ("account_timezone", safeStr (dictGet r "account_timezone") 64),
   ("network_settings_target_google_search", dictGet r "network_settings_target_google_search"),
   ("network_settings_target_search_network", dictGet r "network_settings_target_search_network"),
   ("network_settings_target_content_network", dictGet r "network_settings_target_content_network"),
   ("network_settings_target_partner_search_network",
     dictGet r "network_settings_target_partner_search_network"),
   ("ad_schedule_json", safeStr (dictGet r "ad_schedule_json") 65535),
   ("audience_target_count", dictGet r "audience_target_count"),
   ("campaign_type", safeStr (dictGet r "campaign_type") 128),
   ("networks", safeStr (dictGet r "networks") 256),
   ("campaign_start_date", dictGet r "campaign_start_date"),
   ("campaign_end_date", dictGet r "campaign_end_date"),
   ("location", safeStr (dictGet r "location") 4096),
   ("active_bid_adj", safeStr (dictGet r "active_bid_adj") 256)]

/-- `MERGE ... ON campaign_id, snapshot_date, customer_id`. -/
def controlSnapKeyOf (t : Row) : List Value :=
  [dictGet t "campaign_id", dictGet t "snapshot_date", dictGet t "customer_id"]

/-- `upsert_control_state_daily` (storage.py lines 38-133). -/
def upsertControlStateDaily (d : Int) (cust : String) (rows : List Row) (store : List Row) :
    Option (List Row) :=
  if rows.isEmpty then some store
  else mergeBatch controlSnapKeyOf store (rows.map (controlStoredRow d cust))

/-- `get_control_state_for_date` (storage.py lines 280-288). -/
def getControlStateForDate (cust : String) (d : Int) (store : List Row) : List Row :=
  getRowsForDate "snapshot_date" cust d store

/-- Stored row of `ppc_campaign_control_diff_daily`. -/
def controlDiffStoredRow (d : Int) (cust : String) (r : ControlDiff) : Row :=
  [("campaign_id", r.campaign_id), ("snapshot_date", Value.str (dateStr d)),
   ("customer_id", Value.str cust),
   ("changed_metric_name", safeStr (Value.str r.changed_metric_name) 128),
   ("old_value", safeStr r.old_value 65535), ("new_value", safeStr r.new_value 65535)]

/-- `insert_control_diff_daily` (storage.py lines 291-306): returns without
touching the store when the record set is empty; otherwise deletes all rows
for `(snapshot_date, customer_id)` and inserts the given records. -/
def insertControlDiffDaily (d : Int) (cust : String) (diffRows : List ControlDiff)
    (store : List Row) : List Row :=
  if diffRows.isEmpty then store
  else replaceForDate "snapshot_date" d cust store (diffRows.map (controlDiffStoredRow d cust))

/-- Stored row of `ppc_campaign_geo_targeting_daily` as built by
`upsert_geo_targeting_daily`. -/
def geoStoredRow (d : Int) (cust : String) (r : Row) : Row :=
  [("snapshot_date", Value.str (dateStr d)), ("customer_id", Value.str cust),
   ("campaign_id", dictGet r "campaign_id"),
   ("campaign_name", safeStr (dictGet r "campaign_name") 512),
   ("criterion_id", safeStr (dictGet r "criterion_id") 64),
   ("criterion_type", safeStr (dictGet r "criterion_type") 32),
   ("ordinal", dictGet r "ordinal"),
   ("geo_target_constant", safeStr (dictGet r "geo_target_constant") 256),
   ("geo_name", safeStr (dictGet r "geo_name") 512),
   ("negative", dictGet r "negative"),
   ("positive_geo_target_type", safeStr (dictGet r "positive_geo_target_type") 64),
   ("negative_geo_target_type", safeStr (dictGet r "negative_geo_target_type") 64),
   ("proximity_street_address", safeStr (dictGet r "proximity_street_address") 1024),
   ("proximity_city_name", safeStr (dictGet r "proximity_city_name") 256),
   ("radius", dictGet r "radius"),
   ("radius_units", safeStr (dictGet r "radius_units") 16),
   ("latitude_micro", dictGet r "latitude_micro"),
   ("longitude_micro", dictGet r "longitude_micro"),
   ("estimated_reach", dictGet r "estimated_reach")]

/-- `upsert_geo_targeting_daily` (storage.py lines 309-361): always deletes
all rows for `(snapshot_date, customer_id)` first; when `rows` is empty only
the delete runs, clearing the snapshot for that day. -/
def upsertGeoTargetingDaily (d : Int) (cust : String) (rows : List Row) (store : List Row) :
    List Row :=
  let cleared := store.filter (fun t =>
    ! (decide (dictGet t "snapshot_date" = Value.str (dateStr d))
       && decide (dictGet t "customer_id" = Value.str cust)))
  if rows.isEmpty then cleared
  else cleared ++ rows.map (geoStoredRow d cust)

/-- Stored row of `ppc_ad_group_snapshot_daily`. -/
def adGroupStoredRow (d : Int) (cust : String) (r : Row) : Row :=
  [("ad_group_id", dictGet r "ad_group_id"), ("campaign_id", dictGet r "campaign_id"),
   ("snapshot_date", Value.str (dateStr d)), ("customer_id", Value.str cust),
   ("ad_group_name", safeStr (dictGet r "ad_group_name") 512),
   ("status", safeStr (dictGet r "status") 32)]

/-- `MERGE ... ON ad_group_id, snapshot_date, customer_id`. -/
def adGroupSnapKeyOf (t : Row) : List Value :=
  [dictGet t "ad_group_id", dictGet t "snapshot_date", dictGet t "customer_id"]

/-- `upsert_ad_group_snapshot_daily` (storage.py lines 685-724). -/
def upsertAdGroupSnapshotDaily (d : Int) (cust : String) (rows : List Row) (store : List Row) :
    Option (List Row) :=
  if rows.isEmpty then some store
  else mergeBatch adGroupSnapKeyOf store (rows.map (adGroupStoredRow d cust))

/-- `get_ad_group_snapshot_for_date` (storage.py lines 727-738). -/
def getAdGroupSnapshotForDate (cust : String) (d : Int) (store : List Row) : List Row :=
  getRowsForDate "snapshot_date" cust d store

/-- Stored row of `ppc_ad_group_change_daily`. -/
def adGroupChangeStoredRow (d : Int) (cust : String) (r : AdGroupChange) : Row :=
  [("snapshot_date", Value.str (dateStr d)), ("customer_id", Value.str cust),
   ("campaign_id", r.campaign_id), ("ad_group_id", r.ad_group_id),
   ("change_type", safeStr (Value.str r.change_type) 32),
   ("ad_group_name", safeStr r.ad_group_name 512),
   ("status", safeStr r.status 32),
   ("old_value", safeStr r.old_value 65535), ("new_value", safeStr r.new_value 65535)]

/-- `insert_ad_group_change_daily` (storage.py lines 741-769). -/
def insertAdGroupChangeDaily (d : Int) (cust : String) (rows : List AdGroupChange)
    (store : List Row) : List Row :=
  if rows.isEmpty then store
  else replaceForDate "snapshot_date" d cust store (rows.map (adGroupChangeStoredRow d cust))

/-- First-seen-wins deduplication by a Python tuple key: `key in seen` uses
tuple `==`, i.e. componentwise Python equality. -/
def dedupByPyKey (keyOf : Row → List Value) (seen : List (List Value)) :
    List Row → List Row
  | [] => []
  | r :: rs =>
    let k := keyOf r
    if seen.any (fun k2 => valListEq k2 k) then dedupByPyKey keyOf seen rs
    else r :: dedupByPyKey keyOf (k :: seen) rs

/-- The keyword snapshot dedup key
`(str(keyword_criterion_id or ""), snapshot_date, customer_id, str(ad_group_id or ""))`
from `upsert_keyword_snapshot_daily` (storage.py lines 1150-1162). -/
def kwSnapDedupKey (dateS cust : String) (r : Row) : List Value :=
  [Value.str (pyStr (dictGetD r "keyword_criterion_id" (Value.str ""))),
   Value.str dateS, Value.str cust,
   Value.str (pyStr (dictGetD r "ad_group_id" (Value.str "")))]

/-- The dedup pass of `upsert_keyword_snapshot_daily`: keep the first row per
storage primary key, discard later duplicates. -/
def dedupKeywordSnapshotRows (d : Int) (cust : String) (rows : List Row) : List Row :=
  dedupByPyKey (kwSnapDedupKey (dateStr d) cust) [] rows

/-- `upsert_keyword_snapshot_daily` logs a collapse count exactly when the
deduplicated batch is shorter than the input batch. -/
def keywordSnapshotCollapseLogged (d : Int) (cust : String) (rows : List Row) : Bool :=
  decide ((dedupKeywordSnapshotRows d cust rows).length < rows.length)

/-- Stored row of `ppc_keyword_snapshot_daily`. -/
def kwSnapStoredRow (d : Int) (cust : String) (r : Row) : Row :=
  [("keyword_criterion_id", Value.str (pyStr (dictGetD r "keyword_criterion_id" (Value.str "")))),
   ("ad_group_id", dictGet r "ad_group_id"), ("campaign_id", dictGet r "campaign_id"),
   ("snapshot_date", Value.str (dateStr d)), ("customer_id", Value.str cust),
   ("keyword_text", safeStr (dictGet r "keyword_text") 1024),
   ("match_type", safeStr (dictGet r "match_type") 32),
   ("keyword_level", safeStr (pyOr (dictGet r "keyword_level") (Value.str "AD_GROUP")) 32),
   ("campaign_name", safeStr (dictGet r "campaign_name") 512),
   ("ad_group_name", safeStr (dictGet r "ad_group_name") 512)]

/-- `MERGE ... ON keyword_criterion_id, snapshot_date, customer_id, ad_group_id`. -/
def kwSnapKeyOf (t : Row) : List Value :=
  [dictGet t "keyword_criterion_id", dictGet t "snapshot_date", dictGet t "customer_id",
   dictGet t "ad_group_id"]

/-- `upsert_keyword_snapshot_daily` (storage.py lines 1142-1199). -/
def upsertKeywordSnapshotDaily (d : Int) (cust : String) (rows : List Row) (store : List Row) :
    Option (List Row) :=
  if rows.isEmpty then some store
  else mergeBatch kwSnapKeyOf store
    ((dedupKeywordSnapshotRows d cust rows).map (kwSnapStoredRow d cust))

/-- `get_keyword_snapshot_for_date` (storage.py lines 1202-1213). -/
def getKeywordSnapshotForDate (cust : String) (d : Int) (store : List Row) : List Row :=
  getRowsForDate "snapshot_date" cust d store

/-- Stored row of `ppc_keyword_change_daily`. -/
def keywordChangeStoredRow (d : Int) (cust : String) (r : KeywordChange) : Row :=
  [("snapshot_date", Value.str (dateStr d)), ("customer_id", Value.str cust),
   ("campaign_id", r.campaign_id), ("ad_group_id", r.ad_group_id),
   ("keyword_criterion_id", Value.str r.keyword_criterion_id),
   ("change_type", safeStr (Value.str r.change_type) 32),
   ("keyword_text", safeStr r.keyword_text 1024),
   ("match_type", safeStr r.match_type 32),
   ("old_value", safeStr r.old_value 65535), ("new_value", safeStr r.new_value 65535)]

/-- `insert_keyword_change_daily` (storage.py lines 1216-1245). -/
def insertKeywordChangeDaily (d : Int) (cust : String) (rows : List KeywordChange)
    (store : List Row) : List Row :=
  if rows.isEmpty then store
  else replaceForDate "snapshot_date" d cust store (rows.map (keywordChangeStoredRow d cust))

/-- `ad_group_id = r.get("ad_group_id") if r.get("ad_group_id") is not None else ""`. -/
def negKwAgId (r : Row) : Value :=
  if dictGet r "ad_group_id" = Value.none then Value.str "" else dictGet r "ad_group_id"

/-- The negative-keyword dedup key
`(date_str, customer_id, str(campaign_id or ""), ad_group_id, str(criterion_id or ""))`
from `upsert_negative_keyword_snapshot_daily` (storage.py lines 1258-1275). -/
def negKwDedupKey (dateS cust : String) (r : Row) : List Value :=
  [Value.str dateS, Value.str cust,
   Value.str (pyStr (dictGetD r "campaign_id" (Value.str ""))),
   negKwAgId r,
   Value.str (pyStr (dictGetD r "criterion_id" (Value.str "")))]

/-- The dedup pass of `upsert_negative_keyword_snapshot_daily`. -/
def dedupNegKeywordSnapshotRows (d : Int) (cust : String) (rows : List Row) : List Row :=
  dedupByPyKey (negKwDedupKey (dateStr d) cust) [] rows

/-- Stored row of `ppc_negative_keyword_snapshot_daily`. -/
def negKwSnapStoredRow (d : Int) (cust : String) (r : Row) : Row :=
  [("snapshot_date", Value.str (dateStr d)), ("customer_id", Value.str cust),
   ("campaign_id", dictGet r "campaign_id"), ("ad_group_id", negKwAgId r),
   ("criterion_id", Value.str (pyStr (dictGetD r "criterion_id" (Value.str "")))),
   ("keyword_text", safeStr (dictGet r "keyword_text") 1024),
   ("match_type", safeStr (dictGet r "match_type") 32),
   ("keyword_level", safeStr (pyOr (dictGet r "keyword_level")
     (if pyTruthy (negKwAgId r) then Value.str "AD_GROUP" else Value.str "CAMPAIGN")) 32),
   ("campaign_name", safeStr (dictGet r "campaign_name") 512),
   ("ad_group_name", safeStr (dictGet r "ad_group_name") 512)]

/-- `MERGE ... ON snapshot_date, customer_id, campaign_id, ad_group_id, criterion_id`. -/
def negKwSnapKeyOf (t : Row) : List Value :=
  [dictGet t "snapshot_date", dictGet t "customer_id", dictGet t "campaign_id",
   dictGet t "ad_group_id", dictGet t "criterion_id"]

/-- `upsert_negative_keyword_snapshot_daily` (storage.py lines 1250-1314). -/
def upsertNegKeywordSnapshotDaily (d : Int) (cust : String) (rows : List Row)
    (store : List Row) : Option (List Row) :=
  if rows.isEmpty then some store
  else mergeBatch negKwSnapKeyOf store
    ((dedupNegKeywordSnapshotRows d cust rows).map (negKwSnapStoredRow d cust))

/-- `get_negative_keyword_snapshot_for_date` (storage.py lines 1317-1328). -/
def getNegKeywordSnapshotForDate (cust : String) (d : Int) (store : List Row) : List Row :=
  getRowsForDate "snapshot_date" cust d store

/-- Stored row of `ppc_negative_keyword_diff_daily`. -/
def negKwDiffStoredRow (d : Int) (cust : String) (r : NegKeywordChange) : Row :=
  [("snapshot_date", Value.str (dateStr d)), ("customer_id", Value.str cust),
   ("campaign_id", r.campaign_id),
   ("ad_group_id", pyOr r.ad_group_id (Value.str "")),
   ("criterion_id", Value.str r.criterion_id),
   ("change_type", safeStr (Value.str r.change_type) 32),
   ("keyword_text", safeStr r.keyword_text 1024),
   ("match_type", safeStr r.match_type 32),
   ("old_value", safeStr r.old_value 65535), ("new_value", safeStr r.new_value 65535)]

/-- `insert_negative_keyword_diff_daily` (storage.py lines 1331-1360). -/
def insertNegKeywordDiffDaily (d : Int) (cust : String) (rows : List NegKeywordChange)
    (store : List Row) : List Row :=
  if rows.isEmpty then store
  else replaceForDate "snapshot_date" d cust store (rows.map (negKwDiffStoredRow d cust))

/-- Stored row of `ppc_ad_creative_snapshot_daily`. -/
def adCreativeStoredRow (d : Int) (cust : String) (r : Row) : Row :=
  [("snapshot_date", Value.str (dateStr d)), ("customer_id", Value.str cust),
   ("ad_group_id", dictGet r "ad_group_id"), ("campaign_id", dictGet r "campaign_id"),
   ("ad_id", Value.str (pyStr (dictGetD r "ad_id" (Value.str "")))),
   ("ad_type", safeStr (dictGet r "ad_type") 64),
   ("status", safeStr (dictGet r "status") 32),
   ("headlines_json", safeStr (dictGet r "headlines_json") 65535),
   ("descriptions_json", safeStr (dictGet r "descriptions_json") 65535),
   ("final_urls", safeStr (dictGet r "final_urls") 65535),
   ("path1", safeStr (dictGet r "path1") 512),
   ("path2", safeStr (dictGet r "path2") 512),
   ("policy_summary_json", safeStr (dictGet r "policy_summary_json") 65535),
   ("asset_urls", safeStr (dictGet r "asset_urls") 65535)]

/-- `MERGE ... ON snapshot_date, customer_id, ad_group_id, ad_id`. -/
def adCreativeSnapKeyOf (t : Row) : List Value :=
  [dictGet t "snapshot_date", dictGet t "customer_id", dictGet t "ad_group_id",
   dictGet t "ad_id"]

/-- `upsert_ad_creative_snapshot_daily` (storage.py lines 1365-1412). -/
def upsertAdCreativeSnapshotDaily (d : Int) (cust : String) (rows : List Row)
    (store : List Row) : Option (List Row) :=
  if rows.isEmpty then some store
  else mergeBatch adCreativeSnapKeyOf store (rows.map (adCreativeStoredRow d cust))

/-- `get_ad_creative_snapshot_for_date` (storage.py lines 1415-1426). -/
def getAdCreativeSnapshotForDate (cust : String) (d : Int) (store : List Row) : List Row :=
  getRowsForDate "snapshot_date" cust d store

/-- Stored row of `ppc_ad_creative_diff_daily`. -/
def adCreativeDiffStoredRow (d : Int) (cust : String) (r : AdCreativeDiff) : Row :=
  [("snapshot_date", Value.str (dateStr d)), ("customer_id", Value.str cust),
   ("ad_group_id", r.ad_group_id), ("ad_id", Value.str r.ad_id),
   ("changed_metric_name", safeStr (Value.str r.changed_metric_name) 128),
   ("old_value", safeStr r.old_value 65535), ("new_value", safeStr r.new_value 65535)]

/-- `insert_ad_creative_diff_daily` (storage.py lines 1429-1455). -/
def insertAdCreativeDiffDaily (d : Int) (cust : String) (rows : List AdCreativeDiff)
    (store : List Row) : List Row :=
  if rows.isEmpty then store
  else replaceForDate "snapshot_date" d cust store (rows.map (adCreativeDiffStoredRow d cust))

/-- Stored row of `ppc_audience_targeting_snapshot_daily`. -/
def audienceStoredRow (d : Int) (cust : String) (r : Row) : Row :=
  [("snapshot_date", Value.str (dateStr d)), ("customer_id", Value.str cust),
   ("campaign_id", dictGet r "campaign_id"),
   ("ad_group_id", pyOr (dictGet r "ad_group_id") (Value.str "")),
   ("criterion_id", Value.str (pyStr (dictGetD r "criterion_id" (Value.str "")))),
   ("audience_type", safeStr (dictGet r "audience_type") 64),
   ("audience_id", safeStr (dictGet r "audience_id") 256),
   ("audience_name", safeStr (dictGet r "audience_name") 512),
   ("targeting_mode", safeStr (dictGet r "targeting_mode") 32),
   ("audience_size", dictGet r "audience_size"),
   ("status", safeStr (dictGet r "status") 32),
   ("bid_modifier", dictGet r "bid_modifier"),
   ("negative", dictGet r "negative")]

/-- `MERGE ... ON snapshot_date, customer_id, campaign_id, ad_group_id, criterion_id`. -/
def audienceSnapKeyOf (t : Row) : List Value :=
  [dictGet t "snapshot_date", dictGet t "customer_id", dictGet t "campaign_id",
   dictGet t "ad_group_id", dictGet t "criterion_id"]

/-- `upsert_audience_targeting_snapshot_daily` (storage.py lines 1460-1508). -/
def upsertAudienceSnapshotDaily (d : Int) (cust : String) (rows : List Row)
    (store : List Row) : Option (List Row) :=
  if rows.isEmpty then some store
  else mergeBatch audienceSnapKeyOf store (rows.map (audienceStoredRow d cust))

/-- The `ad_group_id` normalization performed by
`get_audience_targeting_snapshot_for_date`: `None`/blank become `""`,
everything else is stringified (the float-NaN check cannot fire in this
model, floats being exact rationals). -/
def normalizeAgId (v : Value) : Value :=
  if v = Value.none then Value.str ""
  else if (pyStr v).trim = "" then Value.str ""
  else Value.str (pyStr v)

/-- `get_audience_targeting_snapshot_for_date` (storage.py lines 1511-1541). -/
def getAudienceSnapshotForDate (cust : String) (d : Int) (store : List Row) : List Row :=
  (getRowsForDate "snapshot_date" cust d store).map
    (fun row => dictSet row "ad_group_id" (normalizeAgId (dictGet row "ad_group_id")))

/-- Stored row of `ppc_audience_targeting_diff_daily`; the computed change
records never carry `old_size`/`new_size`, so `r.get(...)` yields `None`. -/
def audienceDiffStoredRow (d : Int) (cust : String) (r : AudienceChange) : Row :=
  [("snapshot_date", Value.str (dateStr d)), ("customer_id", Value.str cust),
   ("campaign_id", r.campaign_id),
   ("ad_group_id", pyOr r.ad_group_id (Value.str "")),
   ("criterion_id", Value.str r.criterion_id),
   ("change_type", safeStr (Value.str r.change_type) 32),
   ("audience_type", safeStr r.audience_type 64),
   ("audience_id", safeStr r.audience_id 256),
   ("audience_name", safeStr r.audience_name 512),
   ("targeting_mode", safeStr r.targeting_mode 32),
   ("old_value", safeStr r.old_value 65535), ("new_value", safeStr r.new_value 65535),
   ("old_size", Value.none), ("new_size", Value.none)]

/-- `insert_audience_targeting_diff_daily` (storage.py lines 1544-1577). -/
def insertAudienceDiffDaily (d : Int) (cust : String) (rows : List AudienceChange)
    (store : List Row) : List Row :=
  if rows.isEmpty then store
  else replaceForDate "snapshot_date" d cust store (rows.map (audienceDiffStoredRow d cust))

/-- The `cost_micros` computation of the outcome upserts:
`cost_micros = r.get("cost_micros"); if None and cost is not None:
int(float(r["cost"]) * 1_000_000); cost_micros = cost_micros or 0`. -/
def upsertCostMicros (r : Row) : Option Value := do
  let cm0 := dictGet r "cost_micros"
  let cm1 ← if cm0 = Value.none ∧ dictGet r "cost" ≠ Value.none then
      (pyFloat? (dictGet r "cost")).map (fun q => Value.int (pyTrunc (q * 1000000)))
    else some cm0
  pure (pyOr cm1 (Value.int 0))

/-- The coerced metric columns shared by the three outcome upserts. -/
def upsertMetricCols (r : Row) : Option Row := do
  let costMicros ← upsertCostMicros r
  let impressions ← (pyInt? (pyOr (dictGet r "impressions") (Value.int 0))).map Value.int
  let clicks ← (pyInt? (pyOr (dictGet r "clicks") (Value.int 0))).map Value.int
  let costAmount ← (pyFloat? (pyOr (pyOr (dictGet r "cost") (dictGet r "cost_amount"))
      (Value.int 0))).map Value.float
  let conversions ← (pyFloat? (pyOr (dictGet r "conversions") (Value.int 0))).map Value.float
  let conversionsValue ← (pyFloat? (pyOr (pyOr (dictGet r "conversionValue")
      (dictGet r "conversions_value")) (Value.int 0))).map Value.float
  pure [("impressions", impressions), ("clicks", clicks), ("cost_micros", costMicros),
        ("cost_amount", costAmount), ("conversions", conversions),
        ("conversions_value", conversionsValue),
        ("ctr", dictGet r "ctr"), ("cpc", dictGet r "cpc"), ("cpa", dictGet r "cpa"),
        ("roas", dictGet r "roas"), ("cvr", dictGet r "cvr"),
        ("search_impression_share_pct", pyOr (dictGet r "impressionSharePct")
          (dictGet r "search_impression_share_pct")),
        ("search_rank_lost_impression_share_pct",
          dictGet r "search_rank_lost_impression_share_pct")]

/-- Stored row of `ppc_campaign_outcomes_daily` as built by
`upsert_outcomes_daily` (storage.py lines 136-186). -/
def outcomesStoredRow (d : Int) (cust : String) (r : Row) : Option Row := do
  let metrics ← upsertMetricCols r
  pure (("campaign_id", pyOr (dictGet r "campaignId") (dictGet r "campaign_id")) ::
        ("outcome_date", Value.str (dateStr d)) :: ("customer_id", Value.str cust) ::
        ("campaign_name", safeStr (pyOr (dictGet r "campaignName")
          (dictGet r "campaign_name")) 512) :: metrics)

/-- `MERGE ... ON campaign_id, outcome_date, customer_id`. -/
def outcomesKeyOf (t : Row) : List Value :=
  [dictGet t "campaign_id", dictGet t "outcome_date", dictGet t "customer_id"]

/-- `upsert_outcomes_daily` (storage.py lines 136-186). -/
def upsertOutcomesDaily (d : Int) (cust : String) (rows : List Row) (store : List Row) :
    Option (List Row) :=
  if rows.isEmpty then some store
  else do
    let stored ← rows.mapM (outcomesStoredRow d cust)
    mergeBatch outcomesKeyOf store stored

/-- `get_outcomes_for_date` (storage.py lines 247-259). -/
def getOutcomesForDate (cust : String) (d : Int) (store : List Row) : List Row :=
  getRowsForDate "outcome_date" cust d store

/-- Stored row of `ppc_campaign_outcomes_diff_daily`. -/
def outcomesDiffStoredRow (d : Int) (cust : String) (r : OutcomeDiff) : Row :=
  [("campaign_id", r.campaign_id), ("outcome_date", Value.str (dateStr d)),
   ("customer_id", Value.str cust),
   ("changed_metric_name", safeStr (Value.str r.changed_metric_name) 128),
   ("old_value", safeStr r.old_value 65535), ("new_value", safeStr r.new_value 65535)]

/-- `insert_outcomes_diff_daily` (storage.py lines 262-277). -/
def insertOutcomesDiffDaily (d : Int) (cust : String) (rows : List OutcomeDiff)
    (store : List Row) : List Row :=
  if rows.isEmpty then store
  else replaceForDate "outcome_date" d cust store (rows.map (outcomesDiffStoredRow d cust))

/-- Stored row of `ppc_ad_group_outcomes_daily` as built by
`upsert_ad_group_outcomes_daily` (storage.py lines 538-589). -/
def adGroupOutcomesStoredRow (d : Int) (cust : String) (r : Row) : Option Row := do
  let metrics ← upsertMetricCols r
  pure (("ad_group_id", pyOr (dictGet r "ad_group_id") (dictGet r "adGroupId")) ::
        ("campaign_id", pyOr (dictGet r "campaign_id") (dictGet r "campaignId")) ::
        ("outcome_date", Value.str (dateStr d)) :: ("customer_id", Value.str cust) ::
        ("ad_group_name", safeStr (pyOr (dictGet r "ad_group_name")
          (dictGet r "adGroupName")) 512) :: metrics)

/-- `MERGE ... ON ad_group_id, outcome_date, customer_id`. -/
def adGroupOutcomesKeyOf (t : Row) : List Value :=
  [dictGet t "ad_group_id", dictGet t "outcome_date", dictGet t "customer_id"]

/-- `upsert_ad_group_outcomes_daily` (storage.py lines 538-589). -/
def upsertAdGroupOutcomesDaily (d : Int) (cust : String) (rows : List Row) (store : List Row) :
    Option (List Row) :=
  if rows.isEmpty then some store
  else do
    let stored ← rows.mapM (adGroupOutcomesStoredRow d cust)
    mergeBatch adGroupOutcomesKeyOf store stored

/-- `get_ad_group_outcomes_for_date` (storage.py lines 651-662). -/
def getAdGroupOutcomesForDate (cust : String) (d : Int) (store : List Row) : List Row :=
  getRowsForDate "outcome_date" cust d store

/-- Stored row of `ppc_ad_group_outcomes_diff_daily`. -/
def adGroupOutcomesDiffStoredRow (d : Int) (cust : String) (r : AdGroupOutcomeDiff) : Row :=
  [("ad_group_id", r.ad_group_id), ("campaign_id", r.campaign_id),
   ("outcome_date", Value.str (dateStr d)), ("customer_id", Value.str cust),
   ("changed_metric_name", safeStr (Value.str r.changed_metric_name) 128),
   ("old_value", safeStr r.old_value 65535), ("new_value", safeStr r.new_value 65535)]

/-- `insert_ad_group_outcomes_diff_daily` (storage.py lines 665-680). -/
def insertAdGroupOutcomesDiffDaily (d : Int) (cust : String) (rows : List AdGroupOutcomeDiff)
    (store : List Row) : List Row :=
  if rows.isEmpty then store
  else replaceForDate "outcome_date" d cust store
    (rows.map (adGroupOutcomesDiffStoredRow d cust))

/-- Stored row of `ppc_keyword_outcomes_daily` as built by
`upsert_keyword_outcomes_daily` (storage.py lines 922-975). -/
def keywordOutcomesStoredRow (d : Int) (cust : String) (r : Row) : Option Row := do
  let metrics ← upsertMetricCols r
  pure (("keyword_criterion_id", Value.str (pyStr (pyOr (dictGet r "keyword_criterion_id")
          (pyOr (dictGet r "keywordCriterionId") (pyOr (dictGet r "criterion_id")
            (pyOr (dictGet r "criterionId") (Value.str ""))))))) ::
        ("ad_group_id", pyOr (dictGet r "ad_group_id") (dictGet r "adGroupId")) ::
        ("campaign_id", pyOr (dictGet r "campaign_id") (dictGet r "campaignId")) ::
        ("outcome_date", Value.str (dateStr d)) :: ("customer_id", Value.str cust) ::
        ("keyword_text", safeStr (pyOr (dictGet r "keyword_text")
          (dictGet r "keywordText")) 1024) ::
        ("match_type", safeStr (pyOr (dictGet r "match_type")
          (dictGet r "matchType")) 32) :: metrics)

/-- `MERGE ... ON keyword_criterion_id, outcome_date, customer_id`. -/
def keywordOutcomesKeyOf (t : Row) : List Value :=
  [dictGet t "keyword_criterion_id", dictGet t "outcome_date", dictGet t "customer_id"]

/-- `upsert_keyword_outcomes_daily` (storage.py lines 922-975). -/
def upsertKeywordOutcomesDaily (d : Int) (cust : String) (rows : List Row) (store : List Row) :
    Option (List Row) :=
  if rows.isEmpty then some store
  else do
    let stored ← rows.mapM (keywordOutcomesStoredRow d cust)
    mergeBatch keywordOutcomesKeyOf store stored

/-- `get_keyword_outcomes_for_date` (storage.py lines 1039-1050). -/
def getKeywordOutcomesForDate (cust : String) (d : Int) (store : List Row) : List Row :=
  getRowsForDate "outcome_date" cust d store

/-- Stored row of `ppc_keyword_outcomes_diff_daily`. -/
def keywordOutcomesDiffStoredRow (d : Int) (cust : String) (r : KeywordOutcomeDiff) : Row :=
  [("keyword_criterion_id", r.keyword_criterion_id),
   ("outcome_date", Value.str (dateStr d)), ("customer_id", Value.str cust),
   ("changed_metric_name", safeStr (Value.str r.changed_metric_name) 128),
   ("old_value", safeStr r.old_value 65535), ("new_value", safeStr r.new_value 65535)]

/-- `insert_keyword_outcomes_diff_daily` (storage.py lines 1053-1068). -/
def insertKeywordOutcomesDiffDaily (d : Int) (cust : String) (rows : List KeywordOutcomeDiff)
    (store : List Row) : List Row :=
  if rows.isEmpty then store
  else replaceForDate "outcome_date" d cust store
    (rows.map (keywordOutcomesDiffStoredRow d cust))

/-! ## Orchestrator (`run_sync`, sync.py lines 617-826)

The model covers the default daily path for one project: all scope flags
false and GA4 off.  The dimension lookup tables (`ppc_campaign_dims`,
`ppc_ad_group_dims`, `ppc_keyword_dims`) are not Snapshot/Diff/Change stores
(their `MERGE` stamps `updated_at = CURRENT_TIMESTAMP()`), so they are
outside the modelled state.  Any uncaught exception (a failed coercion, or a
`MERGE` source with duplicate keys) aborts the run, modelled as `Option.none`. -/

/-- The Snapshot, Diff and Change store contents. -/
structure Stores where
  controlSnap : List Row
  controlDiff : List Row
  adGroupSnap : List Row
  adGroupChange : List Row
  keywordSnap : List Row
  keywordChange : List Row
  negKeywordSnap : List Row
  negKeywordDiff : List Row
  adCreativeSnap : List Row
  adCreativeDiff : List Row
  audienceSnap : List Row
  audienceDiff : List Row
  outcomesSnap : List Row
  outcomesDiff : List Row
  adGroupOutcomesSnap : List Row
  adGroupOutcomesDiff : List Row
  keywordOutcomesSnap : List Row
  keywordOutcomesDiff : List Row
deriving DecidableEq, Repr

/-- The provider responses consumed by one `run_sync` project iteration. -/
structure Fetches where
  controlRows : List Row
  adGroupStruct : List Row
  kwCriteria : List Row
  negKw : List Row
  rsaAds : List Row
  audienceRows : List Row
  campaignsOneDay : List Row
  adGroupsOneDay : List Row
  keywordsOneDay : List Row
deriving DecidableEq, Repr

/-- Projection applied to fetched ad-group structure rows in `run_sync`. -/
def adGroupSnapshotRow (r : Row) : Row :=
  [("ad_group_id", dictGet r "ad_group_id"), ("campaign_id", dictGet r "campaign_id"),
   ("ad_group_name", dictGet r "ad_group_name"), ("status", dictGet r "status")]

/-- Projection applied to fetched RSA ad rows in `run_sync`. -/
def creativeRowOf (r : Row) : Row :=
  [("ad_group_id", dictGet r "ad_group_id"), ("campaign_id", dictGet r "campaign_id"),
   ("ad_id", dictGet r "ad_id"), ("ad_type", dictGet r "ad_type"),
   ("status", dictGet r "status"), ("headlines_json", dictGet r "headlines_json"),
   ("descriptions_json", dictGet r "descriptions_json"),
   ("final_urls", dictGet r "final_urls"), ("path1", dictGet r "path1"),
   ("path2", dictGet r "path2"), ("policy_summary_json", dictGet r "policy_summary_json")]

/-- Projection applied to fetched audience rows in `run_sync`. -/
def audienceSnapshotRowOf (r : Row) : Row :=
  [("campaign_id", dictGet r "campaign_id"),
   ("ad_group_id", pyOr (dictGet r "ad_group_id") (Value.str "")),
   ("criterion_id", dictGet r "criterion_id"),
   ("audience_type", dictGet r "audience_type"), ("audience_id", dictGet r "audience_id"),
   ("audience_name", dictGet r "audience_name"),
   ("targeting_mode", dictGet r "targeting_mode"),
   ("bid_modifier", dictGet r "bid_modifier"), ("negative", dictGet r "negative")]

/-- Control-state pipeline: snapshot upsert, prior-day read, diff, diff write. -/
def controlStep (d : Int) (cust : String) (rows : List Row) (p : List Row × List Row) :
    Option (List Row × List Row) :=
  if rows.isEmpty then some p
  else do
    let stateForStorage := rows.map controlStateRowForStorage
    let snap ← upsertControlStateDaily d cust stateForStorage p.1
    let priorControl := getControlStateForDate cust (d - 1) snap
    let diffStore :=
      if priorControl.isEmpty then p.2
      else insertControlDiffDaily d cust
        (computeControlStateDiffs stateForStorage priorControl) p.2
    pure (snap, diffStore)

/-- Ad-group structure pipeline. -/
def adGroupStep (d : Int) (cust : String) (rows : List Row) (p : List Row × List Row) :
    Option (List Row × List Row) :=
  if rows.isEmpty then some p
  else do
    let agRows := rows.map adGroupSnapshotRow
    let snap ← upsertAdGroupSnapshotDaily d cust agRows p.1
    let priorSnap := getAdGroupSnapshotForDate cust (d - 1) snap
    let changeStore :=
      if priorSnap.isEmpty then p.2
      else insertAdGroupChangeDaily d cust (computeAdGroupChanges priorSnap agRows) p.2
    pure (snap, changeStore)

/-- Keyword criteria pipeline. -/
def keywordStep (d : Int) (cust : String) (rows : List Row) (p : List Row × List Row) :
    Option (List Row × List Row) :=
  if rows.isEmpty then some p
  else do
    let snap ← upsertKeywordSnapshotDaily d cust rows p.1
    let priorSnap := getKeywordSnapshotForDate cust (d - 1) snap
    let changeStore :=
      if priorSnap.isEmpty then p.2
      else insertKeywordChangeDaily d cust (computeKeywordChanges priorSnap rows) p.2
    pure (snap, changeStore)

/-- Negative keyword pipeline. -/
def negKeywordStep (d : Int) (cust : String) (rows : List Row) (p : List Row × List Row) :
    Option (List Row × List Row) :=
  if rows.isEmpty then some p
  else do
    let snap ← upsertNegKeywordSnapshotDaily d cust rows p.1
    let priorSnap := getNegKeywordSnapshotForDate cust (d - 1) snap
    let diffStore :=
      if priorSnap.isEmpty then p.2
      else insertNegKeywordDiffDaily d cust (computeNegativeKeywordDiffs priorSnap rows) p.2
    pure (snap, diffStore)

/-- Ad creative (RSA) pipeline. -/
def adCreativeStep (d : Int) (cust : String) (rows : List Row) (p : List Row × List Row) :
    Option (List Row × List Row) :=
  if rows.isEmpty then some p
  else do
    let creativeRows := rows.map creativeRowOf
    let snap ← upsertAdCreativeSnapshotDaily d cust creativeRows p.1
    let priorSnap := getAdCreativeSnapshotForDate cust (d - 1) snap
    let diffStore :=
      if priorSnap.isEmpty then p.2
      else insertAdCreativeDiffDaily d cust (computeAdCreativeDiffs priorSnap creativeRows) p.2
    pure (snap, diffStore)

/-- Audience targeting pipeline. -/
def audienceStep (d : Int) (cust : String) (rows : List Row) (p : List Row × List Row) :
    Option (List Row × List Row) :=
  if rows.isEmpty then some p
  else do
    let audRows := rows.map audienceSnapshotRowOf
    let snap ← upsertAudienceSnapshotDaily d cust audRows p.1
    let priorSnap := getAudienceSnapshotForDate cust (d - 1) snap
    let diffStore :=
      if priorSnap.isEmpty then p.2
      else insertAudienceDiffDaily d cust
        (computeAudienceTargetingChanges priorSnap audRows) p.2
    pure (snap, diffStore)

/-- Campaign outcomes pipeline. -/
def outcomesStep (d : Int) (cust : String) (rows : List Row) (p : List Row × List Row) :
    Option (List Row × List Row) :=
  if rows.isEmpty then some p
  else do
    let snap ← upsertOutcomesDaily d cust rows p.1
    let priorOutcomes := getOutcomesForDate cust (d - 1) snap
    if priorOutcomes.isEmpty then pure (snap, p.2)
    else do
      let diffs ← computeOutcomeDiffs rows priorOutcomes
      pure (snap, insertOutcomesDiffDaily d cust diffs p.2)

/-- Ad-group outcomes pipeline: `run_sync` normalizes both sides with
`_ad_group_outcome_row_for_diff` before the diff. -/
def adGroupOutcomesStep (d : Int) (cust : String) (rows : List Row)
    (p : List Row × List Row) : Option (List Row × List Row) :=
  if rows.isEmpty then some p
  else do
    let snap ← upsertAdGroupOutcomesDaily d cust rows p.1
    let priorAg := getAdGroupOutcomesForDate cust (d - 1) snap
    if priorAg.isEmpty then pure (snap, p.2)
    else do
      let normCur ← rows.mapM adGroupOutcomeRowForDiff
      let normPrior ← priorAg.mapM adGroupOutcomeRowForDiff
      pure (snap, insertAdGroupOutcomesDiffDaily d cust
        (computeAdGroupOutcomeDiffs normCur normPrior) p.2)

/-- Keyword outcomes pipeline. -/
def keywordOutcomesStep (d : Int) (cust : String) (rows : List Row)
    (p : List Row × List Row) : Option (List Row × List Row) :=
  if rows.isEmpty then some p
  else do
    let snap ← upsertKeywordOutcomesDaily d cust rows p.1
    let priorKw := getKeywordOutcomesForDate cust (d - 1) snap
    if priorKw.isEmpty then pure (snap, p.2)
    else do
      let normCur ← rows.mapM keywordOutcomeRowForDiff
      let normPrior ← priorKw.mapM keywordOutcomeRowForDiff
      pure (snap, insertKeywordOutcomesDiffDaily d cust
        (computeKeywordOutcomeDiffs normCur normPrior) p.2)

/-- `run_sync` for a single project on day `d` with the default flags (no
scope restriction, GA4 off): the nine domain pipelines in source order.  No
pipeline reads another domain's stores, so passing each pipeline its own
(snapshot, diff) pair is the exact data flow of the source. -/
def runSyncProject (d : Int) (cust : String) (f : Fetches) (s : Stores) : Option Stores := do
  let (cs, cd) ← controlStep d cust f.controlRows (s.controlSnap, s.controlDiff)
  let (ags, agc) ← adGroupStep d cust f.adGroupStruct (s.adGroupSnap, s.adGroupChange)
  let (kws, kwc) ← keywordStep d cust f.kwCriteria (s.keywordSnap, s.keywordChange)
  let (nks, nkd) ← negKeywordStep d cust f.negKw (s.negKeywordSnap, s.negKeywordDiff)
  let (acs, acd) ← adCreativeStep d cust f.rsaAds (s.adCreativeSnap, s.adCreativeDiff)
  let (aus, aud) ← audienceStep d cust f.audienceRows (s.audienceSnap, s.audienceDiff)
  let (ocs, ocd) ← outcomesStep d cust f.campaignsOneDay (s.outcomesSnap, s.outcomesDiff)
  let (agos, agod) ← adGroupOutcomesStep d cust f.adGroupsOneDay
    (s.adGroupOutcomesSnap, s.adGroupOutcomesDiff)
  let (kwos, kwod) ← keywordOutcomesStep d cust f.keywordsOneDay
    (s.keywordOutcomesSnap, s.keywordOutcomesDiff)
  pure { controlSnap := cs, controlDiff := cd, adGroupSnap := ags, adGroupChange := agc,
         keywordSnap := kws, keywordChange := kwc, negKeywordSnap := nks, negKeywordDiff := nkd,
         adCreativeSnap := acs, adCreativeDiff := acd, audienceSnap := aus, audienceDiff := aud,
         outcomesSnap := ocs, outcomesDiff := ocd, adGroupOutcomesSnap := agos,
         adGroupOutcomesDiff := agod, keywordOutcomesSnap := kwos, keywordOutcomesDiff := kwod }

/-! ## Supporting lemmas -/

/-- `(s[:n]).length ≤ n`. -/
theorem pySlice_length_le (s : String) (n : Nat) : (pySlice s n).length ≤ n := by
  have h : (pySlice s n).length = (s.data.take n).length := rfl
  rw [h]
  exact List.length_take_le n s.data

/-- The `(snapshot/outcome day, customer)` membership predicate on a stored row. -/
def dayKey (dateCol : String) (d : Int) (cust : String) (t : Row) : Bool :=
  decide (dictGet t dateCol = Value.str (dateStr d))
    && decide (dictGet t "customer_id" = Value.str cust)

theorem replaceForDate_filter_key {dateCol : String} {d : Int} {cust : String}
    {store recs : List Row} (hrecs : ∀ r ∈ recs, dayKey dateCol d cust r = true) :
    (replaceForDate dateCol d cust store recs).filter (dayKey dateCol d cust) = recs := by
  unfold replaceForDate dayKey at *
  rw [List.filter_append]
  have h1 : (store.filter (fun t => ! (decide (dictGet t dateCol = Value.str (dateStr d))
      && decide (dictGet t "customer_id" = Value.str cust)))).filter
      (fun t => decide (dictGet t dateCol = Value.str (dateStr d))
        && decide (dictGet t "customer_id" = Value.str cust)) = [] := by
    rw [List.filter_filter, List.filter_eq_nil_iff]
    intro a _
    cases h : (decide (dictGet a dateCol = Value.str (dateStr d))
        && decide (dictGet a "customer_id" = Value.str cust)) with
    | false => simp [h]
    | true => simp [h]
  rw [h1, List.nil_append, List.filter_eq_self.mpr hrecs]

theorem replaceForDate_filter_other {dateCol : String} {d : Int} {cust : String}
    {store recs : List Row} (hrecs : ∀ r ∈ recs, dayKey dateCol d cust r = true)
    {dv cv : Value} (hne : ¬ (dv = Value.str (dateStr d) ∧ cv = Value.str cust)) :
    (replaceForDate dateCol d cust store recs).filter
        (fun t => decide (dictGet t dateCol = dv) && decide (dictGet t "customer_id" = cv)) =
      store.filter
        (fun t => decide (dictGet t dateCol = dv) && decide (dictGet t "customer_id" = cv)) := by
  unfold replaceForDate
  rw [List.filter_append]
  have h2 : (recs.filter (fun t => decide (dictGet t dateCol = dv)
      && decide (dictGet t "customer_id" = cv))) = [] := by
    rw [List.filter_eq_nil_iff]
    intro r hr
    have hk := hrecs r hr
    unfold dayKey at hk
    simp only [Bool.and_eq_true, decide_eq_true_eq] at hk ⊢
    rintro ⟨hdv, hcv⟩
    exact hne ⟨hdv.symm.trans hk.1, hcv.symm.trans hk.2⟩
  rw [h2, List.append_nil, List.filter_filter]
  apply List.filter_congr
  intro a _
  cases hP : (decide (dictGet a dateCol = dv) && decide (dictGet a "customer_id" = cv)) with
  | false => simp [hP]
  | true =>
    simp only [hP, Bool.true_and]
    have hKa : (decide (dictGet a dateCol = Value.str (dateStr d))
        && decide (dictGet a "customer_id" = Value.str cust)) = false := by
      cases hK : (decide (dictGet a dateCol = Value.str (dateStr d))
          && decide (dictGet a "customer_id" = Value.str cust)) with
      | false => rfl
      | true =>
        exfalso
        simp only [Bool.and_eq_true, decide_eq_true_eq] at hK hP
        exact hne ⟨hP.1.symm.trans hK.1, hP.2.symm.trans hK.2⟩
    rw [hKa]
    rfl

/-! ## C3 -/

/-- C3 counterexample input: a stale diff record for day `7`, customer `"c"`. -/
def staleControlDiffRow : Row :=
  [("campaign_id", Value.int 1), ("snapshot_date", Value.str (dateStr 7)),
   ("customer_id", Value.str "c"), ("changed_metric_name", Value.str "status"),
   ("old_value", Value.str "ENABLED"), ("new_value", Value.str "PAUSED")]

/-- C3 counterexample: calling `insert_control_diff_daily` for `(day 7, "c")`
with an empty record set does not delete the existing record for that key —
the function returns before the `DELETE` — so the Diff Store does not end up
empty, contradicting the claim. -/
theorem insert_control_diff_empty_counterexample :
    insertControlDiffDaily 7 "c" [] [staleControlDiffRow] = [staleControlDiffRow] ∧
      [staleControlDiffRow] ≠ ([] : List Row) := by
  constructor
  · rfl
  · decide

/-- C3 (amended): `insert_control_diff_daily` deletes-then-inserts only for a
nonempty record set: with an empty record set it is a no-op (the store is
left unchanged, stale records for that `(account, day)` included); with a
nonempty record set, after the call the `(day, customer)` slice of the store
is exactly the freshly built records and every other `(day', customer')`
slice is untouched. -/
theorem insert_control_diff_amended :
    (∀ (d : Int) (cust : String) (store : List Row),
        insertControlDiffDaily d cust [] store = store) ∧
    (∀ (d : Int) (cust : String) (recs : List ControlDiff) (store : List Row),
        recs ≠ [] →
        ((insertControlDiffDaily d cust recs store).filter (dayKey "snapshot_date" d cust)
          = recs.map (controlDiffStoredRow d cust)) ∧
        (∀ dv cv : Value, ¬ (dv = Value.str (dateStr d) ∧ cv = Value.str cust) →
          (insertControlDiffDaily d cust recs store).filter
              (fun t => decide (dictGet t "snapshot_date" = dv)
                && decide (dictGet t "customer_id" = cv)) =
            store.filter (fun t => decide (dictGet t "snapshot_date" = dv)
                && decide (dictGet t "customer_id" = cv)))) := by
  constructor
  · intro d cust store
    rfl
  · intro d cust recs store hne
    have hinsert : insertControlDiffDaily d cust recs store =
        replaceForDate "snapshot_date" d cust store (recs.map (controlDiffStoredRow d cust)) := by
      unfold insertControlDiffDaily
      rw [if_neg (by simpa using hne)]
    have hkeys : ∀ r ∈ recs.map (controlDiffStoredRow d cust),
        dayKey "snapshot_date" d cust r = true := by
      intro r hr
      rcases List.mem_map.mp hr with ⟨a, _, rfl⟩
      simp [dayKey, controlDiffStoredRow, dictGet, List.lookup]
    refine ⟨?_, ?_⟩
    · rw [hinsert]
      exact replaceForDate_filter_key hkeys
    · intro dv cv hno
      rw [hinsert]
      exact replaceForDate_filter_other hkeys hno

/-- C3 witness: the amended theorem applied at day `7`, customer `"c"`, one
record, over a store holding one stale row. -/
theorem insert_control_diff_amended_witness :
    ((insertControlDiffDaily 7 "c" [⟨Value.int 2, "status", Value.str "A", Value.str "B"⟩]
        [staleControlDiffRow]).filter (dayKey "snapshot_date" 7 "c")
      = [⟨Value.int 2, "status", Value.str "A", Value.str "B"⟩].map (controlDiffStoredRow 7 "c")) ∧
    (∀ dv cv : Value, ¬ (dv = Value.str (dateStr 7) ∧ cv = Value.str "c") →
      (insertControlDiffDaily 7 "c" [⟨Value.int 2, "status", Value.str "A", Value.str "B"⟩]
          [staleControlDiffRow]).filter
          (fun t => decide (dictGet t "snapshot_date" = dv)
            && decide (dictGet t "customer_id" = cv)) =
        [staleControlDiffRow].filter (fun t => decide (dictGet t "snapshot_date" = dv)
            && decide (dictGet t "customer_id" = cv))) :=
  insert_control_diff_amended.2 7 "c" [⟨Value.int 2, "status", Value.str "A", Value.str "B"⟩]
    [staleControlDiffRow] (by decide)

/-! ## C8 -/

/-- C8: `upsert_geo_targeting_daily` with an empty row set still performs the
delete: afterwards the store holds zero rows for that `(account, day)` — even
if it previously held rows — and a row survives exactly when it was already
stored and does not belong to that `(account, day)`. -/
theorem upsert_geo_empty_clears (d : Int) (cust : String) (store : List Row) :
    ((upsertGeoTargetingDaily d cust [] store).countP (dayKey "snapshot_date" d cust) = 0) ∧
    (∀ t : Row, t ∈ upsertGeoTargetingDaily d cust [] store ↔
        t ∈ store ∧ dayKey "snapshot_date" d cust t = false) := by
  have hres : upsertGeoTargetingDaily d cust [] store =
      store.filter (fun t => ! dayKey "snapshot_date" d cust t) := rfl
  constructor
  · rw [hres, List.countP_eq_zero]
    intro t ht
    have h := List.of_mem_filter ht
    simp only [Bool.not_eq_true'] at h
    simp [h]
  · intro t
    rw [hres, List.mem_filter]
    simp [Bool.not_eq_true']

/-! ## C9 -/

theorem dedupByPyKey_mem_spec {keyOf : Row → List Value} {seen : List (List Value)}
    {l : List Row} {r : Row} (h : r ∈ dedupByPyKey keyOf seen l) :
    (seen.any (fun k2 => valListEq k2 (keyOf r))) = false ∧
      l.find? (fun x => valListEq (keyOf x) (keyOf r)) = some r := by
  induction l generalizing seen with
  | nil => simp [dedupByPyKey] at h
  | cons a t ih =>
    rw [dedupByPyKey] at h
    by_cases hseen : (seen.any (fun k2 => valListEq k2 (keyOf a))) = true
    · rw [if_pos hseen] at h
      obtain ⟨h1, h2⟩ := ih h
      have hne : valListEq (keyOf a) (keyOf r) = false := by
        by_contra hcon
        have har : valListEq (keyOf a) (keyOf r) = true := by
          cases hbool : valListEq (keyOf a) (keyOf r)
          · exact absurd hbool hcon
          · rfl
        rcases List.any_eq_true.mp hseen with ⟨k2, hk2, hk2a⟩
        have hk2r : valListEq k2 (keyOf r) = true := valListEq_trans hk2a har
        have : seen.any (fun k2 => valListEq k2 (keyOf r)) = true :=
          List.any_eq_true.mpr ⟨k2, hk2, hk2r⟩
        simp [this] at h1
      refine ⟨h1, ?_⟩
      rw [List.find?_cons_of_neg t (by simp [hne])]
      exact h2
    · rw [if_neg hseen] at h
      rcases List.mem_cons.mp h with rfl | hmem
      · refine ⟨by simpa using hseen, ?_⟩
        exact List.find?_cons_of_pos t (valListEq_refl _)
      · obtain ⟨h1, h2⟩ := ih hmem
        rw [List.any_cons, Bool.or_eq_false_iff] at h1
        refine ⟨h1.2, ?_⟩
        rw [List.find?_cons_of_neg t (by simp [h1.1])]
        exact h2

theorem dedupByPyKey_sublist (keyOf : Row → List Value) (seen : List (List Value))
    (l : List Row) : (dedupByPyKey keyOf seen l).Sublist l := by
  induction l generalizing seen with
  | nil => simp [dedupByPyKey]
  | cons a t ih =>
    rw [dedupByPyKey]
    by_cases hseen : (seen.any (fun k2 => valListEq k2 (keyOf a))) = true
    · rw [if_pos hseen]
      exact (ih seen).trans (List.sublist_cons_self a t)
    · rw [if_neg hseen]
      exact (ih (keyOf a :: seen)).cons₂ a

theorem dedupByPyKey_pairwise (keyOf : Row → List Value) (seen : List (List Value))
    (l : List Row) : (dedupByPyKey keyOf seen l).Pairwise
      (fun x y => valListEq (keyOf x) (keyOf y) = false) := by
  induction l generalizing seen with
  | nil => simp [dedupByPyKey]
  | cons a t ih =>
    rw [dedupByPyKey]
    by_cases hseen : (seen.any (fun k2 => valListEq k2 (keyOf a))) = true
    · rw [if_pos hseen]
      exact ih seen
    · rw [if_neg hseen]
      refine List.pairwise_cons.mpr ⟨?_, ih (keyOf a :: seen)⟩
      intro b hb
      have hspec := (dedupByPyKey_mem_spec hb).1
      rw [List.any_cons, Bool.or_eq_false_iff] at hspec
      exact hspec.1

/-- C9: the keyword-snapshot dedup pass collapses rows colliding on the
storage primary key `(keyword_criterion_id, snapshot_date, customer_id,
ad_group_id)` by keeping the first occurrence: the written batch has at most
one row per storage key, each survivor is the first row of the input batch
carrying its key, the survivors keep the input's relative order, and a
collapse count is logged exactly when some row was discarded. -/
theorem keyword_snapshot_dedup (d : Int) (cust : String) (rows : List Row) :
    ((dedupKeywordSnapshotRows d cust rows).Pairwise (fun x y =>
        valListEq (kwSnapDedupKey (dateStr d) cust x) (kwSnapDedupKey (dateStr d) cust y)
          = false)) ∧
    (∀ r ∈ dedupKeywordSnapshotRows d cust rows,
        rows.find? (fun x => valListEq (kwSnapDedupKey (dateStr d) cust x)
          (kwSnapDedupKey (dateStr d) cust r)) = some r) ∧
    ((dedupKeywordSnapshotRows d cust rows).Sublist rows) ∧
    (keywordSnapshotCollapseLogged d cust rows = true ↔
      dedupKeywordSnapshotRows d cust rows ≠ rows) := by
  have hsub := dedupByPyKey_sublist (kwSnapDedupKey (dateStr d) cust) [] rows
  refine ⟨dedupByPyKey_pairwise _ _ _, ?_, hsub, ?_⟩
  · intro r hr
    exact (dedupByPyKey_mem_spec hr).2
  · unfold keywordSnapshotCollapseLogged
    constructor
    · intro hlog heq
      have hlt : (dedupKeywordSnapshotRows d cust rows).length < rows.length := by
        simpa using hlog
      rw [heq] at hlt
      exact absurd hlt (lt_irrefl _)
    · intro hne
      have hlen : (dedupKeywordSnapshotRows d cust rows).length ≠ rows.length :=
        fun heq => hne (hsub.eq_of_length heq)
      have hlt : (dedupKeywordSnapshotRows d cust rows).length < rows.length :=
        lt_of_le_of_ne hsub.length_le hlen
      simpa using hlt

/-- C9 witness: a batch with two rows sharing the storage key (same
criterion id and ad-group id, different fetch-path payload) collapses to the
first row, and a collapse is logged. -/
theorem keyword_snapshot_dedup_witness :
    (dedupKeywordSnapshotRows 1 "c"
        [[("keyword_criterion_id", Value.str "k1"), ("ad_group_id", Value.str "ag1"),
          ("keyword_text", Value.str "shoe")],
         [("keyword_criterion_id", Value.str "k1"), ("ad_group_id", Value.str "ag1"),
          ("keyword_text", Value.str "shoe-dup")]]
      = [[("keyword_criterion_id", Value.str "k1"), ("ad_group_id", Value.str "ag1"),
          ("keyword_text", Value.str "shoe")]]) ∧
    (∀ r ∈ dedupKeywordSnapshotRows 1 "c"
        [[("keyword_criterion_id", Value.str "k1"), ("ad_group_id", Value.str "ag1"),
          ("keyword_text", Value.str "shoe")],
         [("keyword_criterion_id", Value.str "k1"), ("ad_group_id", Value.str "ag1"),
          ("keyword_text", Value.str "shoe-dup")]],
        [[("keyword_criterion_id", Value.str "k1"), ("ad_group_id", Value.str "ag1"),
          ("keyword_text", Value.str "shoe")],
         [("keyword_criterion_id", Value.str "k1"), ("ad_group_id", Value.str "ag1"),
          ("keyword_text", Value.str "shoe-dup")]].find?
          (fun x => valListEq (kwSnapDedupKey (dateStr 1) "c" x)
            (kwSnapDedupKey (dateStr 1) "c" r)) = some r) ∧
    (keywordSnapshotCollapseLogged 1 "c"
        [[("keyword_criterion_id", Value.str "k1"), ("ad_group_id", Value.str "ag1"),
          ("keyword_text", Value.str "shoe")],
         [("keyword_criterion_id", Value.str "k1"), ("ad_group_id", Value.str "ag1"),
          ("keyword_text", Value.str "shoe-dup")]] = true) := by
  refine ⟨by decide, (keyword_snapshot_dedup 1 "c" _).2.1, by decide⟩

/-! ## C10 -/

theorem truncStrOrNone_spec (v : Value) : truncStrOrNone v = Value.none ∨
    ∃ s, truncStrOrNone v = Value.str s ∧ s.length ≤ 65535 := by
  unfold truncStrOrNone
  by_cases h : v = Value.none
  · rw [if_pos h]
    exact Or.inl rfl
  · rw [if_neg h]
    exact Or.inr ⟨_, rfl, pySlice_length_le _ _⟩

/-- C10: every record emitted by `compute_ad_creative_diffs` carries old/new
values that are either null or strings of at most 65535 characters, and each
is exactly the stringified source value truncated to its first 65535
characters (`str(v)[:65535]`, applied silently). -/
theorem ad_creative_diff_truncation (prior current : List Row) (rec : AdCreativeDiff)
    (hmem : rec ∈ computeAdCreativeDiffs prior current) :
    (rec.old_value = Value.none ∨ ∃ s, rec.old_value = Value.str s ∧ s.length ≤ 65535) ∧
    (rec.new_value = Value.none ∨ ∃ s, rec.new_value = Value.str s ∧ s.length ≤ 65535) ∧
    ∃ prev ∈ prior, ∃ cur ∈ current, rec.changed_metric_name ∈ adCreativeDiffFields ∧
      rec.old_value = truncStrOrNone (dictGet prev rec.changed_metric_name) ∧
      rec.new_value = truncStrOrNone (dictGet cur rec.changed_metric_name) := by
  unfold computeAdCreativeDiffs at hmem
  rcases List.mem_flatMap.mp hmem with ⟨cur, hcur, hrec⟩
  split at hrec
  · simp at hrec
  · next prev hlast =>
    split at hrec
    · simp at hrec
    · rcases List.mem_filterMap.mp hrec with ⟨field, hfield, hemit⟩
      dsimp only at hemit
      split at hemit
      · cases hemit
      · split at hemit
        · cases hemit
        · obtain rfl := (Option.some.injEq _ _).mp hemit
          exact ⟨truncStrOrNone_spec _, truncStrOrNone_spec _,
            prev, (lastMatchBy_prop hlast).1, cur, hcur, hfield, rfl, rfl⟩

/-! ## C1 -/

/-- Counting records that carry a fixed field name over a per-field emission:
with a duplicate-free field list, the count is one when the field emits. -/
theorem countP_and_beq {l : List String} (hnd : l.Nodup) {f : String} (hf : f ∈ l)
    (c : String → Bool) : (l.countP (fun x => c x && (x == f))) = if c f then 1 else 0 := by
  have h1 : l.countP (fun x => c x && (x == f)) = (l.filter (fun x => x == f)).countP c :=
    (List.countP_filter c (fun x => x == f) l).symm
  rw [h1, List.filter_beq, List.count_eq_one_of_mem hnd hf, List.replicate_one]
  simp [List.countP_cons]

theorem controlStateMetricFields_nodup : controlStateMetricFields.Nodup := by decide

/-- Everything true of a record emitted by one `compute_control_state_diffs`
loop iteration: it is tagged with the current row's campaign id, its field is
a declared field, its values are the stringified prior/current values, and
the emission condition held. -/
theorem controlRowDiffs_mem_spec {prior : List Row} {cur : Row} {rec : ControlDiff}
    (h : rec ∈ controlRowDiffs prior cur) :
    rec.campaign_id = dictGet cur "campaign_id" ∧
    ∃ prev, priorByCid prior (dictGet cur "campaign_id") = some prev ∧ prev ∈ prior ∧
      pyEq (dictGet prev "campaign_id") (dictGet cur "campaign_id") = true ∧
      rec.changed_metric_name ∈ controlStateMetricFields ∧
      rec.old_value = strOrNone (dictGet prev rec.changed_metric_name) ∧
      rec.new_value = strOrNone (dictGet cur rec.changed_metric_name) ∧
      ¬ (dictGet prev rec.changed_metric_name = Value.none ∧
         dictGet cur rec.changed_metric_name = Value.none) ∧
      pyEq (dictGet prev rec.changed_metric_name) (dictGet cur rec.changed_metric_name)
        = false := by
  unfold controlRowDiffs at h
  split at h
  · simp at h
  · next prev heq =>
    split at h
    · simp at h
    · rcases List.mem_filterMap.mp h with ⟨x, hx, hemit⟩
      split at hemit
      · cases hemit
      · next h1 =>
        split at hemit
        · cases hemit
        · next h2 =>
          obtain rfl := (Option.some.injEq _ _).mp hemit
          have hprop := lastMatchBy_prop heq
          exact ⟨rfl, prev, heq, hprop.1, hprop.2, hx, rfl, rfl, h1,
            Bool.not_eq_true _ ▸ (Bool.of_not_eq_true h2)⟩

/-- The per-field count for a matched (prior, current) row pair. -/
theorem controlRowDiffs_countP {prior : List Row} {cur prev0 : Row}
    (hfind : priorByCid prior (dictGet cur "campaign_id") = some prev0)
    (hne : prev0 ≠ []) {f : String} (hf : f ∈ controlStateMetricFields) :
    ((controlRowDiffs prior cur).countP (fun rec =>
        pyEq rec.campaign_id (dictGet cur "campaign_id")
          && (rec.changed_metric_name == f)))
      = if ¬ (dictGet prev0 f = Value.none ∧ dictGet cur f = Value.none)
           ∧ pyEq (dictGet prev0 f) (dictGet cur f) = false then 1 else 0 := by
  unfold controlRowDiffs
  simp only [hfind]
  rw [if_neg (by simp [List.isEmpty_iff, hne])]
  rw [List.countP_filterMap]
  have hcong : ∀ x ∈ controlStateMetricFields,
      (((Option.map (fun rec : ControlDiff => pyEq rec.campaign_id (dictGet cur "campaign_id")
          && (rec.changed_metric_name == f))
        (if dictGet prev0 x = Value.none ∧ dictGet cur x = Value.none then Option.none
         else if pyEq (dictGet prev0 x) (dictGet cur x) then Option.none
         else some ⟨dictGet cur "campaign_id", x, strOrNone (dictGet prev0 x),
           strOrNone (dictGet cur x)⟩)).getD false) = true)
      ↔ (((! decide (dictGet prev0 x = Value.none ∧ dictGet cur x = Value.none))
          && (! pyEq (dictGet prev0 x) (dictGet cur x)) && (x == f)) = true) := by
    intro x _
    by_cases h1 : (dictGet prev0 x = Value.none ∧ dictGet cur x = Value.none)
    · rw [if_pos h1]
      simp [h1]
    · rw [if_neg h1]
      by_cases h2 : pyEq (dictGet prev0 x) (dictGet cur x) = true
      · rw [if_pos h2]
        simp [h1, h2]
      · rw [if_neg h2]
        simp [h1, h2, pyEq_refl, Bool.of_not_eq_true h2]
  rw [List.countP_congr hcong]
  rw [countP_and_beq controlStateMetricFields_nodup hf]
  by_cases hc1 : (dictGet prev0 f = Value.none ∧ dictGet cur f = Value.none)
  · rw [if_neg (by simp [hc1]), if_neg (by simp [hc1])]
  · by_cases hc2 : pyEq (dictGet prev0 f) (dictGet cur f) = true
    · rw [if_neg (by simp [hc1, hc2]), if_neg (by simp [hc2])]
    · rw [if_pos (by simp [hc1, Bool.of_not_eq_true hc2]),
        if_pos ⟨hc1, Bool.of_not_eq_true hc2⟩]

/-- C1: with current and prior keyed by campaign id (pairwise `==`-distinct
ids), for every campaign present in both and every declared control-state
field, exactly one Diff Record for that (campaign, field) is emitted iff the
prior and current values differ and are not both null, carrying the
stringified old/new values; and for a current row whose campaign id has no
prior match, no Diff Record is emitted at all. -/
theorem control_state_diff_spec (current prior : List Row)
    (hcur : current.Pairwise (fun x y =>
      pyEq (dictGet x "campaign_id") (dictGet y "campaign_id") = false))
    (hpri : prior.Pairwise (fun x y =>
      pyEq (dictGet x "campaign_id") (dictGet y "campaign_id") = false)) :
    (∀ cur0 ∈ current, ∀ prev0 ∈ prior,
      dictGet cur0 "campaign_id" ≠ Value.none →
      pyEq (dictGet prev0 "campaign_id") (dictGet cur0 "campaign_id") = true →
      ∀ f ∈ controlStateMetricFields,
        (((computeControlStateDiffs current prior).countP (fun rec =>
            pyEq rec.campaign_id (dictGet cur0 "campaign_id")
              && (rec.changed_metric_name == f)))
          = if ¬ (dictGet prev0 f = Value.none ∧ dictGet cur0 f = Value.none)
               ∧ pyEq (dictGet prev0 f) (dictGet cur0 f) = false then 1 else 0)
        ∧ (∀ rec ∈ computeControlStateDiffs current prior,
            pyEq rec.campaign_id (dictGet cur0 "campaign_id") = true →
            rec.changed_metric_name = f →
            rec.old_value = strOrNone (dictGet prev0 f) ∧
            rec.new_value = strOrNone (dictGet cur0 f)))
    ∧ (∀ cur0 ∈ current,
        (∀ p ∈ prior, pyEq (dictGet p "campaign_id") (dictGet cur0 "campaign_id") = false) →
        ∀ rec ∈ computeControlStateDiffs current prior,
          pyEq rec.campaign_id (dictGet cur0 "campaign_id") = false) := by
  constructor
  · intro cur0 hcur0 prev0 hprev0 hcid hpeq f hf
    have hfind : priorByCid prior (dictGet cur0 "campaign_id") = some prev0 := by
      apply lastMatchBy_eq_of_unique hprev0 hpeq
      exact pairwise_key_unique pyEq_comm pyEq_trans hpri hprev0 hpeq
    have hnempty : prev0 ≠ [] := by
      intro habs
      rw [habs] at hpeq
      exact hcid (pyEq_none_left hpeq)
    have htag : ∀ a ∈ current, ∀ rec ∈ controlRowDiffs prior a,
        rec.campaign_id = dictGet a "campaign_id" :=
      fun a _ rec hrec => (controlRowDiffs_mem_spec hrec).1
    constructor
    · rw [computeControlStateDiffs,
        countP_flatMap_eq_of_unique pyEq_comm pyEq_trans htag hcur hcur0
          (pyEq_refl (dictGet cur0 "campaign_id"))
          (fun rec => rec.changed_metric_name == f)]
      exact controlRowDiffs_countP hfind hnempty hf
    · intro rec hrec hkey hname
      rcases List.mem_flatMap.mp hrec with ⟨a, ha, hmem⟩
      obtain ⟨htaga, prev, hfinda, hpmem, hpkey, hnmem, hold, hnew, hc1, hc2⟩ :=
        controlRowDiffs_mem_spec hmem
      have haeq : a = cur0 := by
        refine pairwise_key_unique pyEq_comm pyEq_trans hcur hcur0
          (pyEq_refl (dictGet cur0 "campaign_id")) a ha ?_
        rw [← htaga]
        exact hkey
      subst haeq
      have hpp : prev = prev0 := by
        rw [hfinda] at hfind
        exact ((Option.some.injEq _ _).mp hfind.symm).symm
      rw [hname] at hold hnew
      rw [hpp] at hold
      exact ⟨hold, hnew⟩
  · intro cur0 _ hno rec hrec
    rcases List.mem_flatMap.mp hrec with ⟨a, ha, hmem⟩
    obtain ⟨htaga, prev, _, hprevmem, hprevkey, _⟩ := controlRowDiffs_mem_spec hmem
    rw [htaga]
    by_contra hcon
    have hak : pyEq (dictGet a "campaign_id") (dictGet cur0 "campaign_id") = true :=
      Bool.of_not_eq_false hcon
    have : pyEq (dictGet prev "campaign_id") (dictGet cur0 "campaign_id") = true :=
      pyEq_trans hprevkey hak
    rw [hno prev hprevmem] at this
    cases this

/-- C1 witness: one matched campaign (id 7) with a changed budget field and
one current-only campaign (id 9). -/
theorem control_state_diff_spec_witness :
    (((computeControlStateDiffs
        [[("campaign_id", Value.int 7), ("daily_budget_amount", Value.float 75)],
         [("campaign_id", Value.int 9), ("daily_budget_amount", Value.float 10)]]
        [[("campaign_id", Value.int 7), ("daily_budget_amount", Value.float 50)]]).countP
      (fun rec => pyEq rec.campaign_id
          (dictGet [("campaign_id", Value.int 7), ("daily_budget_amount", Value.float 75)]
            "campaign_id")
        && (rec.changed_metric_name == "daily_budget_amount")))
      = 1) ∧
    (∀ rec ∈ computeControlStateDiffs
        [[("campaign_id", Value.int 7), ("daily_budget_amount", Value.float 75)],
         [("campaign_id", Value.int 9), ("daily_budget_amount", Value.float 10)]]
        [[("campaign_id", Value.int 7), ("daily_budget_amount", Value.float 50)]],
      pyEq rec.campaign_id
        (dictGet [("campaign_id", Value.int 9), ("daily_budget_amount", Value.float 10)]
          "campaign_id") = false) := by
  constructor
  · have h := ((control_state_diff_spec
      [[("campaign_id", Value.int 7), ("daily_budget_amount", Value.float 75)],
       [("campaign_id", Value.int 9), ("daily_budget_amount", Value.float 10)]]
      [[("campaign_id", Value.int 7), ("daily_budget_amount", Value.float 50)]]
      (by decide) (by decide)).1
      [("campaign_id", Value.int 7), ("daily_budget_amount", Value.float 75)]
      (by decide)
      [("campaign_id", Value.int 7), ("daily_budget_amount", Value.float 50)]
      (by decide) (by decide) (by decide)
      "daily_budget_amount" (by decide)).1
    rw [h]
    decide
  · exact (control_state_diff_spec
      [[("campaign_id", Value.int 7), ("daily_budget_amount", Value.float 75)],
       [("campaign_id", Value.int 9), ("daily_budget_amount", Value.float 10)]]
      [[("campaign_id", Value.int 7), ("daily_budget_amount", Value.float 50)]]
      (by decide) (by decide)).2
      [("campaign_id", Value.int 9), ("daily_budget_amount", Value.float 10)]
      (by decide) (by decide)

/-! ## C5 and C7 counterexamples -/

/-- C5 counterexample: a keyword present in both snapshots whose
keyword-text changed (`"shoe"` → `"boot"`) while match-type stayed `EXACT`
yields no Change Record at all from `compute_keyword_changes` — the function
never compares `keyword_text` — contradicting the claim that the keyword set
diff compares both classification fields. -/
theorem keyword_text_only_change_counterexample :
    computeKeywordChanges
      [[("campaign_id", Value.str "c1"), ("ad_group_id", Value.str "ag1"),
        ("keyword_criterion_id", Value.str "k1"), ("keyword_text", Value.str "shoe"),
        ("match_type", Value.str "EXACT")]]
      [[("campaign_id", Value.str "c1"), ("ad_group_id", Value.str "ag1"),
        ("keyword_criterion_id", Value.str "k1"), ("keyword_text", Value.str "boot"),
        ("match_type", Value.str "EXACT")]] = [] ∧
    pyEq (Value.str "shoe") (Value.str "boot") = false := by
  exact ⟨by decide, by decide⟩

/-- C7 counterexample: for the pass-through outcome field `ctr`, the
numerically equal string representations `"50"` and `"50.0"` are compared as
strings, so a Diff Record is emitted — contradicting the claim that every
declared outcome field is compared by numeric value after coercion. -/
theorem outcome_diff_string_format_counterexample :
    computeOutcomeDiffs
      [[("campaign_id", Value.int 1), ("ctr", Value.str "50.0")]]
      [[("campaign_id", Value.int 1), ("ctr", Value.str "50")]]
      = some [⟨Value.int 1, "ctr", Value.str "50", Value.str "50.0"⟩] ∧
    parseDecimal? "50" = some 50 ∧ parseDecimal? "50.0" = some 50 := by
  refine ⟨by decide, by decide, ?_⟩
  have h : parseDecimal? "50.0"
      = some ((digitsVal ['5', '0'] : ℚ) + (digitsVal ['0'] : ℚ) / ((10 : ℚ) ^ (1 : Nat))) :=
    rfl
  rw [h]
  have h5 : '5'.toNat - 48 = 5 := by decide
  have h0 : '0'.toNat - 48 = 0 := by decide
  norm_num [digitsVal, h5, h0]

/-- C10 witness: the theorem applied to a one-row prior/current pair with a
changed `status` field. -/
theorem ad_creative_diff_truncation_witness :
    (AdCreativeDiff.mk (Value.str "ag") "1" "status" (Value.str "A")
        (Value.str "B")).old_value = Value.none ∨
      (∃ s, (AdCreativeDiff.mk (Value.str "ag") "1" "status" (Value.str "A")
        (Value.str "B")).old_value = Value.str s ∧ s.length ≤ 65535) :=
  (ad_creative_diff_truncation
    [[("ad_group_id", Value.str "ag"), ("ad_id", Value.str "1"), ("status", Value.str "A")]]
    [[("ad_group_id", Value.str "ag"), ("ad_id", Value.str "1"), ("status", Value.str "B")]]
    (AdCreativeDiff.mk (Value.str "ag") "1" "status" (Value.str "A") (Value.str "B"))
    (by decide)).1

theorem valListEq_head {a b : Value} {l m : List Value}
    (h : valListEq (a :: l) (b :: m) = true) : pyEq a b = true := by
  simp only [valListEq, Bool.and_eq_true] at h
  exact h.1

theorem row_isEmpty_false_of_cid {p0 : Row} {v : Value}
    (hv : v ≠ Value.none) (h : pyEq (dictGet p0 "campaign_id") v = true) :
    p0.isEmpty = false := by
  cases p0 with
  | cons a t => rfl
  | nil =>
    have h' : pyEq Value.none v = true := h
    exact absurd (pyEq_none_left h') hv

theorem lastMatchBy_eq_none {α : Type} {l : List α} {p : α → Bool}
    (h : ∀ x ∈ l, p x = false) : lastMatchBy l p = Option.none := by
  apply List.find?_eq_none.mpr
  intro x hx
  simp [h x (List.mem_reverse.mp hx)]

theorem agAddedRecs_key (prior : List Row) :
    ∀ r : Row, ∀ rec ∈ agAddedRecs prior r, agChangeKey rec = agKey r := by
  intro r rec h
  unfold agAddedRecs at h
  split at h
  · simp at h
  · obtain rfl := List.mem_singleton.mp h
    rfl

theorem agRemovedRecs_key (current : List Row) :
    ∀ r : Row, ∀ rec ∈ agRemovedRecs current r, agChangeKey rec = agKey r := by
  intro r rec h
  unfold agRemovedRecs at h
  split at h
  · simp at h
  · obtain rfl := List.mem_singleton.mp h
    rfl

theorem agClassifyRecs_key (prev r : Row) :
    ∀ rec ∈ agClassifyRecs prev r, agChangeKey rec = agKey r := by
  intro rec h
  unfold agClassifyRecs at h
  split at h
  · obtain rfl := List.mem_singleton.mp h
    rfl
  · split at h
    · obtain rfl := List.mem_singleton.mp h
      rfl
    · split at h
      · obtain rfl := List.mem_singleton.mp h
        rfl
      · simp at h

theorem agModifiedRecs_key (prior : List Row) :
    ∀ r : Row, ∀ rec ∈ agModifiedRecs prior r, agChangeKey rec = agKey r := by
  intro r rec h
  unfold agModifiedRecs at h
  split at h
  · simp at h
  · next prev heq =>
    split at h
    · simp at h
    · exact agClassifyRecs_key prev r rec h

theorem agAddedRecs_mem {prior : List Row} {r : Row} {rec : AdGroupChange}
    (h : rec ∈ agAddedRecs prior r) :
    prior.any (fun p => valListEq (agKey p) (agKey r)) = false ∧
    rec.change_type = "ADDED" ∧ rec.old_value = Value.none ∧
    rec.new_value = dictGet r "ad_group_name" := by
  unfold agAddedRecs at h
  split at h
  · simp at h
  · next hany =>
    obtain rfl := List.mem_singleton.mp h
    exact ⟨by simpa using hany, rfl, rfl, rfl⟩

theorem agRemovedRecs_mem {current : List Row} {r : Row} {rec : AdGroupChange}
    (h : rec ∈ agRemovedRecs current r) :
    current.any (fun c => valListEq (agKey c) (agKey r)) = false ∧
    rec.change_type = "REMOVED" ∧ rec.old_value = dictGet r "ad_group_name" ∧
    rec.new_value = Value.none := by
  unfold agRemovedRecs at h
  split at h
  · simp at h
  · next hany =>
    obtain rfl := List.mem_singleton.mp h
    exact ⟨by simpa using hany, rfl, rfl, rfl⟩

theorem agClassifyRecs_spec {prev r : Row} {rec : AdGroupChange}
    (h : rec ∈ agClassifyRecs prev r) :
    (agStatusChanged prev r || agNameChanged prev r) = true ∧
    rec.change_type = (if agStatusChanged prev r && agNameChanged prev r then "UPDATED"
      else if agStatusChanged prev r then "STATUS_CHANGED" else "RENAMED") ∧
    rec.old_value = (if agStatusChanged prev r && agNameChanged prev r then
        Value.str ("status=" ++ pyStr (dictGet prev "status") ++ "; name=" ++
          pyStr (pyOr (dictGet prev "ad_group_name") (Value.str "")))
      else if agStatusChanged prev r then dictGet prev "status"
      else dictGet prev "ad_group_name") ∧
    rec.new_value = (if agStatusChanged prev r && agNameChanged prev r then
        Value.str ("status=" ++ pyStr (dictGet r "status") ++ "; name=" ++
          pyStr (pyOr (dictGet r "ad_group_name") (Value.str "")))
      else if agStatusChanged prev r then dictGet r "status"
      else dictGet r "ad_group_name") := by
  cases hsc : agStatusChanged prev r <;> cases hnc : agNameChanged prev r
  · simp [agClassifyRecs, hsc, hnc] at h
  · simp only [agClassifyRecs, hsc, hnc] at h
    simp at h
    subst h
    simp [hsc, hnc]
  · simp only [agClassifyRecs, hsc, hnc] at h
    simp at h
    subst h
    simp [hsc, hnc]
  · simp only [agClassifyRecs, hsc, hnc] at h
    simp at h
    subst h
    simp [hsc, hnc]

theorem agClassifyRecs_countP (prev r : Row) :
    ((agClassifyRecs prev r).countP (fun rec => valListEq (agChangeKey rec) (agKey r)))
      = if (agStatusChanged prev r || agNameChanged prev r) then 1 else 0 := by
  cases hsc : agStatusChanged prev r <;> cases hnc : agNameChanged prev r <;>
    simp [agClassifyRecs, hsc, hnc, agChangeKey, agKey, valListEq_refl,
      List.countP_cons, List.countP_nil]

theorem agAddedRecs_eq_nil {prior : List Row} {r : Row} {p0 : Row}
    (hp0 : p0 ∈ prior) (hmatch : valListEq (agKey p0) (agKey r) = true) :
    agAddedRecs prior r = [] := by
  unfold agAddedRecs
  rw [if_pos (List.any_eq_true.mpr ⟨p0, hp0, hmatch⟩)]

theorem agAddedRecs_eq_singleton {prior : List Row} {r : Row}
    (hb : ∀ p ∈ prior, valListEq (agKey p) (agKey r) = false) :
    agAddedRecs prior r
      = [{ campaign_id := dictGet r "campaign_id", ad_group_id := dictGet r "ad_group_id",
           change_type := "ADDED", ad_group_name := dictGet r "ad_group_name",
           status := dictGet r "status", old_value := Value.none,
           new_value := dictGet r "ad_group_name" }] := by
  have hany : prior.any (fun p => valListEq (agKey p) (agKey r)) = false := by
    rw [List.any_eq_false]
    intro p hp
    simp [hb p hp]
  unfold agAddedRecs
  rw [hany]
  rfl

theorem agRemovedRecs_eq_nil {current : List Row} {r : Row} {c0 : Row}
    (hc0 : c0 ∈ current) (hmatch : valListEq (agKey c0) (agKey r) = true) :
    agRemovedRecs current r = [] := by
  unfold agRemovedRecs
  rw [if_pos (List.any_eq_true.mpr ⟨c0, hc0, hmatch⟩)]

theorem agRemovedRecs_eq_singleton {current : List Row} {r : Row}
    (hb : ∀ c ∈ current, valListEq (agKey c) (agKey r) = false) :
    agRemovedRecs current r
      = [{ campaign_id := dictGet r "campaign_id", ad_group_id := dictGet r "ad_group_id",
           change_type := "REMOVED", ad_group_name := dictGet r "ad_group_name",
           status := dictGet r "status", old_value := dictGet r "ad_group_name",
           new_value := Value.none }] := by
  have hany : current.any (fun c => valListEq (agKey c) (agKey r)) = false := by
    rw [List.any_eq_false]
    intro c hc
    simp [hb c hc]
  unfold agRemovedRecs
  rw [hany]
  rfl

theorem agModifiedRecs_eq_nil {prior : List Row} {r : Row}
    (hb : ∀ p ∈ prior, valListEq (agKey p) (agKey r) = false) :
    agModifiedRecs prior r = [] := by
  unfold agModifiedRecs
  rw [lastMatchBy_eq_none hb]

theorem agModifiedRecs_eq {prior : List Row} {p0 r : Row}
    (hpri : prior.Pairwise (fun x y => valListEq (agKey x) (agKey y) = false))
    (hp0 : p0 ∈ prior) (hmatch : valListEq (agKey p0) (agKey r) = true)
    (hne : p0.isEmpty = false) :
    agModifiedRecs prior r = agClassifyRecs p0 r := by
  have huniq := pairwise_key_unique valListEq_comm valListEq_trans hpri hp0 hmatch
  have hlast : lastMatchBy prior (fun p => valListEq (agKey p) (agKey r)) = some p0 :=
    lastMatchBy_eq_of_unique hp0 hmatch huniq
  unfold agModifiedRecs
  simp only [hlast]
  simp [hne]

theorem computeAdGroupChanges_countP_split (prior current : List Row) (k : List Value) :
    (computeAdGroupChanges prior current).countP (fun rec => valListEq (agChangeKey rec) k)
      = (current.flatMap (agAddedRecs prior)).countP (fun rec => valListEq (agChangeKey rec) k)
        + (prior.flatMap (agRemovedRecs current)).countP (fun rec => valListEq (agChangeKey rec) k)
        + (current.flatMap (agModifiedRecs prior)).countP (fun rec => valListEq (agChangeKey rec) k) := by
  unfold computeAdGroupChanges
  rw [List.countP_append, List.countP_append]

/-- C2: the ad-group set diff partitions keys. A key present only in current
yields exactly one ADDED record (old null, new the current name); a key
present only in prior yields exactly one REMOVED record (old the prior name,
new null); a key present in both yields exactly one record when status or
name changed — of the type the changed fields dictate — and no record when
neither changed. Keys are compared Python-`==`-style, snapshots are assumed
duplicate-key-free, and a matched current row must carry a non-null
campaign_id (a null one would make the prior dict entry falsy in Python). -/
theorem ad_group_set_diff_partition (prior current : List Row)
    (hpri : prior.Pairwise (fun x y => valListEq (agKey x) (agKey y) = false))
    (hcur : current.Pairwise (fun x y => valListEq (agKey x) (agKey y) = false)) :
    (∀ c0 ∈ current, (∀ p ∈ prior, valListEq (agKey p) (agKey c0) = false) →
      ((computeAdGroupChanges prior current).countP
          (fun rec => valListEq (agChangeKey rec) (agKey c0)) = 1 ∧
        ∀ rec ∈ computeAdGroupChanges prior current,
          valListEq (agChangeKey rec) (agKey c0) = true →
            rec.change_type = "ADDED" ∧ rec.old_value = Value.none ∧
            rec.new_value = dictGet c0 "ad_group_name")) ∧
    (∀ p0 ∈ prior, (∀ c ∈ current, valListEq (agKey c) (agKey p0) = false) →
      ((computeAdGroupChanges prior current).countP
          (fun rec => valListEq (agChangeKey rec) (agKey p0)) = 1 ∧
        ∀ rec ∈ computeAdGroupChanges prior current,
          valListEq (agChangeKey rec) (agKey p0) = true →
            rec.change_type = "REMOVED" ∧ rec.old_value = dictGet p0 "ad_group_name" ∧
            rec.new_value = Value.none)) ∧
    (∀ c0 ∈ current, ∀ p0 ∈ prior, dictGet c0 "campaign_id" ≠ Value.none →
      valListEq (agKey p0) (agKey c0) = true →
      ((computeAdGroupChanges prior current).countP
          (fun rec => valListEq (agChangeKey rec) (agKey c0))
        = (if agStatusChanged p0 c0 || agNameChanged p0 c0 then 1 else 0) ∧
        ∀ rec ∈ computeAdGroupChanges prior current,
          valListEq (agChangeKey rec) (agKey c0) = true →
            rec.change_type = (if agStatusChanged p0 c0 && agNameChanged p0 c0 then "UPDATED"
              else if agStatusChanged p0 c0 then "STATUS_CHANGED" else "RENAMED"))) := by
  refine ⟨?_, ?_, ?_⟩
  · intro c0 hc0 hb
    constructor
    · rw [computeAdGroupChanges_countP_split]
      have hA : (current.flatMap (agAddedRecs prior)).countP
            (fun rec => valListEq (agChangeKey rec) (agKey c0))
          = (agAddedRecs prior c0).countP
            (fun rec => valListEq (agChangeKey rec) (agKey c0)) :=
        countP_flatMap_key_eq valListEq_comm valListEq_trans
          (fun a _ => agAddedRecs_key prior a) hcur hc0 (valListEq_refl _)
      have hR : (prior.flatMap (agRemovedRecs current)).countP
            (fun rec => valListEq (agChangeKey rec) (agKey c0)) = 0 :=
        countP_flatMap_key_zero (fun a _ => agRemovedRecs_key current a) hb
      have hM : (current.flatMap (agModifiedRecs prior)).countP
            (fun rec => valListEq (agChangeKey rec) (agKey c0))
          = (agModifiedRecs prior c0).countP
            (fun rec => valListEq (agChangeKey rec) (agKey c0)) :=
        countP_flatMap_key_eq valListEq_comm valListEq_trans
          (fun a _ => agModifiedRecs_key prior a) hcur hc0 (valListEq_refl _)
      rw [hA, hR, hM, agAddedRecs_eq_singleton hb, agModifiedRecs_eq_nil hb]
      simp [agChangeKey, agKey, valListEq_refl, List.countP_cons, List.countP_nil]
    · intro rec hrec hkey
      unfold computeAdGroupChanges at hrec
      rcases List.mem_append.mp hrec with hrec' | hM'
      · rcases List.mem_append.mp hrec' with hA' | hR'
        · rcases List.mem_flatMap.mp hA' with ⟨a, ha, hin⟩
          have hkeya : agChangeKey rec = agKey a := agAddedRecs_key prior a rec hin
          have hka : valListEq (agKey a) (agKey c0) = true := by
            rw [← hkeya]; exact hkey
          have hac0 : a = c0 :=
            pairwise_key_unique valListEq_comm valListEq_trans hcur hc0
              (valListEq_refl _) a ha hka
          subst hac0
          obtain ⟨_, ht, ho, hn⟩ := agAddedRecs_mem hin
          exact ⟨ht, ho, hn⟩
        · rcases List.mem_flatMap.mp hR' with ⟨p, hp, hin⟩
          have hkeyp : agChangeKey rec = agKey p := agRemovedRecs_key current p rec hin
          have hpc0 : valListEq (agKey p) (agKey c0) = true := by
            rw [← hkeyp]; exact hkey
          rw [hb p hp] at hpc0
          cases hpc0
      · rcases List.mem_flatMap.mp hM' with ⟨a, ha, hin⟩
        have hkeya : agChangeKey rec = agKey a := agModifiedRecs_key prior a rec hin
        have hka : valListEq (agKey a) (agKey c0) = true := by
          rw [← hkeya]; exact hkey
        have hac0 : a = c0 :=
          pairwise_key_unique valListEq_comm valListEq_trans hcur hc0
            (valListEq_refl _) a ha hka
        subst hac0
        rw [agModifiedRecs_eq_nil hb] at hin
        cases hin
  · intro p0 hp0 hb
    constructor
    · rw [computeAdGroupChanges_countP_split]
      have hA : (current.flatMap (agAddedRecs prior)).countP
            (fun rec => valListEq (agChangeKey rec) (agKey p0)) = 0 :=
        countP_flatMap_key_zero (fun a _ => agAddedRecs_key prior a) hb
      have hR : (prior.flatMap (agRemovedRecs current)).countP
            (fun rec => valListEq (agChangeKey rec) (agKey p0))
          = (agRemovedRecs current p0).countP
            (fun rec => valListEq (agChangeKey rec) (agKey p0)) :=
        countP_flatMap_key_eq valListEq_comm valListEq_trans
          (fun a _ => agRemovedRecs_key current a) hpri hp0 (valListEq_refl _)
      have hM : (current.flatMap (agModifiedRecs prior)).countP
            (fun rec => valListEq (agChangeKey rec) (agKey p0)) = 0 :=
        countP_flatMap_key_zero (fun a _ => agModifiedRecs_key prior a) hb
      rw [hA, hR, hM, agRemovedRecs_eq_singleton hb]
      simp [agChangeKey, agKey, valListEq_refl, List.countP_cons, List.countP_nil]
    · intro rec hrec hkey
      unfold computeAdGroupChanges at hrec
      rcases List.mem_append.mp hrec with hrec' | hM'
      · rcases List.mem_append.mp hrec' with hA' | hR'
        · rcases List.mem_flatMap.mp hA' with ⟨a, ha, hin⟩
          have hkeya : agChangeKey rec = agKey a := agAddedRecs_key prior a rec hin
          have hka : valListEq (agKey a) (agKey p0) = true := by
            rw [← hkeya]; exact hkey
          rw [hb a ha] at hka
          cases hka
        · rcases List.mem_flatMap.mp hR' with ⟨p, hp, hin⟩
          have hkeyp : agChangeKey rec = agKey p := agRemovedRecs_key current p rec hin
          have hpk : valListEq (agKey p) (agKey p0) = true := by
            rw [← hkeyp]; exact hkey
          have hpp0 : p = p0 :=
            pairwise_key_unique valListEq_comm valListEq_trans hpri hp0
              (valListEq_refl _) p hp hpk
          subst hpp0
          obtain ⟨_, ht, ho, hn⟩ := agRemovedRecs_mem hin
          exact ⟨ht, ho, hn⟩
      · rcases List.mem_flatMap.mp hM' with ⟨a, ha, hin⟩
        have hkeya : agChangeKey rec = agKey a := agModifiedRecs_key prior a rec hin
        have hka : valListEq (agKey a) (agKey p0) = true := by
          rw [← hkeya]; exact hkey
        rw [hb a ha] at hka
        cases hka
  · intro c0 hc0 p0 hp0 hcid hmatch
    have hm' : valListEq [dictGet p0 "campaign_id", dictGet p0 "ad_group_id"]
        [dictGet c0 "campaign_id", dictGet c0 "ad_group_id"] = true := hmatch
    have hne : p0.isEmpty = false :=
      row_isEmpty_false_of_cid hcid (valListEq_head hm')
    constructor
    · rw [computeAdGroupChanges_countP_split]
      have hA : (current.flatMap (agAddedRecs prior)).countP
            (fun rec => valListEq (agChangeKey rec) (agKey c0))
          = (agAddedRecs prior c0).countP
            (fun rec => valListEq (agChangeKey rec) (agKey c0)) :=
        countP_flatMap_key_eq valListEq_comm valListEq_trans
          (fun a _ => agAddedRecs_key prior a) hcur hc0 (valListEq_refl _)
      have hR : (prior.flatMap (agRemovedRecs current)).countP
            (fun rec => valListEq (agChangeKey rec) (agKey c0))
          = (agRemovedRecs current p0).countP
            (fun rec => valListEq (agChangeKey rec) (agKey c0)) :=
        countP_flatMap_key_eq valListEq_comm valListEq_trans
          (fun a _ => agRemovedRecs_key current a) hpri hp0 hmatch
      have hM : (current.flatMap (agModifiedRecs prior)).countP
            (fun rec => valListEq (agChangeKey rec) (agKey c0))
          = (agModifiedRecs prior c0).countP
            (fun rec => valListEq (agChangeKey rec) (agKey c0)) :=
        countP_flatMap_key_eq valListEq_comm valListEq_trans
          (fun a _ => agModifiedRecs_key prior a) hcur hc0 (valListEq_refl _)
      rw [hA, hR, hM, agAddedRecs_eq_nil hp0 hmatch,
        agRemovedRecs_eq_nil hc0 (by rw [valListEq_comm]; exact hmatch),
        agModifiedRecs_eq hpri hp0 hmatch hne, agClassifyRecs_countP p0 c0]
      simp
    · intro rec hrec hkey
      unfold computeAdGroupChanges at hrec
      rcases List.mem_append.mp hrec with hrec' | hM'
      · rcases List.mem_append.mp hrec' with hA' | hR'
        · rcases List.mem_flatMap.mp hA' with ⟨a, ha, hin⟩
          have hkeya : agChangeKey rec = agKey a := agAddedRecs_key prior a rec hin
          have hka : valListEq (agKey a) (agKey c0) = true := by
            rw [← hkeya]; exact hkey
          have hac0 : a = c0 :=
            pairwise_key_unique valListEq_comm valListEq_trans hcur hc0
              (valListEq_refl _) a ha hka
          subst hac0
          rw [agAddedRecs_eq_nil hp0 hmatch] at hin
          cases hin
        · rcases List.mem_flatMap.mp hR' with ⟨p, hp, hin⟩
          have hkeyp : agChangeKey rec = agKey p := agRemovedRecs_key current p rec hin
          have hpk : valListEq (agKey p) (agKey c0) = true := by
            rw [← hkeyp]; exact hkey
          have hpp0 : p = p0 :=
            pairwise_key_unique valListEq_comm valListEq_trans hpri hp0 hmatch p hp hpk
          subst hpp0
          rw [agRemovedRecs_eq_nil hc0 (by rw [valListEq_comm]; exact hmatch)] at hin
          cases hin
      · rcases List.mem_flatMap.mp hM' with ⟨a, ha, hin⟩
        have hkeya : agChangeKey rec = agKey a := agModifiedRecs_key prior a rec hin
        have hka : valListEq (agKey a) (agKey c0) = true := by
          rw [← hkeya]; exact hkey
        have hac0 : a = c0 :=
          pairwise_key_unique valListEq_comm valListEq_trans hcur hc0
            (valListEq_refl _) a ha hka
        subst hac0
        rw [agModifiedRecs_eq hpri hp0 hmatch hne] at hin
        exact (agClassifyRecs_spec hin).2.1

/-- C2 witness: a one-row prior and current sharing the key (1, 2) with a
status change PAUSED→ENABLED; the theorem's matched-pair clause gives the
exact count. -/
theorem ad_group_set_diff_partition_witness :
    (computeAdGroupChanges
        [[("campaign_id", Value.int 1), ("ad_group_id", Value.int 2),
          ("status", Value.str "PAUSED"), ("ad_group_name", Value.str "A")]]
        [[("campaign_id", Value.int 1), ("ad_group_id", Value.int 2),
          ("status", Value.str "ENABLED"), ("ad_group_name", Value.str "A")]]).countP
      (fun rec => valListEq (agChangeKey rec)
        (agKey [("campaign_id", Value.int 1), ("ad_group_id", Value.int 2),
          ("status", Value.str "ENABLED"), ("ad_group_name", Value.str "A")]))
      = (if agStatusChanged
            [("campaign_id", Value.int 1), ("ad_group_id", Value.int 2),
             ("status", Value.str "PAUSED"), ("ad_group_name", Value.str "A")]
            [("campaign_id", Value.int 1), ("ad_group_id", Value.int 2),
             ("status", Value.str "ENABLED"), ("ad_group_name", Value.str "A")]
          || agNameChanged
            [("campaign_id", Value.int 1), ("ad_group_id", Value.int 2),
             ("status", Value.str "PAUSED"), ("ad_group_name", Value.str "A")]
            [("campaign_id", Value.int 1), ("ad_group_id", Value.int 2),
             ("status", Value.str "ENABLED"), ("ad_group_name", Value.str "A")]
          then 1 else 0) :=
  ((ad_group_set_diff_partition
      [[("campaign_id", Value.int 1), ("ad_group_id", Value.int 2),
        ("status", Value.str "PAUSED"), ("ad_group_name", Value.str "A")]]
      [[("campaign_id", Value.int 1), ("ad_group_id", Value.int 2),
        ("status", Value.str "ENABLED"), ("ad_group_name", Value.str "A")]]
      (by decide) (by decide)).2.2
    [("campaign_id", Value.int 1), ("ad_group_id", Value.int 2),
     ("status", Value.str "ENABLED"), ("ad_group_name", Value.str "A")]
    (by decide)
    [("campaign_id", Value.int 1), ("ad_group_id", Value.int 2),
     ("status", Value.str "PAUSED"), ("ad_group_name", Value.str "A")]
    (by decide) (by decide) (by decide)).1

theorem kwAddedRecs_key (prior : List Row) :
    ∀ r : Row, ∀ rec ∈ kwAddedRecs prior r, kwChangeKey rec = kwKey r := by
  intro r rec h
  unfold kwAddedRecs at h
  split at h
  · simp at h
  · obtain rfl := List.mem_singleton.mp h
    rfl

theorem kwRemovedRecs_key (current : List Row) :
    ∀ r : Row, ∀ rec ∈ kwRemovedRecs current r, kwChangeKey rec = kwKey r := by
  intro r rec h
  unfold kwRemovedRecs at h
  split at h
  · simp at h
  · obtain rfl := List.mem_singleton.mp h
    rfl

theorem kwClassifyRecs_key (prev r : Row) :
    ∀ rec ∈ kwClassifyRecs prev r, kwChangeKey rec = kwKey r := by
  intro rec h
  unfold kwClassifyRecs at h
  split at h
  · obtain rfl := List.mem_singleton.mp h
    rfl
  · simp at h

theorem kwModifiedRecs_key (prior : List Row) :
    ∀ r : Row, ∀ rec ∈ kwModifiedRecs prior r, kwChangeKey rec = kwKey r := by
  intro r rec h
  unfold kwModifiedRecs at h
  split at h
  · simp at h
  · next prev heq =>
    split at h
    · simp at h
    · exact kwClassifyRecs_key prev r rec h

theorem kwClassifyRecs_spec {prev r : Row} {rec : KeywordChange}
    (h : rec ∈ kwClassifyRecs prev r) :
    kwMtChanged prev r = true ∧ rec.change_type = "MATCH_TYPE_CHANGED" ∧
    rec.old_value = dictGet prev "match_type" ∧
    rec.new_value = dictGet r "match_type" := by
  unfold kwClassifyRecs at h
  split at h
  · next hmt =>
    obtain rfl := List.mem_singleton.mp h
    exact ⟨hmt, rfl, rfl, rfl⟩
  · simp at h

theorem kwClassifyRecs_countP (prev r : Row) :
    ((kwClassifyRecs prev r).countP (fun rec => valListEq (kwChangeKey rec) (kwKey r)))
      = if kwMtChanged prev r then 1 else 0 := by
  cases hmt : kwMtChanged prev r <;>
    simp [kwClassifyRecs, hmt, kwChangeKey, kwKey, valListEq_refl,
      List.countP_cons, List.countP_nil]

theorem kwAddedRecs_eq_nil {prior : List Row} {r : Row} {p0 : Row}
    (hp0 : p0 ∈ prior) (hmatch : valListEq (kwKey p0) (kwKey r) = true) :
    kwAddedRecs prior r = [] := by
  unfold kwAddedRecs
  rw [if_pos (List.any_eq_true.mpr ⟨p0, hp0, hmatch⟩)]

theorem kwRemovedRecs_eq_nil {current : List Row} {r : Row} {c0 : Row}
    (hc0 : c0 ∈ current) (hmatch : valListEq (kwKey c0) (kwKey r) = true) :
    kwRemovedRecs current r = [] := by
  unfold kwRemovedRecs
  rw [if_pos (List.any_eq_true.mpr ⟨c0, hc0, hmatch⟩)]

theorem kwModifiedRecs_eq {prior : List Row} {p0 r : Row}
    (hpri : prior.Pairwise (fun x y => valListEq (kwKey x) (kwKey y) = false))
    (hp0 : p0 ∈ prior) (hmatch : valListEq (kwKey p0) (kwKey r) = true)
    (hne : p0.isEmpty = false) :
    kwModifiedRecs prior r = kwClassifyRecs p0 r := by
  have huniq := pairwise_key_unique valListEq_comm valListEq_trans hpri hp0 hmatch
  have hlast : lastMatchBy prior (fun p => valListEq (kwKey p) (kwKey r)) = some p0 :=
    lastMatchBy_eq_of_unique hp0 hmatch huniq
  unfold kwModifiedRecs
  simp only [hlast]
  simp [hne]

theorem computeKeywordChanges_countP_split (prior current : List Row) (k : List Value) :
    (computeKeywordChanges prior current).countP (fun rec => valListEq (kwChangeKey rec) k)
      = (current.flatMap (kwAddedRecs prior)).countP (fun rec => valListEq (kwChangeKey rec) k)
        + (prior.flatMap (kwRemovedRecs current)).countP (fun rec => valListEq (kwChangeKey rec) k)
        + (current.flatMap (kwModifiedRecs prior)).countP (fun rec => valListEq (kwChangeKey rec) k) := by
  unfold computeKeywordChanges
  rw [List.countP_append, List.countP_append]

theorem negKwAddedRecs_key (prior : List Row) :
    ∀ r : Row, ∀ rec ∈ negKwAddedRecs prior r, negKwChangeKey rec = negKwKey r := by
  intro r rec h
  unfold negKwAddedRecs at h
  split at h
  · simp at h
  · obtain rfl := List.mem_singleton.mp h
    rfl

theorem negKwRemovedRecs_key (current : List Row) :
    ∀ r : Row, ∀ rec ∈ negKwRemovedRecs current r, negKwChangeKey rec = negKwKey r := by
  intro r rec h
  unfold negKwRemovedRecs at h
  split at h
  · simp at h
  · obtain rfl := List.mem_singleton.mp h
    rfl

theorem negKwClassifyRecs_key (prev r : Row) :
    ∀ rec ∈ negKwClassifyRecs prev r, negKwChangeKey rec = negKwKey r := by
  intro rec h
  unfold negKwClassifyRecs at h
  split at h
  · obtain rfl := List.mem_singleton.mp h
    rfl
  · simp at h

theorem negKwModifiedRecs_key (prior : List Row) :
    ∀ r : Row, ∀ rec ∈ negKwModifiedRecs prior r, negKwChangeKey rec = negKwKey r := by
  intro r rec h
  unfold negKwModifiedRecs at h
  split at h
  · simp at h
  · next prev heq =>
    split at h
    · simp at h
    · exact negKwClassifyRecs_key prev r rec h

theorem negKwClassifyRecs_spec {prev r : Row} {rec : NegKeywordChange}
    (h : rec ∈ negKwClassifyRecs prev r) :
    (negKwMtChanged prev r || negKwKtChanged prev r) = true ∧
    rec.change_type = (if negKwMtChanged prev r && negKwKtChanged prev r then "UPDATED"
      else if negKwMtChanged prev r then "MATCH_TYPE_CHANGED"
      else "KEYWORD_TEXT_CHANGED") := by
  unfold negKwClassifyRecs at h
  split at h
  · next hcond =>
    obtain rfl := List.mem_singleton.mp h
    exact ⟨hcond, rfl⟩
  · simp at h

theorem negKwClassifyRecs_countP (prev r : Row) :
    ((negKwClassifyRecs prev r).countP
        (fun rec => valListEq (negKwChangeKey rec) (negKwKey r)))
      = if (negKwMtChanged prev r || negKwKtChanged prev r) then 1 else 0 := by
  cases hor : (negKwMtChanged prev r || negKwKtChanged prev r) <;>
    simp [negKwClassifyRecs, hor, negKwChangeKey, negKwKey, valListEq_refl,
      List.countP_cons, List.countP_nil]

theorem negKwAddedRecs_eq_nil {prior : List Row} {r : Row} {p0 : Row}
    (hp0 : p0 ∈ prior) (hmatch : valListEq (negKwKey p0) (negKwKey r) = true) :
    negKwAddedRecs prior r = [] := by
  unfold negKwAddedRecs
  rw [if_pos (List.any_eq_true.mpr ⟨p0, hp0, hmatch⟩)]

theorem negKwRemovedRecs_eq_nil {current : List Row} {r : Row} {c0 : Row}
    (hc0 : c0 ∈ current) (hmatch : valListEq (negKwKey c0) (negKwKey r) = true) :
    negKwRemovedRecs current r = [] := by
  unfold negKwRemovedRecs
  rw [if_pos (List.any_eq_true.mpr ⟨c0, hc0, hmatch⟩)]

theorem negKwModifiedRecs_eq {prior : List Row} {p0 r : Row}
    (hpri : prior.Pairwise (fun x y => valListEq (negKwKey x) (negKwKey y) = false))
    (hp0 : p0 ∈ prior) (hmatch : valListEq (negKwKey p0) (negKwKey r) = true)
    (hne : p0.isEmpty = false) :
    negKwModifiedRecs prior r = negKwClassifyRecs p0 r := by
  have huniq := pairwise_key_unique valListEq_comm valListEq_trans hpri hp0 hmatch
  have hlast : lastMatchBy prior (fun p => valListEq (negKwKey p) (negKwKey r)) = some p0 :=
    lastMatchBy_eq_of_unique hp0 hmatch huniq
  unfold negKwModifiedRecs
  simp only [hlast]
  simp [hne]

theorem computeNegativeKeywordDiffs_countP_split (prior current : List Row) (k : List Value) :
    (computeNegativeKeywordDiffs prior current).countP
        (fun rec => valListEq (negKwChangeKey rec) k)
      = (current.flatMap (negKwAddedRecs prior)).countP
          (fun rec => valListEq (negKwChangeKey rec) k)
        + (prior.flatMap (negKwRemovedRecs current)).countP
          (fun rec => valListEq (negKwChangeKey rec) k)
        + (current.flatMap (negKwModifiedRecs prior)).countP
          (fun rec => valListEq (negKwChangeKey rec) k) := by
  unfold computeNegativeKeywordDiffs
  rw [List.countP_append, List.countP_append]

/-- C5 (amended): for keys present in both snapshots, the positive-keyword
diff compares ONLY match_type (a keyword_text-only change emits nothing),
emitting exactly one MATCH_TYPE_CHANGED record with the raw old/new
match_type values when it changed; the negative-keyword diff is the one that
compares both match_type and keyword_text, emitting one UPDATED record when
both changed, the single-field change type when one changed, nothing when
neither changed. Scenario A (EXACT→PHRASE, text unchanged) yields exactly
one MATCH_TYPE_CHANGED record with old "EXACT" and new "PHRASE". -/
theorem keyword_set_diff_amended
    (priorKw currentKw priorNeg currentNeg : List Row)
    (hpk : priorKw.Pairwise (fun x y => valListEq (kwKey x) (kwKey y) = false))
    (hck : currentKw.Pairwise (fun x y => valListEq (kwKey x) (kwKey y) = false))
    (hpn : priorNeg.Pairwise (fun x y => valListEq (negKwKey x) (negKwKey y) = false))
    (hcn : currentNeg.Pairwise (fun x y => valListEq (negKwKey x) (negKwKey y) = false)) :
    (∀ c0 ∈ currentKw, ∀ p0 ∈ priorKw, dictGet c0 "campaign_id" ≠ Value.none →
      valListEq (kwKey p0) (kwKey c0) = true →
      ((computeKeywordChanges priorKw currentKw).countP
          (fun rec => valListEq (kwChangeKey rec) (kwKey c0))
        = (if kwMtChanged p0 c0 then 1 else 0) ∧
        ∀ rec ∈ computeKeywordChanges priorKw currentKw,
          valListEq (kwChangeKey rec) (kwKey c0) = true →
            rec.change_type = "MATCH_TYPE_CHANGED" ∧
            rec.old_value = dictGet p0 "match_type" ∧
            rec.new_value = dictGet c0 "match_type")) ∧
    (∀ c0 ∈ currentNeg, ∀ p0 ∈ priorNeg, dictGet c0 "campaign_id" ≠ Value.none →
      valListEq (negKwKey p0) (negKwKey c0) = true →
      ((computeNegativeKeywordDiffs priorNeg currentNeg).countP
          (fun rec => valListEq (negKwChangeKey rec) (negKwKey c0))
        = (if (negKwMtChanged p0 c0 || negKwKtChanged p0 c0) then 1 else 0) ∧
        ∀ rec ∈ computeNegativeKeywordDiffs priorNeg currentNeg,
          valListEq (negKwChangeKey rec) (negKwKey c0) = true →
            rec.change_type = (if negKwMtChanged p0 c0 && negKwKtChanged p0 c0 then "UPDATED"
              else if negKwMtChanged p0 c0 then "MATCH_TYPE_CHANGED"
              else "KEYWORD_TEXT_CHANGED"))) ∧
    computeKeywordChanges
        [[("campaign_id", Value.int 1), ("ad_group_id", Value.int 1),
          ("keyword_criterion_id", Value.int 7), ("keyword_text", Value.str "shoe"),
          ("match_type", Value.str "EXACT")]]
        [[("campaign_id", Value.int 1), ("ad_group_id", Value.int 1),
          ("keyword_criterion_id", Value.int 7), ("keyword_text", Value.str "shoe"),
          ("match_type", Value.str "PHRASE")]]
      = [{ campaign_id := Value.int 1, ad_group_id := Value.int 1,
           keyword_criterion_id := "7", change_type := "MATCH_TYPE_CHANGED",
           keyword_text := Value.str "shoe", match_type := Value.str "PHRASE",
           old_value := Value.str "EXACT", new_value := Value.str "PHRASE" }] := by
  refine ⟨?_, ?_, by decide⟩
  · intro c0 hc0 p0 hp0 hcid hmatch
    have hm' : valListEq
        [dictGet p0 "campaign_id", dictGet p0 "ad_group_id",
         Value.str (pyStr (dictGetD p0 "keyword_criterion_id" (Value.str "")))]
        [dictGet c0 "campaign_id", dictGet c0 "ad_group_id",
         Value.str (pyStr (dictGetD c0 "keyword_criterion_id" (Value.str "")))] = true := hmatch
    have hne : p0.isEmpty = false :=
      row_isEmpty_false_of_cid hcid (valListEq_head hm')
    constructor
    · rw [computeKeywordChanges_countP_split]
      have hA : (currentKw.flatMap (kwAddedRecs priorKw)).countP
            (fun rec => valListEq (kwChangeKey rec) (kwKey c0))
          = (kwAddedRecs priorKw c0).countP
            (fun rec => valListEq (kwChangeKey rec) (kwKey c0)) :=
        countP_flatMap_key_eq valListEq_comm valListEq_trans
          (fun a _ => kwAddedRecs_key priorKw a) hck hc0 (valListEq_refl _)
      have hR : (priorKw.flatMap (kwRemovedRecs currentKw)).countP
            (fun rec => valListEq (kwChangeKey rec) (kwKey c0))
          = (kwRemovedRecs currentKw p0).countP
            (fun rec => valListEq (kwChangeKey rec) (kwKey c0)) :=
        countP_flatMap_key_eq valListEq_comm valListEq_trans
          (fun a _ => kwRemovedRecs_key currentKw a) hpk hp0 hmatch
      have hM : (currentKw.flatMap (kwModifiedRecs priorKw)).countP
            (fun rec => valListEq (kwChangeKey rec) (kwKey c0))
          = (kwModifiedRecs priorKw c0).countP
            (fun rec => valListEq (kwChangeKey rec) (kwKey c0)) :=
        countP_flatMap_key_eq valListEq_comm valListEq_trans
          (fun a _ => kwModifiedRecs_key priorKw a) hck hc0 (valListEq_refl _)
      rw [hA, hR, hM, kwAddedRecs_eq_nil hp0 hmatch,
        kwRemovedRecs_eq_nil hc0 (by rw [valListEq_comm]; exact hmatch),
        kwModifiedRecs_eq hpk hp0 hmatch hne, kwClassifyRecs_countP p0 c0]
      simp
    · intro rec hrec hkey
      unfold computeKeywordChanges at hrec
      rcases List.mem_append.mp hrec with hrec' | hM'
      · rcases List.mem_append.mp hrec' with hA' | hR'
        · rcases List.mem_flatMap.mp hA' with ⟨a, ha, hin⟩
          have hkeya : kwChangeKey rec = kwKey a := kwAddedRecs_key priorKw a rec hin
          have hka : valListEq (kwKey a) (kwKey c0) = true := by
            rw [← hkeya]; exact hkey
          have hac0 : a = c0 :=
            pairwise_key_unique valListEq_comm valListEq_trans hck hc0
              (valListEq_refl _) a ha hka
          subst hac0
          rw [kwAddedRecs_eq_nil hp0 hmatch] at hin
          cases hin
        · rcases List.mem_flatMap.mp hR' with ⟨p, hp, hin⟩
          have hkeyp : kwChangeKey rec = kwKey p := kwRemovedRecs_key currentKw p rec hin
          have hpk' : valListEq (kwKey p) (kwKey c0) = true := by
            rw [← hkeyp]; exact hkey
          have hpp0 : p = p0 :=
            pairwise_key_unique valListEq_comm valListEq_trans hpk hp0 hmatch p hp hpk'
          subst hpp0
          rw [kwRemovedRecs_eq_nil hc0 (by rw [valListEq_comm]; exact hmatch)] at hin
          cases hin
      · rcases List.mem_flatMap.mp hM' with ⟨a, ha, hin⟩
        have hkeya : kwChangeKey rec = kwKey a := kwModifiedRecs_key priorKw a rec hin
        have hka : valListEq (kwKey a) (kwKey c0) = true := by
          rw [← hkeya]; exact hkey
        have hac0 : a = c0 :=
          pairwise_key_unique valListEq_comm valListEq_trans hck hc0
            (valListEq_refl _) a ha hka
        subst hac0
        rw [kwModifiedRecs_eq hpk hp0 hmatch hne] at hin
        obtain ⟨_, ht, ho, hn⟩ := kwClassifyRecs_spec hin
        exact ⟨ht, ho, hn⟩
  · intro c0 hc0 p0 hp0 hcid hmatch
    have hm' : valListEq
        [dictGet p0 "campaign_id", pyOr (dictGet p0 "ad_group_id") (Value.str ""),
         Value.str (pyStr (dictGetD p0 "criterion_id" (Value.str "")))]
        [dictGet c0 "campaign_id", pyOr (dictGet c0 "ad_group_id") (Value.str ""),
         Value.str (pyStr (dictGetD c0 "criterion_id" (Value.str "")))] = true := hmatch
    have hne : p0.isEmpty = false :=
      row_isEmpty_false_of_cid hcid (valListEq_head hm')
    constructor
    · rw [computeNegativeKeywordDiffs_countP_split]
      have hA : (currentNeg.flatMap (negKwAddedRecs priorNeg)).countP
            (fun rec => valListEq (negKwChangeKey rec) (negKwKey c0))
          = (negKwAddedRecs priorNeg c0).countP
            (fun rec => valListEq (negKwChangeKey rec) (negKwKey c0)) :=
        countP_flatMap_key_eq valListEq_comm valListEq_trans
          (fun a _ => negKwAddedRecs_key priorNeg a) hcn hc0 (valListEq_refl _)
      have hR : (priorNeg.flatMap (negKwRemovedRecs currentNeg)).countP
            (fun rec => valListEq (negKwChangeKey rec) (negKwKey c0))
          = (negKwRemovedRecs currentNeg p0).countP
            (fun rec => valListEq (negKwChangeKey rec) (negKwKey c0)) :=
        countP_flatMap_key_eq valListEq_comm valListEq_trans
          (fun a _ => negKwRemovedRecs_key currentNeg a) hpn hp0 hmatch
      have hM : (currentNeg.flatMap (negKwModifiedRecs priorNeg)).countP
            (fun rec => valListEq (negKwChangeKey rec) (negKwKey c0))
          = (negKwModifiedRecs priorNeg c0).countP
            (fun rec => valListEq (negKwChangeKey rec) (negKwKey c0)) :=
        countP_flatMap_key_eq valListEq_comm valListEq_trans
          (fun a _ => negKwModifiedRecs_key priorNeg a) hcn hc0 (valListEq_refl _)
      rw [hA, hR, hM, negKwAddedRecs_eq_nil hp0 hmatch,
        negKwRemovedRecs_eq_nil hc0 (by rw [valListEq_comm]; exact hmatch),
        negKwModifiedRecs_eq hpn hp0 hmatch hne, negKwClassifyRecs_countP p0 c0]
      simp
    · intro rec hrec hkey
      unfold computeNegativeKeywordDiffs at hrec
      rcases List.mem_append.mp hrec with hrec' | hM'
      · rcases List.mem_append.mp hrec' with hA' | hR'
        · rcases List.mem_flatMap.mp hA' with ⟨a, ha, hin⟩
          have hkeya : negKwChangeKey rec = negKwKey a := negKwAddedRecs_key priorNeg a rec hin
          have hka : valListEq (negKwKey a) (negKwKey c0) = true := by
            rw [← hkeya]; exact hkey
          have hac0 : a = c0 :=
            pairwise_key_unique valListEq_comm valListEq_trans hcn hc0
              (valListEq_refl _) a ha hka
          subst hac0
          rw [negKwAddedRecs_eq_nil hp0 hmatch] at hin
          cases hin
        · rcases List.mem_flatMap.mp hR' with ⟨p, hp, hin⟩
          have hkeyp : negKwChangeKey rec = negKwKey p :=
            negKwRemovedRecs_key currentNeg p rec hin
          have hpk' : valListEq (negKwKey p) (negKwKey c0) = true := by
            rw [← hkeyp]; exact hkey
          have hpp0 : p = p0 :=
            pairwise_key_unique valListEq_comm valListEq_trans hpn hp0 hmatch p hp hpk'
          subst hpp0
          rw [negKwRemovedRecs_eq_nil hc0 (by rw [valListEq_comm]; exact hmatch)] at hin
          cases hin
      · rcases List.mem_flatMap.mp hM' with ⟨a, ha, hin⟩
        have hkeya : negKwChangeKey rec = negKwKey a := negKwModifiedRecs_key priorNeg a rec hin
        have hka : valListEq (negKwKey a) (negKwKey c0) = true := by
          rw [← hkeya]; exact hkey
        have hac0 : a = c0 :=
          pairwise_key_unique valListEq_comm valListEq_trans hcn hc0
            (valListEq_refl _) a ha hka
        subst hac0
        rw [negKwModifiedRecs_eq hpn hp0 hmatch hne] at hin
        exact (negKwClassifyRecs_spec hin).2

/-- C5 witness: the theorem applied to the Scenario-A pair (EXACT→PHRASE,
text unchanged) with empty negative-keyword snapshots; the positive-keyword
clause gives the count at the shared key. -/
theorem keyword_set_diff_amended_witness :
    (computeKeywordChanges
        [[("campaign_id", Value.int 1), ("ad_group_id", Value.int 1),
          ("keyword_criterion_id", Value.int 7), ("keyword_text", Value.str "shoe"),
          ("match_type", Value.str "EXACT")]]
        [[("campaign_id", Value.int 1), ("ad_group_id", Value.int 1),
          ("keyword_criterion_id", Value.int 7), ("keyword_text", Value.str "shoe"),
          ("match_type", Value.str "PHRASE")]]).countP
      (fun rec => valListEq (kwChangeKey rec)
        (kwKey [("campaign_id", Value.int 1), ("ad_group_id", Value.int 1),
          ("keyword_criterion_id", Value.int 7), ("keyword_text", Value.str "shoe"),
          ("match_type", Value.str "PHRASE")]))
      = (if kwMtChanged
            [("campaign_id", Value.int 1), ("ad_group_id", Value.int 1),
             ("keyword_criterion_id", Value.int 7), ("keyword_text", Value.str "shoe"),
             ("match_type", Value.str "EXACT")]
            [("campaign_id", Value.int 1), ("ad_group_id", Value.int 1),
             ("keyword_criterion_id", Value.int 7), ("keyword_text", Value.str "shoe"),
             ("match_type", Value.str "PHRASE")]
          then 1 else 0) :=
  ((keyword_set_diff_amended
      [[("campaign_id", Value.int 1), ("ad_group_id", Value.int 1),
        ("keyword_criterion_id", Value.int 7), ("keyword_text", Value.str "shoe"),
        ("match_type", Value.str "EXACT")]]
      [[("campaign_id", Value.int 1), ("ad_group_id", Value.int 1),
        ("keyword_criterion_id", Value.int 7), ("keyword_text", Value.str "shoe"),
        ("match_type", Value.str "PHRASE")]]
      [] [] (by decide) (by decide) (by decide) (by decide)).1
    [("campaign_id", Value.int 1), ("ad_group_id", Value.int 1),
     ("keyword_criterion_id", Value.int 7), ("keyword_text", Value.str "shoe"),
     ("match_type", Value.str "PHRASE")]
    (by decide)
    [("campaign_id", Value.int 1), ("ad_group_id", Value.int 1),
     ("keyword_criterion_id", Value.int 7), ("keyword_text", Value.str "shoe"),
     ("match_type", Value.str "EXACT")]
    (by decide) (by decide) (by decide)).1

theorem audAddedRecs_key (prior : List Row) :
    ∀ r : Row, ∀ rec ∈ audAddedRecs prior r, audChangeKey rec = audKey r := by
  intro r rec h
  unfold audAddedRecs at h
  split at h
  · simp at h
  · obtain rfl := List.mem_singleton.mp h
    rfl

theorem audRemovedRecs_key (current : List Row) :
    ∀ r : Row, ∀ rec ∈ audRemovedRecs current r, audChangeKey rec = audKey r := by
  intro r rec h
  unfold audRemovedRecs at h
  split at h
  · simp at h
  · obtain rfl := List.mem_singleton.mp h
    rfl

theorem audClassifyRecs_key (prev r : Row) :
    ∀ rec ∈ audClassifyRecs prev r, audChangeKey rec = audKey r := by
  intro rec h
  unfold audClassifyRecs at h
  split at h
  · obtain rfl := List.mem_singleton.mp h
    rfl
  · split at h
    · obtain rfl := List.mem_singleton.mp h
      rfl
    · split at h
      · obtain rfl := List.mem_singleton.mp h
        rfl
      · simp at h

theorem audModifiedRecs_key (prior : List Row) :
    ∀ r : Row, ∀ rec ∈ audModifiedRecs prior r, audChangeKey rec = audKey r := by
  intro r rec h
  unfold audModifiedRecs at h
  split at h
  · simp at h
  · next prev heq =>
    split at h
    · simp at h
    · exact audClassifyRecs_key prev r rec h

theorem audClassifyRecs_spec {prev r : Row} {rec : AudienceChange}
    (h : rec ∈ audClassifyRecs prev r) :
    (audModeChanged prev r || audBidChanged prev r) = true ∧
    rec.change_type = (if audModeChanged prev r && audBidChanged prev r then "UPDATED"
      else if audModeChanged prev r then "MODE_CHANGED" else "BID_MODIFIER_CHANGED") ∧
    rec.old_value = (if audModeChanged prev r && audBidChanged prev r then
        Value.str ("mode=" ++ pyStr (dictGet prev "targeting_mode") ++
          "; bid_modifier=" ++ pyStr (dictGet prev "bid_modifier"))
      else if audModeChanged prev r then dictGet prev "targeting_mode"
      else strOrNone (dictGet prev "bid_modifier")) ∧
    rec.new_value = (if audModeChanged prev r && audBidChanged prev r then
        Value.str ("mode=" ++ pyStr (dictGet r "targeting_mode") ++
          "; bid_modifier=" ++ pyStr (dictGet r "bid_modifier"))
      else if audModeChanged prev r then dictGet r "targeting_mode"
      else strOrNone (dictGet r "bid_modifier")) := by
  cases hmc : audModeChanged prev r <;> cases hbc : audBidChanged prev r
  · simp [audClassifyRecs, hmc, hbc] at h
  · simp only [audClassifyRecs, hmc, hbc] at h
    simp at h
    subst h
    simp [hmc, hbc]
  · simp only [audClassifyRecs, hmc, hbc] at h
    simp at h
    subst h
    simp [hmc, hbc]
  · simp only [audClassifyRecs, hmc, hbc] at h
    simp at h
    subst h
    simp [hmc, hbc]

theorem audClassifyRecs_countP (prev r : Row) :
    ((audClassifyRecs prev r).countP (fun rec => valListEq (audChangeKey rec) (audKey r)))
      = if (audModeChanged prev r || audBidChanged prev r) then 1 else 0 := by
  cases hmc : audModeChanged prev r <;> cases hbc : audBidChanged prev r <;>
    simp [audClassifyRecs, hmc, hbc, audChangeKey, audKey, valListEq_refl,
      List.countP_cons, List.countP_nil]

theorem audAddedRecs_eq_nil {prior : List Row} {r : Row} {p0 : Row}
    (hp0 : p0 ∈ prior) (hmatch : valListEq (audKey p0) (audKey r) = true) :
    audAddedRecs prior r = [] := by
  unfold audAddedRecs
  rw [if_pos (List.any_eq_true.mpr ⟨p0, hp0, hmatch⟩)]

theorem audRemovedRecs_eq_nil {current : List Row} {r : Row} {c0 : Row}
    (hc0 : c0 ∈ current) (hmatch : valListEq (audKey c0) (audKey r) = true) :
    audRemovedRecs current r = [] := by
  unfold audRemovedRecs
  rw [if_pos (List.any_eq_true.mpr ⟨c0, hc0, hmatch⟩)]

theorem audModifiedRecs_eq {prior : List Row} {p0 r : Row}
    (hpri : prior.Pairwise (fun x y => valListEq (audKey x) (audKey y) = false))
    (hp0 : p0 ∈ prior) (hmatch : valListEq (audKey p0) (audKey r) = true)
    (hne : p0.isEmpty = false) :
    audModifiedRecs prior r = audClassifyRecs p0 r := by
  have huniq := pairwise_key_unique valListEq_comm valListEq_trans hpri hp0 hmatch
  have hlast : lastMatchBy prior (fun p => valListEq (audKey p) (audKey r)) = some p0 :=
    lastMatchBy_eq_of_unique hp0 hmatch huniq
  unfold audModifiedRecs
  simp only [hlast]
  simp [hne]

theorem computeAudienceTargetingChanges_countP_split (prior current : List Row) (k : List Value) :
    (computeAudienceTargetingChanges prior current).countP
        (fun rec => valListEq (audChangeKey rec) k)
      = (current.flatMap (audAddedRecs prior)).countP
          (fun rec => valListEq (audChangeKey rec) k)
        + (prior.flatMap (audRemovedRecs current)).countP
          (fun rec => valListEq (audChangeKey rec) k)
        + (current.flatMap (audModifiedRecs prior)).countP
          (fun rec => valListEq (audChangeKey rec) k) := by
  unfold computeAudienceTargetingChanges
  rw [List.countP_append, List.countP_append]

/-- C6: when both classification fields of a matched pair changed (status and
name for ad groups, targeting mode and bid modifier for audiences), the set
diff emits exactly one UPDATED record for that key — not two single-field
records — and its old/new values are the composed summary strings
"status=...; name=..." resp. "mode=...; bid_modifier=...". -/
theorem multi_field_collapse_single_updated
    (priorAg currentAg priorAud currentAud : List Row)
    (hpa : priorAg.Pairwise (fun x y => valListEq (agKey x) (agKey y) = false))
    (hca : currentAg.Pairwise (fun x y => valListEq (agKey x) (agKey y) = false))
    (hpu : priorAud.Pairwise (fun x y => valListEq (audKey x) (audKey y) = false))
    (hcu : currentAud.Pairwise (fun x y => valListEq (audKey x) (audKey y) = false)) :
    (∀ c0 ∈ currentAg, ∀ p0 ∈ priorAg, dictGet c0 "campaign_id" ≠ Value.none →
      valListEq (agKey p0) (agKey c0) = true →
      agStatusChanged p0 c0 = true → agNameChanged p0 c0 = true →
      ((computeAdGroupChanges priorAg currentAg).countP
          (fun rec => valListEq (agChangeKey rec) (agKey c0)) = 1 ∧
        ∀ rec ∈ computeAdGroupChanges priorAg currentAg,
          valListEq (agChangeKey rec) (agKey c0) = true →
            rec.change_type = "UPDATED" ∧
            rec.old_value = Value.str ("status=" ++ pyStr (dictGet p0 "status") ++
              "; name=" ++ pyStr (pyOr (dictGet p0 "ad_group_name") (Value.str ""))) ∧
            rec.new_value = Value.str ("status=" ++ pyStr (dictGet c0 "status") ++
              "; name=" ++ pyStr (pyOr (dictGet c0 "ad_group_name") (Value.str ""))))) ∧
    (∀ c0 ∈ currentAud, ∀ p0 ∈ priorAud, dictGet c0 "campaign_id" ≠ Value.none →
      valListEq (audKey p0) (audKey c0) = true →
      audModeChanged p0 c0 = true → audBidChanged p0 c0 = true →
      ((computeAudienceTargetingChanges priorAud currentAud).countP
          (fun rec => valListEq (audChangeKey rec) (audKey c0)) = 1 ∧
        ∀ rec ∈ computeAudienceTargetingChanges priorAud currentAud,
          valListEq (audChangeKey rec) (audKey c0) = true →
            rec.change_type = "UPDATED" ∧
            rec.old_value = Value.str ("mode=" ++ pyStr (dictGet p0 "targeting_mode") ++
              "; bid_modifier=" ++ pyStr (dictGet p0 "bid_modifier")) ∧
            rec.new_value = Value.str ("mode=" ++ pyStr (dictGet c0 "targeting_mode") ++
              "; bid_modifier=" ++ pyStr (dictGet c0 "bid_modifier")))) := by
  constructor
  · intro c0 hc0 p0 hp0 hcid hmatch hsc hnc
    have hm' : valListEq [dictGet p0 "campaign_id", dictGet p0 "ad_group_id"]
        [dictGet c0 "campaign_id", dictGet c0 "ad_group_id"] = true := hmatch
    have hne : p0.isEmpty = false :=
      row_isEmpty_false_of_cid hcid (valListEq_head hm')
    constructor
    · rw [computeAdGroupChanges_countP_split]
      have hA : (currentAg.flatMap (agAddedRecs priorAg)).countP
            (fun rec => valListEq (agChangeKey rec) (agKey c0))
          = (agAddedRecs priorAg c0).countP
            (fun rec => valListEq (agChangeKey rec) (agKey c0)) :=
        countP_flatMap_key_eq valListEq_comm valListEq_trans
          (fun a _ => agAddedRecs_key priorAg a) hca hc0 (valListEq_refl _)
      have hR : (priorAg.flatMap (agRemovedRecs currentAg)).countP
            (fun rec => valListEq (agChangeKey rec) (agKey c0))
          = (agRemovedRecs currentAg p0).countP
            (fun rec => valListEq (agChangeKey rec) (agKey c0)) :=
        countP_flatMap_key_eq valListEq_comm valListEq_trans
          (fun a _ => agRemovedRecs_key currentAg a) hpa hp0 hmatch
      have hM : (currentAg.flatMap (agModifiedRecs priorAg)).countP
            (fun rec => valListEq (agChangeKey rec) (agKey c0))
          = (agModifiedRecs priorAg c0).countP
            (fun rec => valListEq (agChangeKey rec) (agKey c0)) :=
        countP_flatMap_key_eq valListEq_comm valListEq_trans
          (fun a _ => agModifiedRecs_key priorAg a) hca hc0 (valListEq_refl _)
      rw [hA, hR, hM, agAddedRecs_eq_nil hp0 hmatch,
        agRemovedRecs_eq_nil hc0 (by rw [valListEq_comm]; exact hmatch),
        agModifiedRecs_eq hpa hp0 hmatch hne, agClassifyRecs_countP p0 c0]
      simp [hsc, hnc]
    · intro rec hrec hkey
      unfold computeAdGroupChanges at hrec
      rcases List.mem_append.mp hrec with hrec' | hM'
      · rcases List.mem_append.mp hrec' with hA' | hR'
        · rcases List.mem_flatMap.mp hA' with ⟨a, ha, hin⟩
          have hkeya : agChangeKey rec = agKey a := agAddedRecs_key priorAg a rec hin
          have hka : valListEq (agKey a) (agKey c0) = true := by
            rw [← hkeya]; exact hkey
          have hac0 : a = c0 :=
            pairwise_key_unique valListEq_comm valListEq_trans hca hc0
              (valListEq_refl _) a ha hka
          subst hac0
          rw [agAddedRecs_eq_nil hp0 hmatch] at hin
          cases hin
        · rcases List.mem_flatMap.mp hR' with ⟨p, hp, hin⟩
          have hkeyp : agChangeKey rec = agKey p := agRemovedRecs_key currentAg p rec hin
          have hpk' : valListEq (agKey p) (agKey c0) = true := by
            rw [← hkeyp]; exact hkey
          have hpp0 : p = p0 :=
            pairwise_key_unique valListEq_comm valListEq_trans hpa hp0 hmatch p hp hpk'
          subst hpp0
          rw [agRemovedRecs_eq_nil hc0 (by rw [valListEq_comm]; exact hmatch)] at hin
          cases hin
      · rcases List.mem_flatMap.mp hM' with ⟨a, ha, hin⟩
        have hkeya : agChangeKey rec = agKey a := agModifiedRecs_key priorAg a rec hin
        have hka : valListEq (agKey a) (agKey c0) = true := by
          rw [← hkeya]; exact hkey
        have hac0 : a = c0 :=
          pairwise_key_unique valListEq_comm valListEq_trans hca hc0
            (valListEq_refl _) a ha hka
        subst hac0
        rw [agModifiedRecs_eq hpa hp0 hmatch hne] at hin
        obtain ⟨_, ht, ho, hn⟩ := agClassifyRecs_spec hin
        rw [hsc, hnc] at ht ho hn
        simp at ht ho hn
        exact ⟨ht, ho, hn⟩
  · intro c0 hc0 p0 hp0 hcid hmatch hmc hbc
    have hm' : valListEq
        [dictGet p0 "campaign_id", pyOr (dictGet p0 "ad_group_id") (Value.str ""),
         Value.str (pyStr (dictGetD p0 "criterion_id" (Value.str "")))]
        [dictGet c0 "campaign_id", pyOr (dictGet c0 "ad_group_id") (Value.str ""),
         Value.str (pyStr (dictGetD c0 "criterion_id" (Value.str "")))] = true := hmatch
    have hne : p0.isEmpty = false :=
      row_isEmpty_false_of_cid hcid (valListEq_head hm')
    constructor
    · rw [computeAudienceTargetingChanges_countP_split]
      have hA : (currentAud.flatMap (audAddedRecs priorAud)).countP
            (fun rec => valListEq (audChangeKey rec) (audKey c0))
          = (audAddedRecs priorAud c0).countP
            (fun rec => valListEq (audChangeKey rec) (audKey c0)) :=
        countP_flatMap_key_eq valListEq_comm valListEq_trans
          (fun a _ => audAddedRecs_key priorAud a) hcu hc0 (valListEq_refl _)
      have hR : (priorAud.flatMap (audRemovedRecs currentAud)).countP
            (fun rec => valListEq (audChangeKey rec) (audKey c0))
          = (audRemovedRecs currentAud p0).countP
            (fun rec => valListEq (audChangeKey rec) (audKey c0)) :=
        countP_flatMap_key_eq valListEq_comm valListEq_trans
          (fun a _ => audRemovedRecs_key currentAud a) hpu hp0 hmatch
      have hM : (currentAud.flatMap (audModifiedRecs priorAud)).countP
            (fun rec => valListEq (audChangeKey rec) (audKey c0))
          = (audModifiedRecs priorAud c0).countP
            (fun rec => valListEq (audChangeKey rec) (audKey c0)) :=
        countP_flatMap_key_eq valListEq_comm valListEq_trans
          (fun a _ => audModifiedRecs_key priorAud a) hcu hc0 (valListEq_refl _)
      rw [hA, hR, hM, audAddedRecs_eq_nil hp0 hmatch,
        audRemovedRecs_eq_nil hc0 (by rw [valListEq_comm]; exact hmatch),
        audModifiedRecs_eq hpu hp0 hmatch hne, audClassifyRecs_countP p0 c0]
      simp [hmc, hbc]
    · intro rec hrec hkey
      unfold computeAudienceTargetingChanges at hrec
      rcases List.mem_append.mp hrec with hrec' | hM'
      · rcases List.mem_append.mp hrec' with hA' | hR'
        · rcases List.mem_flatMap.mp hA' with ⟨a, ha, hin⟩
          have hkeya : audChangeKey rec = audKey a := audAddedRecs_key priorAud a rec hin
          have hka : valListEq (audKey a) (audKey c0) = true := by
            rw [← hkeya]; exact hkey
          have hac0 : a = c0 :=
            pairwise_key_unique valListEq_comm valListEq_trans hcu hc0
              (valListEq_refl _) a ha hka
          subst hac0
          rw [audAddedRecs_eq_nil hp0 hmatch] at hin
          cases hin
        · rcases List.mem_flatMap.mp hR' with ⟨p, hp, hin⟩
          have hkeyp : audChangeKey rec = audKey p := audRemovedRecs_key currentAud p rec hin
          have hpk' : valListEq (audKey p) (audKey c0) = true := by
            rw [← hkeyp]; exact hkey
          have hpp0 : p = p0 :=
            pairwise_key_unique valListEq_comm valListEq_trans hpu hp0 hmatch p hp hpk'
          subst hpp0
          rw [audRemovedRecs_eq_nil hc0 (by rw [valListEq_comm]; exact hmatch)] at hin
          cases hin
      · rcases List.mem_flatMap.mp hM' with ⟨a, ha, hin⟩
        have hkeya : audChangeKey rec = audKey a := audModifiedRecs_key priorAud a rec hin
        have hka : valListEq (audKey a) (audKey c0) = true := by
          rw [← hkeya]; exact hkey
        have hac0 : a = c0 :=
          pairwise_key_unique valListEq_comm valListEq_trans hcu hc0
            (valListEq_refl _) a ha hka
        subst hac0
        rw [audModifiedRecs_eq hpu hp0 hmatch hne] at hin
        obtain ⟨_, ht, ho, hn⟩ := audClassifyRecs_spec hin
        rw [hmc, hbc] at ht ho hn
        simp at ht ho hn
        exact ⟨ht, ho, hn⟩

/-- C6 witness: an ad group whose status (ENABLED→PAUSED) and name
(Spring→Summer) both changed; the ad-group clause gives count 1. -/
theorem multi_field_collapse_single_updated_witness :
    (computeAdGroupChanges
        [[("campaign_id", Value.int 1), ("ad_group_id", Value.int 2),
          ("status", Value.str "ENABLED"), ("ad_group_name", Value.str "Spring")]]
        [[("campaign_id", Value.int 1), ("ad_group_id", Value.int 2),
          ("status", Value.str "PAUSED"), ("ad_group_name", Value.str "Summer")]]).countP
      (fun rec => valListEq (agChangeKey rec)
        (agKey [("campaign_id", Value.int 1), ("ad_group_id", Value.int 2),
          ("status", Value.str "PAUSED"), ("ad_group_name", Value.str "Summer")]))
      = 1 :=
  ((multi_field_collapse_single_updated
      [[("campaign_id", Value.int 1), ("ad_group_id", Value.int 2),
        ("status", Value.str "ENABLED"), ("ad_group_name", Value.str "Spring")]]
      [[("campaign_id", Value.int 1), ("ad_group_id", Value.int 2),
        ("status", Value.str "PAUSED"), ("ad_group_name", Value.str "Summer")]]
      [] [] (by decide) (by decide) (by decide) (by decide)).1
    [("campaign_id", Value.int 1), ("ad_group_id", Value.int 2),
     ("status", Value.str "PAUSED"), ("ad_group_name", Value.str "Summer")]
    (by decide)
    [("campaign_id", Value.int 1), ("ad_group_id", Value.int 2),
     ("status", Value.str "ENABLED"), ("ad_group_name", Value.str "Spring")]
    (by decide) (by decide) (by decide) (by decide) (by decide)).1

theorem outcomeMetricTail_fields {row tail : Row} (h : outcomeMetricTail row = some tail) :
    dictGet tail "ctr" = dictGet row "ctr" ∧ dictGet tail "cpc" = dictGet row "cpc" ∧
    dictGet tail "cpa" = dictGet row "cpa" ∧ dictGet tail "roas" = dictGet row "roas" ∧
    dictGet tail "cvr" = dictGet row "cvr" ∧
    (∃ n : Int, pyInt? (pyOr (dictGet row "impressions") (Value.int 0)) = some n ∧
      dictGet tail "impressions" = Value.int n) ∧
    (∃ n : Int, pyInt? (pyOr (dictGet row "clicks") (Value.int 0)) = some n ∧
      dictGet tail "clicks" = Value.int n) ∧
    (∃ q : ℚ, pyFloat? (pyOr (dictGet row "conversions") (Value.int 0)) = some q ∧
      dictGet tail "conversions" = Value.float q) := by
  unfold outcomeMetricTail at h
  simp only [bind, Option.bind_eq_some, Option.map_eq_some', Option.pure_def,
    Option.some.injEq] at h
  obtain ⟨ca, hca, imp, ⟨n1, hn1, himp⟩, clk, ⟨n2, hn2, hclk⟩, cm, hcm,
    caf, ⟨q1, hq1, hcaf⟩, conv, ⟨q2, hq2, hconv⟩, convv, ⟨q3, hq3, hconvv⟩, htail⟩ := h
  subst htail himp hclk hconv
  refine ⟨by simp [dictGet, List.lookup], by simp [dictGet, List.lookup],
    by simp [dictGet, List.lookup], by simp [dictGet, List.lookup],
    by simp [dictGet, List.lookup], ⟨n1, hn1, by simp [dictGet, List.lookup]⟩,
    ⟨n2, hn2, by simp [dictGet, List.lookup]⟩, ⟨q2, hq2, by simp [dictGet, List.lookup]⟩⟩

theorem outcomeRowForDiff_fields {row nr : Row} (h : outcomeRowForDiff row = some nr) :
    dictGet nr "ctr" = dictGet row "ctr" ∧ dictGet nr "cpc" = dictGet row "cpc" ∧
    dictGet nr "cpa" = dictGet row "cpa" ∧ dictGet nr "roas" = dictGet row "roas" ∧
    dictGet nr "cvr" = dictGet row "cvr" ∧
    (∃ n : Int, pyInt? (pyOr (dictGet row "impressions") (Value.int 0)) = some n ∧
      dictGet nr "impressions" = Value.int n) ∧
    (∃ n : Int, pyInt? (pyOr (dictGet row "clicks") (Value.int 0)) = some n ∧
      dictGet nr "clicks" = Value.int n) ∧
    (∃ q : ℚ, pyFloat? (pyOr (dictGet row "conversions") (Value.int 0)) = some q ∧
      dictGet nr "conversions" = Value.float q) := by
  unfold outcomeRowForDiff at h
  simp only [bind, Option.bind_eq_some, Option.pure_def, Option.some.injEq] at h
  obtain ⟨tail, htail, hnr⟩ := h
  subst hnr
  obtain ⟨h1, h2, h3, h4, h5, ⟨i1, hi1, hi2⟩, ⟨c1, hc1, hc2⟩, ⟨v1, hv1, hv2⟩⟩ :=
    outcomeMetricTail_fields htail
  exact ⟨by simpa [dictGet, List.lookup] using h1, by simpa [dictGet, List.lookup] using h2,
    by simpa [dictGet, List.lookup] using h3, by simpa [dictGet, List.lookup] using h4,
    by simpa [dictGet, List.lookup] using h5,
    ⟨i1, hi1, by simpa [dictGet, List.lookup] using hi2⟩,
    ⟨c1, hc1, by simpa [dictGet, List.lookup] using hc2⟩,
    ⟨v1, hv1, by simpa [dictGet, List.lookup] using hv2⟩⟩

/-- C7 (amended): only the six count/cost metrics (impressions, clicks,
cost_micros, cost_amount, conversions, conversions_value) are coerced to a
common numeric type before the outcome diff compares them; the ratio metrics
(ctr, cpc, cpa, roas, cvr and the share fields) are passed through raw, so
they are compared with Python `==` — numeric across int/float but sensitive
to string formatting.  Concretely: impressions "50" vs 50.0 is coerced and
emits nothing, and ctr int 50 vs float 50.0 compares equal raw; the "50" vs
"50.0" ctr pair of the counterexample is the case the spec sentence fails
on. -/
theorem outcome_diff_coercion_amended :
    (∀ row nr, outcomeRowForDiff row = some nr →
      dictGet nr "ctr" = dictGet row "ctr" ∧ dictGet nr "cpc" = dictGet row "cpc" ∧
      dictGet nr "cpa" = dictGet row "cpa" ∧ dictGet nr "roas" = dictGet row "roas" ∧
      dictGet nr "cvr" = dictGet row "cvr") ∧
    (∀ row nr, outcomeRowForDiff row = some nr →
      (∃ n : Int, pyInt? (pyOr (dictGet row "impressions") (Value.int 0)) = some n ∧
        dictGet nr "impressions" = Value.int n) ∧
      (∃ n : Int, pyInt? (pyOr (dictGet row "clicks") (Value.int 0)) = some n ∧
        dictGet nr "clicks" = Value.int n) ∧
      (∃ q : ℚ, pyFloat? (pyOr (dictGet row "conversions") (Value.int 0)) = some q ∧
        dictGet nr "conversions" = Value.float q)) ∧
    computeOutcomeDiffs
      [[("campaign_id", Value.int 1), ("impressions", Value.str "50")]]
      [[("campaign_id", Value.int 1), ("impressions", Value.float 50)]] = some [] ∧
    computeOutcomeDiffs
      [[("campaign_id", Value.int 1), ("ctr", Value.int 50)]]
      [[("campaign_id", Value.int 1), ("ctr", Value.float 50)]] = some [] := by
  refine ⟨fun row nr h => ?_, fun row nr h => ?_, by decide, by decide⟩
  · obtain ⟨h1, h2, h3, h4, h5, _, _, _⟩ := outcomeRowForDiff_fields h
    exact ⟨h1, h2, h3, h4, h5⟩
  · obtain ⟨_, _, _, _, _, hi, hc, hv⟩ := outcomeRowForDiff_fields h
    exact ⟨hi, hc, hv⟩

theorem lastWithKey_self {keyOf : Row → List Value} {rows : List Row} {r : Row}
    (hnd : (rows.map keyOf).Nodup) (hr : r ∈ rows) :
    lastWithKey keyOf rows (keyOf r) = some r := by
  apply find?_eq_of_mem_of_unique (List.mem_reverse.mpr hr)
  · simp
  · intro y hy hpy
    have hyy : keyOf y = keyOf r := of_decide_eq_true hpy
    exact List.inj_on_of_nodup_map hnd (List.mem_reverse.mp hy) hr hyy

theorem mergeSubst_fixed_of_mem {keyOf : Row → List Value} {rows : List Row}
    (hnd : (rows.map keyOf).Nodup) {r : Row} (hr : r ∈ rows) :
    mergeSubst keyOf rows r = r := by
  unfold mergeSubst
  rw [lastWithKey_self hnd hr]

theorem mergeSubst_idem {keyOf : Row → List Value} {rows : List Row}
    (hnd : (rows.map keyOf).Nodup) (t : Row) :
    mergeSubst keyOf rows (mergeSubst keyOf rows t) = mergeSubst keyOf rows t := by
  cases hl : lastWithKey keyOf rows (keyOf t) with
  | none =>
    have ht : mergeSubst keyOf rows t = t := by
      unfold mergeSubst
      rw [hl]
    rw [ht]
    exact ht
  | some r =>
    have hrmem : r ∈ rows := List.mem_reverse.mp (List.mem_of_find?_eq_some hl)
    have ht : mergeSubst keyOf rows t = r := by
      unfold mergeSubst
      rw [hl]
    rw [ht]
    exact mergeSubst_fixed_of_mem hnd hrmem

theorem mergeBatch_key_covered {keyOf : Row → List Value} {store rows : List Row}
    {r : Row} (hr : r ∈ rows) :
    (store.map (mergeSubst keyOf rows)
        ++ rows.filter (fun x => ! store.any (fun t => decide (keyOf t = keyOf x)))).any
      (fun t => decide (keyOf t = keyOf r)) = true := by
  by_cases hst : store.any (fun t => decide (keyOf t = keyOf r)) = true
  · obtain ⟨t, ht, hkt⟩ := List.any_eq_true.mp hst
    have hkey : keyOf t = keyOf r := of_decide_eq_true hkt
    cases hl : lastWithKey keyOf rows (keyOf t) with
    | none =>
      exfalso
      have hnone := List.find?_eq_none.mp hl r (List.mem_reverse.mpr hr)
      exact hnone (by simp [hkey])
    | some r'' =>
      have hl' : rows.reverse.find? (fun x => decide (keyOf x = keyOf t)) = some r'' := hl
      have hp'' := List.find?_some hl'
      have hk'' : keyOf r'' = keyOf t := by simpa using hp''
      have hsub : mergeSubst keyOf rows t = r'' := by
        unfold mergeSubst
        rw [hl]
      apply List.any_eq_true.mpr
      refine ⟨r'', List.mem_append_left _ (hsub ▸ List.mem_map_of_mem _ ht), ?_⟩
      simp [hk''.trans hkey]
  · have hrB : r ∈ rows.filter (fun x => ! store.any (fun t => decide (keyOf t = keyOf x))) :=
      List.mem_filter.mpr ⟨hr, by simp [Bool.eq_false_iff.mpr hst]⟩
    apply List.any_eq_true.mpr
    exact ⟨r, List.mem_append_right _ hrB, by simp⟩

theorem mergeBatch_idem {keyOf : Row → List Value} {store rows s' : List Row}
    (h : mergeBatch keyOf store rows = some s') :
    mergeBatch keyOf s' rows = some s' := by
  unfold mergeBatch at h ⊢
  split at h
  · next hnd =>
    rw [if_pos hnd]
    injection h with h'
    subst h'
    congr 1
    have hmapA : (store.map (mergeSubst keyOf rows)).map (mergeSubst keyOf rows)
        = store.map (mergeSubst keyOf rows) := by
      rw [List.map_map]
      exact List.map_congr_left (fun t _ => mergeSubst_idem hnd t)
    have hmapB : (rows.filter (fun x => ! store.any (fun t => decide (keyOf t = keyOf x)))).map
        (mergeSubst keyOf rows)
        = rows.filter (fun x => ! store.any (fun t => decide (keyOf t = keyOf x))) := by
      have hfix : ∀ t ∈ rows.filter (fun x => ! store.any (fun t => decide (keyOf t = keyOf x))),
          mergeSubst keyOf rows t = id t :=
        fun t ht => mergeSubst_fixed_of_mem hnd (List.mem_of_mem_filter ht)
      rw [List.map_congr_left hfix, List.map_id]
    have hfilter : rows.filter (fun x =>
        ! (store.map (mergeSubst keyOf rows)
            ++ rows.filter (fun y => ! store.any (fun t => decide (keyOf t = keyOf y)))).any
          (fun t => decide (keyOf t = keyOf x))) = [] := by
      rw [List.filter_eq_nil_iff]
      intro r hr
      simp [mergeBatch_key_covered hr]
    rw [List.map_append, hmapA, hmapB, hfilter, List.append_nil]
  · cases h

theorem replaceForDate_idem {dateCol : String} {d : Int} {cust : String}
    {store recs : List Row} (hrecs : ∀ r ∈ recs, dayKey dateCol d cust r = true) :
    replaceForDate dateCol d cust (replaceForDate dateCol d cust store recs) recs
      = replaceForDate dateCol d cust store recs := by
  unfold replaceForDate
  rw [List.filter_append]
  have h2 : recs.filter (fun t => ! (decide (dictGet t dateCol = Value.str (dateStr d))
      && decide (dictGet t "customer_id" = Value.str cust))) = [] := by
    rw [List.filter_eq_nil_iff]
    intro r hr
    have hk := hrecs r hr
    unfold dayKey at hk
    simp [hk]
  have h1 : ((store.filter (fun t => ! (decide (dictGet t dateCol = Value.str (dateStr d))
      && decide (dictGet t "customer_id" = Value.str cust)))).filter
      (fun t => ! (decide (dictGet t dateCol = Value.str (dateStr d))
      && decide (dictGet t "customer_id" = Value.str cust))))
      = store.filter (fun t => ! (decide (dictGet t dateCol = Value.str (dateStr d))
      && decide (dictGet t "customer_id" = Value.str cust))) := by
    rw [List.filter_filter]
    apply List.filter_congr
    intro a _
    cases hP : (! (decide (dictGet a dateCol = Value.str (dateStr d))
        && decide (dictGet a "customer_id" = Value.str cust))) <;> simp [hP]
  rw [h1, h2, List.append_nil]

theorem controlDiffStoredRow_day (d : Int) (cust : String) (r : ControlDiff) :
    dayKey "snapshot_date" d cust (controlDiffStoredRow d cust r) = true := by
  simp [dayKey, controlDiffStoredRow, dictGet, List.lookup]

theorem adGroupChangeStoredRow_day (d : Int) (cust : String) (r : AdGroupChange) :
    dayKey "snapshot_date" d cust (adGroupChangeStoredRow d cust r) = true := by
  simp [dayKey, adGroupChangeStoredRow, dictGet, List.lookup]

theorem keywordChangeStoredRow_day (d : Int) (cust : String) (r : KeywordChange) :
    dayKey "snapshot_date" d cust (keywordChangeStoredRow d cust r) = true := by
  simp [dayKey, keywordChangeStoredRow, dictGet, List.lookup]

theorem negKwDiffStoredRow_day (d : Int) (cust : String) (r : NegKeywordChange) :
    dayKey "snapshot_date" d cust (negKwDiffStoredRow d cust r) = true := by
  simp [dayKey, negKwDiffStoredRow, dictGet, List.lookup]

theorem adCreativeDiffStoredRow_day (d : Int) (cust : String) (r : AdCreativeDiff) :
    dayKey "snapshot_date" d cust (adCreativeDiffStoredRow d cust r) = true := by
  simp [dayKey, adCreativeDiffStoredRow, dictGet, List.lookup]

theorem audienceDiffStoredRow_day (d : Int) (cust : String) (r : AudienceChange) :
    dayKey "snapshot_date" d cust (audienceDiffStoredRow d cust r) = true := by
  simp [dayKey, audienceDiffStoredRow, dictGet, List.lookup]

theorem outcomesDiffStoredRow_day (d : Int) (cust : String) (r : OutcomeDiff) :
    dayKey "outcome_date" d cust (outcomesDiffStoredRow d cust r) = true := by
  simp [dayKey, outcomesDiffStoredRow, dictGet, List.lookup]

theorem adGroupOutcomesDiffStoredRow_day (d : Int) (cust : String) (r : AdGroupOutcomeDiff) :
    dayKey "outcome_date" d cust (adGroupOutcomesDiffStoredRow d cust r) = true := by
  simp [dayKey, adGroupOutcomesDiffStoredRow, dictGet, List.lookup]

theorem keywordOutcomesDiffStoredRow_day (d : Int) (cust : String) (r : KeywordOutcomeDiff) :
    dayKey "outcome_date" d cust (keywordOutcomesDiffStoredRow d cust r) = true := by
  simp [dayKey, keywordOutcomesDiffStoredRow, dictGet, List.lookup]

theorem insert_shape_idem {dateCol : String} {d : Int} {cust : String} {R : Type}
    {storedRow : R → Row} (hday : ∀ x : R, dayKey dateCol d cust (storedRow x) = true)
    (rows : List R) (store : List Row) :
    (if rows.isEmpty then
        (if rows.isEmpty then store
         else replaceForDate dateCol d cust store (rows.map storedRow))
      else replaceForDate dateCol d cust
        (if rows.isEmpty then store
         else replaceForDate dateCol d cust store (rows.map storedRow))
        (rows.map storedRow))
      = (if rows.isEmpty then store
         else replaceForDate dateCol d cust store (rows.map storedRow)) := by
  by_cases hemp : rows.isEmpty = true
  · rw [if_pos hemp]
  · have hf : rows.isEmpty = false := by simpa using hemp
    simp only [hf, Bool.false_eq_true, if_false]
    exact replaceForDate_idem (fun r hr => by
      obtain ⟨x, hx, hxeq⟩ := List.mem_map.mp hr
      exact hxeq ▸ hday x)

theorem insertControlDiffDaily_idem (d : Int) (cust : String) (rows : List ControlDiff)
    (store : List Row) :
    insertControlDiffDaily d cust rows (insertControlDiffDaily d cust rows store)
      = insertControlDiffDaily d cust rows store :=
  insert_shape_idem (controlDiffStoredRow_day d cust) rows store

theorem insertAdGroupChangeDaily_idem (d : Int) (cust : String) (rows : List AdGroupChange)
    (store : List Row) :
    insertAdGroupChangeDaily d cust rows (insertAdGroupChangeDaily d cust rows store)
      = insertAdGroupChangeDaily d cust rows store :=
  insert_shape_idem (adGroupChangeStoredRow_day d cust) rows store

theorem insertKeywordChangeDaily_idem (d : Int) (cust : String) (rows : List KeywordChange)
    (store : List Row) :
    insertKeywordChangeDaily d cust rows (insertKeywordChangeDaily d cust rows store)
      = insertKeywordChangeDaily d cust rows store :=
  insert_shape_idem (keywordChangeStoredRow_day d cust) rows store

theorem insertNegKeywordDiffDaily_idem (d : Int) (cust : String) (rows : List NegKeywordChange)
    (store : List Row) :
    insertNegKeywordDiffDaily d cust rows (insertNegKeywordDiffDaily d cust rows store)
      = insertNegKeywordDiffDaily d cust rows store :=
  insert_shape_idem (negKwDiffStoredRow_day d cust) rows store

theorem insertAdCreativeDiffDaily_idem (d : Int) (cust : String) (rows : List AdCreativeDiff)
    (store : List Row) :
    insertAdCreativeDiffDaily d cust rows (insertAdCreativeDiffDaily d cust rows store)
      = insertAdCreativeDiffDaily d cust rows store :=
  insert_shape_idem (adCreativeDiffStoredRow_day d cust) rows store

theorem insertAudienceDiffDaily_idem (d : Int) (cust : String) (rows : List AudienceChange)
    (store : List Row) :
    insertAudienceDiffDaily d cust rows (insertAudienceDiffDaily d cust rows store)
      = insertAudienceDiffDaily d cust rows store :=
  insert_shape_idem (audienceDiffStoredRow_day d cust) rows store

theorem insertOutcomesDiffDaily_idem (d : Int) (cust : String) (rows : List OutcomeDiff)
    (store : List Row) :
    insertOutcomesDiffDaily d cust rows (insertOutcomesDiffDaily d cust rows store)
      = insertOutcomesDiffDaily d cust rows store :=
  insert_shape_idem (outcomesDiffStoredRow_day d cust) rows store

theorem insertAdGroupOutcomesDiffDaily_idem (d : Int) (cust : String)
    (rows : List AdGroupOutcomeDiff) (store : List Row) :
    insertAdGroupOutcomesDiffDaily d cust rows (insertAdGroupOutcomesDiffDaily d cust rows store)
      = insertAdGroupOutcomesDiffDaily d cust rows store :=
  insert_shape_idem (adGroupOutcomesDiffStoredRow_day d cust) rows store

theorem insertKeywordOutcomesDiffDaily_idem (d : Int) (cust : String)
    (rows : List KeywordOutcomeDiff) (store : List Row) :
    insertKeywordOutcomesDiffDaily d cust rows (insertKeywordOutcomesDiffDaily d cust rows store)
      = insertKeywordOutcomesDiffDaily d cust rows store :=
  insert_shape_idem (keywordOutcomesDiffStoredRow_day d cust) rows store

theorem upsert_merge_shape_idem {keyOf : Row → List Value} {b : Bool}
    {mapped store s' : List Row}
    (h : (if b then some store else mergeBatch keyOf store mapped) = some s') :
    (if b then some s' else mergeBatch keyOf s' mapped) = some s' := by
  cases b with
  | true =>
    rw [if_pos rfl] at h
    injection h with h
    subst h
    rw [if_pos rfl]
  | false =>
    rw [if_neg (by simp)] at h ⊢
    exact mergeBatch_idem h

theorem upsert_mapM_merge_shape_idem {keyOf : Row → List Value} {b : Bool}
    {rowsM : Option (List Row)} {store s' : List Row}
    (h : (if b then some store else rowsM.bind (mergeBatch keyOf store)) = some s') :
    (if b then some s' else rowsM.bind (mergeBatch keyOf s')) = some s' := by
  cases b with
  | true =>
    rw [if_pos rfl] at h
    injection h with h
    subst h
    rw [if_pos rfl]
  | false =>
    rw [if_neg (by simp)] at h ⊢
    obtain ⟨stored, hst, hmb⟩ := Option.bind_eq_some.mp h
    rw [hst]
    exact mergeBatch_idem hmb

theorem step_shape_idem {b : Bool} {upsert : List Row → Option (List Row)}
    {c : List Row → Bool} {ins : List Row → List Row → List Row}
    (hup : ∀ {st st' : List Row}, upsert st = some st' → upsert st' = some st')
    (hins : ∀ snap st, ins snap (ins snap st) = ins snap st)
    {p p' : List Row × List Row}
    (h : (if b then some p
          else (upsert p.1).bind (fun snap =>
            some (snap, if c snap then p.2 else ins snap p.2))) = some p') :
    (if b then some p'
     else (upsert p'.1).bind (fun snap =>
       some (snap, if c snap then p'.2 else ins snap p'.2))) = some p' := by
  cases b with
  | true =>
    rw [if_pos rfl] at h
    injection h with h
    subst h
    rw [if_pos rfl]
  | false =>
    rw [if_neg (by simp)] at h ⊢
    obtain ⟨snap, hsnap, hp'⟩ := Option.bind_eq_some.mp h
    injection hp' with hp'
    subst hp'
    dsimp only
    rw [hup hsnap]
    cases hc : c snap with
    | true => simp [hc]
    | false => simp [hc, hins]

theorem outcome_step_shape_idem {b : Bool} {upsert : List Row → Option (List Row)}
    {c : List Row → Bool} {R : Type} {diffsM : List Row → Option (List R)}
    {ins : List R → List Row → List Row}
    (hup : ∀ {st st' : List Row}, upsert st = some st' → upsert st' = some st')
    (hins : ∀ ds st, ins ds (ins ds st) = ins ds st)
    {p p' : List Row × List Row}
    (h : (if b then some p
          else (upsert p.1).bind (fun snap =>
            if c snap then some (snap, p.2)
            else (diffsM snap).bind (fun ds => some (snap, ins ds p.2)))) = some p') :
    (if b then some p'
     else (upsert p'.1).bind (fun snap =>
       if c snap then some (snap, p'.2)
       else (diffsM snap).bind (fun ds => some (snap, ins ds p'.2)))) = some p' := by
  cases b with
  | true =>
    rw [if_pos rfl] at h
    injection h with h
    subst h
    rw [if_pos rfl]
  | false =>
    rw [if_neg (by simp)] at h ⊢
    obtain ⟨snap, hsnap, hrest⟩ := Option.bind_eq_some.mp h
    cases hc : c snap with
    | true =>
      rw [if_pos hc] at hrest
      injection hrest with hrest
      subst hrest
      dsimp only
      rw [hup hsnap]
      simp [hc]
    | false =>
      rw [if_neg (by simp [hc])] at hrest
      obtain ⟨ds, hds, hp'⟩ := Option.bind_eq_some.mp hrest
      injection hp' with hp'
      subst hp'
      dsimp only
      rw [hup hsnap]
      simp [hc, hds, hins]

theorem outcome_mapM_step_shape_idem {b : Bool} {upsert : List Row → Option (List Row)}
    {c : List Row → Bool} {A : Option (List Row)} {BM : List Row → Option (List Row)}
    {ins : List Row → List Row → List Row → List Row}
    (hup : ∀ {st st' : List Row}, upsert st = some st' → upsert st' = some st')
    (hins : ∀ nc np st, ins nc np (ins nc np st) = ins nc np st)
    {p p' : List Row × List Row}
    (h : (if b then some p
          else (upsert p.1).bind (fun snap =>
            if c snap then some (snap, p.2)
            else A.bind (fun nc => (BM snap).bind (fun np =>
              some (snap, ins nc np p.2))))) = some p') :
    (if b then some p'
     else (upsert p'.1).bind (fun snap =>
       if c snap then some (snap, p'.2)
       else A.bind (fun nc => (BM snap).bind (fun np =>
         some (snap, ins nc np p'.2))))) = some p' := by
  cases b with
  | true =>
    rw [if_pos rfl] at h
    injection h with h
    subst h
    rw [if_pos rfl]
  | false =>
    rw [if_neg (by simp)] at h ⊢
    obtain ⟨snap, hsnap, hrest⟩ := Option.bind_eq_some.mp h
    cases hc : c snap with
    | true =>
      rw [if_pos hc] at hrest
      injection hrest with hrest
      subst hrest
      dsimp only
      rw [hup hsnap]
      simp [hc]
    | false =>
      rw [if_neg (by simp [hc])] at hrest
      obtain ⟨nc, hnc, hrest2⟩ := Option.bind_eq_some.mp hrest
      obtain ⟨np, hnp, hp'⟩ := Option.bind_eq_some.mp hrest2
      injection hp' with hp'
      subst hp'
      dsimp only
      rw [hup hsnap]
      simp [hc, hnc, hnp, hins]

theorem controlStep_idem {d : Int} {cust : String} {rows : List Row}
    {p p' : List Row × List Row} (h : controlStep d cust rows p = some p') :
    controlStep d cust rows p' = some p' :=
  step_shape_idem (fun hh => upsert_merge_shape_idem hh)
    (fun snap st => insertControlDiffDaily_idem d cust
      (computeControlStateDiffs (rows.map controlStateRowForStorage)
        (getControlStateForDate cust (d - 1) snap)) st) h

theorem adGroupStep_idem {d : Int} {cust : String} {rows : List Row}
    {p p' : List Row × List Row} (h : adGroupStep d cust rows p = some p') :
    adGroupStep d cust rows p' = some p' :=
  step_shape_idem (fun hh => upsert_merge_shape_idem hh)
    (fun snap st => insertAdGroupChangeDaily_idem d cust
      (computeAdGroupChanges (getAdGroupSnapshotForDate cust (d - 1) snap)
        (rows.map adGroupSnapshotRow)) st) h

theorem keywordStep_idem {d : Int} {cust : String} {rows : List Row}
    {p p' : List Row × List Row} (h : keywordStep d cust rows p = some p') :
    keywordStep d cust rows p' = some p' :=
  step_shape_idem (fun hh => upsert_merge_shape_idem hh)
    (fun snap st => insertKeywordChangeDaily_idem d cust
      (computeKeywordChanges (getKeywordSnapshotForDate cust (d - 1) snap) rows) st) h

theorem negKeywordStep_idem {d : Int} {cust : String} {rows : List Row}
    {p p' : List Row × List Row} (h : negKeywordStep d cust rows p = some p') :
    negKeywordStep d cust rows p' = some p' :=
  step_shape_idem (fun hh => upsert_merge_shape_idem hh)
    (fun snap st => insertNegKeywordDiffDaily_idem d cust
      (computeNegativeKeywordDiffs (getNegKeywordSnapshotForDate cust (d - 1) snap) rows) st) h

theorem adCreativeStep_idem {d : Int} {cust : String} {rows : List Row}
    {p p' : List Row × List Row} (h : adCreativeStep d cust rows p = some p') :
    adCreativeStep d cust rows p' = some p' :=
  step_shape_idem (fun hh => upsert_merge_shape_idem hh)
    (fun snap st => insertAdCreativeDiffDaily_idem d cust
      (computeAdCreativeDiffs (getAdCreativeSnapshotForDate cust (d - 1) snap)
        (rows.map creativeRowOf)) st) h

theorem audienceStep_idem {d : Int} {cust : String} {rows : List Row}
    {p p' : List Row × List Row} (h : audienceStep d cust rows p = some p') :
    audienceStep d cust rows p' = some p' :=
  step_shape_idem (fun hh => upsert_merge_shape_idem hh)
    (fun snap st => insertAudienceDiffDaily_idem d cust
      (computeAudienceTargetingChanges (getAudienceSnapshotForDate cust (d - 1) snap)
        (rows.map audienceSnapshotRowOf)) st) h

theorem outcomesStep_idem {d : Int} {cust : String} {rows : List Row}
    {p p' : List Row × List Row} (h : outcomesStep d cust rows p = some p') :
    outcomesStep d cust rows p' = some p' :=
  outcome_step_shape_idem (fun hh => upsert_mapM_merge_shape_idem hh)
    (fun ds st => insertOutcomesDiffDaily_idem d cust ds st) h

theorem adGroupOutcomesStep_idem {d : Int} {cust : String} {rows : List Row}
    {p p' : List Row × List Row} (h : adGroupOutcomesStep d cust rows p = some p') :
    adGroupOutcomesStep d cust rows p' = some p' :=
  outcome_mapM_step_shape_idem (fun hh => upsert_mapM_merge_shape_idem hh)
    (fun nc np st => insertAdGroupOutcomesDiffDaily_idem d cust
      (computeAdGroupOutcomeDiffs nc np) st) h

theorem keywordOutcomesStep_idem {d : Int} {cust : String} {rows : List Row}
    {p p' : List Row × List Row} (h : keywordOutcomesStep d cust rows p = some p') :
    keywordOutcomesStep d cust rows p' = some p' :=
  outcome_mapM_step_shape_idem (fun hh => upsert_mapM_merge_shape_idem hh)
    (fun nc np st => insertKeywordOutcomesDiffDaily_idem d cust
      (computeKeywordOutcomeDiffs nc np) st) h

/-- C4: running the orchestrator twice for the same (account, day) with the
same provider responses is idempotent — when the first run succeeds with
store state s1, the second run succeeds and leaves s1 unchanged, for every
Snapshot, Diff and Change store. -/
theorem run_sync_idempotent {d : Int} {cust : String} {f : Fetches} {s s1 : Stores}
    (h : runSyncProject d cust f s = some s1) :
    runSyncProject d cust f s1 = some s1 := by
  unfold runSyncProject at h ⊢
  simp only [bind, Option.bind_eq_some] at h
  obtain ⟨⟨cs, cd⟩, h1, h⟩ := h
  simp only [bind, Option.bind_eq_some] at h
  obtain ⟨⟨ags, agc⟩, h2, h⟩ := h
  simp only [bind, Option.bind_eq_some] at h
  obtain ⟨⟨kws, kwc⟩, h3, h⟩ := h
  simp only [bind, Option.bind_eq_some] at h
  obtain ⟨⟨nks, nkd⟩, h4, h⟩ := h
  simp only [bind, Option.bind_eq_some] at h
  obtain ⟨⟨acs, acd⟩, h5, h⟩ := h
  simp only [bind, Option.bind_eq_some] at h
  obtain ⟨⟨aus, aud⟩, h6, h⟩ := h
  simp only [bind, Option.bind_eq_some] at h
  obtain ⟨⟨ocs, ocd⟩, h7, h⟩ := h
  simp only [bind, Option.bind_eq_some] at h
  obtain ⟨⟨agos, agod⟩, h8, h⟩ := h
  simp only [bind, Option.bind_eq_some] at h
  obtain ⟨⟨kwos, kwod⟩, h9, h⟩ := h
  simp only [Option.pure_def, Option.some.injEq] at h
  subst h
  have h1' := controlStep_idem h1
  have h2' := adGroupStep_idem h2
  have h3' := keywordStep_idem h3
  have h4' := negKeywordStep_idem h4
  have h5' := adCreativeStep_idem h5
  have h6' := audienceStep_idem h6
  have h7' := outcomesStep_idem h7
  have h8' := adGroupOutcomesStep_idem h8
  have h9' := keywordOutcomesStep_idem h9
  simp only [bind, Option.pure_def, h1', h2', h3', h4', h5', h6', h7', h8', h9',
    Option.some_bind]

/-- C4 witness: the theorem applied at day 0, customer "c", empty provider
responses and empty stores; the first run is the identity, so the rerun is
too. -/
theorem run_sync_idempotent_witness :
    runSyncProject 0 "c" ⟨[], [], [], [], [], [], [], [], []⟩
      ⟨[], [], [], [], [], [], [], [], [], [], [], [], [], [], [], [], [], []⟩
      = some ⟨[], [], [], [], [], [], [], [], [], [], [], [], [], [], [], [], [], []⟩ :=
  run_sync_idempotent
    (show runSyncProject 0 "c" ⟨[], [], [], [], [], [], [], [], []⟩
        ⟨[], [], [], [], [], [], [], [], [], [], [], [], [], [], [], [], [], []⟩
      = some ⟨[], [], [], [], [], [], [], [], [], [], [], [], [], [], [], [], [], []⟩ from rfl)

end PPCFlightRecorder
